import Mathlib

/-!
# Rebuild coordinator, membership engine and object ids: a shallow embedding

Definitions follow `src/rebuild/srv.c` and keep the names of the C source.
Intrusive lists (`d_list_t`) become Lean lists in list order (head first),
pool UUIDs and ranks become natural numbers, and C return codes are integers.
-/

namespace Rebuild

/-! ## Data model of the rebuild queue -/

/-- Rebuild operation codes (`daos_rebuild_opc_t`), as tested in `srv.c` 772-776. -/
inductive daos_rebuild_opc_t
  | RB_OP_FAIL
  | RB_OP_DRAIN
  | RB_OP_REINT
  | RB_OP_EXTEND
  | RB_OP_RECLAIM
deriving DecidableEq, Repr

open daos_rebuild_opc_t

/-- Modelled from the spec: `struct pool_target_id_list` lives in the pool-map
library, which is not part of the sources; the spec describes the `targets` of a
task as a set of target ids, so the list is a finite set of ids. -/
abbrev pool_target_id_list := Finset Nat

/-- Modelled from the spec: `pool_target_id_list_merge` (pool-map library, not
part of the sources) "merges `targets` into that task": when it returns 0 the
destination is the union of both id sets.  Its return code is the outcome
`merge_rc` of `sched_env`. -/
def pool_target_id_list_merge (dst src : pool_target_id_list) : pool_target_id_list :=
  dst ∪ src

/-- Modelled from the spec: the destination after `pool_target_id_list_merge` has
failed.  The function allocates while it adds ids, so it may fail part-way: the
destination keeps its ids and has got the ids of `src` that were added before the
failure, `done`. -/
def pool_target_id_list_merge_failed (dst src done : pool_target_id_list) :
    pool_target_id_list :=
  dst ∪ (src ∩ done)

/-- A queued or running rebuild task (`struct rebuild_task`, fields used by `srv.c`). -/
structure rebuild_task where
  dst_pool_uuid : Nat
  dst_map_ver : Nat
  dst_rebuild_op : daos_rebuild_opc_t
  dst_tgts : pool_target_id_list
  dst_schedule_time : Nat
deriving DecidableEq

/-- The part of `struct ds_pool` read by `ds_rebuild_schedule`. -/
structure ds_pool where
  sp_uuid : Nat
  sp_stopping : Bool
deriving DecidableEq

/-- One entry of `rgt_servers` (`struct rebuild_server_status`). -/
structure rebuild_server_status where
  rank : Nat
  scan_done : Bool
  pull_done : Bool
deriving DecidableEq

/-- The fields of `struct daos_rebuild_status` that `srv.c` reads or writes (the
declaration is in a public header outside the sources); the defaults are the
zeroed record `memset` leaves. -/
structure daos_rebuild_status where
  rs_version : Nat := 0
  rs_seconds : Nat := 0
  rs_errno : Int := 0
  rs_done : Int := 0
  rs_fail_rank : Int := 0
  rs_toberb_obj_nr : Nat := 0
  rs_obj_nr : Nat := 0
  rs_rec_nr : Nat := 0
  rs_size : Nat := 0
deriving DecidableEq

/-- The leader-side tracker `struct rebuild_global_pool_tracker`: the per-rank
array (`rgt_servers_number` is the length of `rgt_servers`) and the fields read by
`ds_rebuild_query` and `rebuild_task_ult`; the defaults are the zeroed allocation. -/
structure rebuild_global_pool_tracker where
  rgt_servers : List rebuild_server_status
  rgt_pool_uuid : Nat := 0
  rgt_rebuild_ver : Nat := 0
  rgt_status : daos_rebuild_status := {}
  rgt_abort : Bool := false
  rgt_init_scan : Bool := false
deriving DecidableEq

/-- One entry of `rg_completed_list` (`struct rebuild_status_completed`). -/
structure rebuild_status_completed where
  rsc_pool_uuid : Nat
  rsc_status : daos_rebuild_status
deriving DecidableEq

/-- The part of `struct rebuild_global` (`rebuild_gst`) used by scheduling,
dispatching and querying.  All lists are in list order, head first. -/
structure rebuild_global where
  rg_queue_list : List rebuild_task
  rg_running_list : List rebuild_task
  rg_inflight : Nat
  rg_rebuild_running : Bool
  rg_abort : Bool
  rg_global_tracker_list : List rebuild_global_pool_tracker := []
  rg_completed_list : List rebuild_status_completed := []
deriving DecidableEq

/-- Outcomes of the calls `ds_rebuild_schedule` makes into its environment:
`D_ALLOC_PTR(new_task)`, `daos_gettime_coarse`, `ABT_cond_create` (with the value
`dss_abterr2der` gives its error), `dss_ult_create(rebuild_ults)` and
`pool_target_id_list_merge`, which is called once, in `rebuild_try_merge_tgts` or for
the new task: `merge_rc` is its return code and `merge_done` the ids it had added when
it failed.  `der_nomem` is the constant `DER_NOMEM` of `daos_errno.h`, absent from the
sources. -/
structure sched_env where
  alloc_ok : Bool
  cur_ts : Nat
  cond_fail : Bool
  cond_der : Int
  ult_rc : Int
  der_nomem : Int
  merge_rc : Int := 0
  merge_done : pool_target_id_list := ∅
deriving DecidableEq

/-- State after `rebuild_gst` is initialised (`srv.c` 2246-2247): both lists empty. -/
def rebuild_gst_init : rebuild_global :=
  { rg_queue_list := [], rg_running_list := [], rg_inflight := 0,
    rg_rebuild_running := false, rg_abort := false }

/-! ## `rebuild_try_merge_tgts` and `ds_rebuild_schedule` -/

/-- The merge applied to `merge_task` (`srv.c` 1047-1056): targets are merged and
`dst_map_ver` is raised when it is below `map_ver`. -/
def merge_into (task : rebuild_task) (map_ver : Nat) (tgts : pool_target_id_list) :
    rebuild_task :=
  { task with
    dst_tgts := pool_target_id_list_merge task.dst_tgts tgts
    dst_map_ver := if task.dst_map_ver < map_ver then map_ver else task.dst_map_ver }

/-- The task a failed `pool_target_id_list_merge` leaves behind (`srv.c` 1048-1050):
the function returns before `dst_map_ver` is looked at. -/
def merge_failed (task : rebuild_task) (tgts done : pool_target_id_list) : rebuild_task :=
  { task with dst_tgts := pool_target_id_list_merge_failed task.dst_tgts tgts done }

/-- Translation of `rebuild_try_merge_tgts` (`srv.c` 1002-1066) on the queue.
The loop skips tasks of other pools (`continue`); at the first task of the pool
it sets `merge_task` to that task when the op is the same and to `NULL`
otherwise, and then leaves the loop through the `break` of line 1034.
Returns 0 and the queue as it was when there is no `merge_task`, the return code of
`pool_target_id_list_merge` when that is not 0 (lines 1048-1050), and else 1 and the
queue with the merged task. -/
def rebuild_try_merge_tgts (env : sched_env) (pool_uuid map_ver : Nat)
    (rebuild_op : daos_rebuild_opc_t) (tgts : pool_target_id_list) :
    List rebuild_task → Int × List rebuild_task
  | [] => (0, [])
  | task :: rest =>
    if task.dst_pool_uuid ≠ pool_uuid then
      let r := rebuild_try_merge_tgts env pool_uuid map_ver rebuild_op tgts rest
      (r.1, task :: r.2)
    else if task.dst_rebuild_op ≠ rebuild_op then
      (0, task :: rest)
    else if env.merge_rc ≠ 0 then
      (env.merge_rc, merge_failed task tgts env.merge_done :: rest)
    else
      (1, merge_into task map_ver tgts :: rest)

/-- The ordered insertion of `ds_rebuild_schedule` (`srv.c` 1630-1642):
`inserted_pos` is the first task of the same pool whose `dst_map_ver` is not
below the new one, or the list head; `d_list_add_tail` puts the new task right
before `inserted_pos` (at the tail when it is the head). -/
def queue_insert (new_task : rebuild_task) : List rebuild_task → List rebuild_task
  | [] => [new_task]
  | task :: rest =>
    if task.dst_pool_uuid ≠ new_task.dst_pool_uuid then
      task :: queue_insert new_task rest
    else if new_task.dst_map_ver > task.dst_map_ver then
      task :: queue_insert new_task rest
    else
      new_task :: task :: rest

/-- Translation of `ds_rebuild_schedule` (`srv.c` 1582-1670): return code and new
global state.  A failed `pool_target_id_list_merge` for the new task (lines 1621-1623)
goes to `free` before the task is queued; on the later `free` paths
`rebuild_task_destroy` unlinks the new task, which restores the queue. -/
def ds_rebuild_schedule (env : sched_env) (gst : rebuild_global) (pool : ds_pool)
    (map_ver : Nat) (tgts : pool_target_id_list) (rebuild_op : daos_rebuild_opc_t)
    (delay_sec : Nat) : Int × rebuild_global :=
  if pool.sp_stopping then (0, gst)
  else
    let m :=
      rebuild_try_merge_tgts env pool.sp_uuid map_ver rebuild_op tgts gst.rg_queue_list
    if m.1 ≠ 0 then
      ((if m.1 = 1 then 0 else m.1), { gst with rg_queue_list := m.2 })
    else if env.alloc_ok = false then
      (-env.der_nomem, gst)
    else if env.merge_rc ≠ 0 then
      (env.merge_rc, gst)
    else
      let new_task : rebuild_task :=
        { dst_pool_uuid := pool.sp_uuid
          dst_map_ver := map_ver
          dst_rebuild_op := rebuild_op
          dst_tgts := pool_target_id_list_merge ∅ tgts
          dst_schedule_time := (env.cur_ts + delay_sec) % 2 ^ 64 }
      let queued : rebuild_global :=
        { gst with rg_queue_list := queue_insert new_task gst.rg_queue_list }
      if gst.rg_rebuild_running then (0, queued)
      else if env.cond_fail then
        (if env.cond_der ≠ 0 then (env.cond_der, gst) else (0, queued))
      else if env.ult_rc ≠ 0 then
        (env.ult_rc, { gst with rg_rebuild_running := false })
      else
        (0, { queued with rg_rebuild_running := true })

/-- Queue after a sequence of `ds_rebuild_schedule` requests
`(pool, map_ver, tgts, op, delay)`, each with its own environment outcome. -/
def schedule_all (gst : rebuild_global) :
    List (sched_env × ds_pool × Nat × pool_target_id_list × daos_rebuild_opc_t × Nat) →
      rebuild_global
  | [] => gst
  | (env, pool, v, tgts, op, delay) :: rest =>
    schedule_all (ds_rebuild_schedule env gst pool v tgts op delay).2 rest

/-- The `dst_map_ver` values of the queued tasks of one pool, in queue order. -/
def pool_vers (pool_uuid : Nat) (q : List rebuild_task) : List Nat :=
  (q.filter (fun t => t.dst_pool_uuid = pool_uuid)).map (fun t => t.dst_map_ver)

/-- The queued tasks of every pool are in non-decreasing `dst_map_ver` order. -/
def queue_sorted (q : List rebuild_task) : Prop :=
  ∀ pool_uuid, (pool_vers pool_uuid q).Pairwise (· ≤ ·)

/-- An environment in which every call succeeds, at clock value 0. -/
def env_ok : sched_env :=
  { alloc_ok := true, cur_ts := 0, cond_fail := false, cond_der := 0, ult_rc := 0,
    der_nomem := 1009 }

/-- A running pool with uuid 1. -/
def pool1 : ds_pool := { sp_uuid := 1, sp_stopping := false }

/-! ## The leader's per-rank tracker -/

/-- The fields of a per-rank report (`struct rebuild_iv`) read by
`rebuild_global_status_update`. -/
structure rebuild_iv where
  riv_rank : Nat
  riv_scan_done : Bool
  riv_pull_done : Bool
  riv_status : Int
deriving DecidableEq

/-- Flag `SCAN_DONE` (`srv.c` 160). -/
def SCAN_DONE : Nat := 0x1

/-- Flag `PULL_DONE` (`srv.c` 161). -/
def PULL_DONE : Nat := 0x2

/-- Translation of `is_rebuild_global_scan_done` (`srv.c` 138-150); `none` is the
failed assertion `rgt_servers_number > 0`. -/
def is_rebuild_global_scan_done (rgt : rebuild_global_pool_tracker) : Option Bool :=
  if rgt.rgt_servers.length > 0 then some (rgt.rgt_servers.all (fun s => s.scan_done))
  else none

/-- Translation of `is_rebuild_global_pull_done` (`srv.c` 124-136). -/
def is_rebuild_global_pull_done (rgt : rebuild_global_pool_tracker) : Option Bool :=
  if rgt.rgt_servers.length > 0 then some (rgt.rgt_servers.all (fun s => s.pull_done))
  else none

/-- The two flag updates of `rebuild_leader_set_status` (`srv.c` 179-182). -/
def apply_flags (flags : Nat) (s : rebuild_server_status) : rebuild_server_status :=
  { s with
    scan_done := if flags &&& SCAN_DONE ≠ 0 then true else s.scan_done
    pull_done := if flags &&& PULL_DONE ≠ 0 then true else s.pull_done }

/-- The search loop of `rebuild_leader_set_status` (`srv.c` 171-176) followed by the
flag updates: the first entry with the rank is updated; `none` when no entry has
the rank (`status == NULL`). -/
def set_status_servers (rank flags : Nat) :
    List rebuild_server_status → Option (List rebuild_server_status)
  | [] => none
  | s :: rest =>
    if s.rank = rank then some (apply_flags flags s :: rest)
    else (set_status_servers rank flags rest).map (fun l => s :: l)

/-- Translation of `rebuild_leader_set_status` (`srv.c` 162-183); `none` is a
failed assertion (empty tracker, or rank not found). -/
def rebuild_leader_set_status (rgt : rebuild_global_pool_tracker) (rank flags : Nat) :
    Option rebuild_global_pool_tracker :=
  if rgt.rgt_servers.length > 0 then
    (set_status_servers rank flags rgt.rgt_servers).map
      (fun l => { rgt with rgt_servers := l })
  else none

/-- Lines 229-235 of `rebuild_global_status_update`: the pull flag is honoured. -/
def status_update_pull (rgt : rebuild_global_pool_tracker) (iv : rebuild_iv) :
    Option (Int × rebuild_global_pool_tracker) :=
  if iv.riv_pull_done then
    (rebuild_leader_set_status rgt iv.riv_rank PULL_DONE).map (fun r => (0, r))
  else some (0, rgt)

/-- Translation of `rebuild_global_status_update` (`srv.c` 204-236): return code
and new tracker; `none` when an assertion of a callee fails. -/
def rebuild_global_status_update (rgt : rebuild_global_pool_tracker) (iv : rebuild_iv) :
    Option (Int × rebuild_global_pool_tracker) :=
  if iv.riv_scan_done = false then some (0, rgt)
  else
    match is_rebuild_global_scan_done rgt with
    | none => none
    | some true => status_update_pull rgt iv
    | some false =>
      match rebuild_leader_set_status rgt iv.riv_rank SCAN_DONE with
      | none => none
      | some rgt1 =>
        if iv.riv_status = 0 then some (0, rgt1)
        else status_update_pull rgt1 iv

/-- The per-rank array built by `rebuild_global_pool_tracker_create`
(`srv.c` 680-694): one zero-initialised entry per node of the pool map. -/
def rebuild_global_pool_tracker_create (doms : List Nat) : rebuild_global_pool_tracker :=
  { rgt_servers := doms.map (fun r => { rank := r, scan_done := false, pull_done := false }) }

/-- What the leader does to a tracker: it takes a report through
`rebuild_global_status_update`, or `rebuild_leader_status_check` marks an
unavailable rank with `SCAN_DONE|PULL_DONE` (`srv.c` 548-553). -/
inductive leader_event
  | report (iv : rebuild_iv)
  | failed_rank (rank : Nat)
deriving DecidableEq

/-- The rank an event is about. -/
def leader_event.rank : leader_event → Nat
  | leader_event.report iv => iv.riv_rank
  | leader_event.failed_rank r => r

/-- One leader event applied to the tracker. -/
def leader_step (rgt : rebuild_global_pool_tracker) :
    leader_event → Option rebuild_global_pool_tracker
  | leader_event.report iv => (rebuild_global_status_update rgt iv).map (fun r => r.2)
  | leader_event.failed_rank r => rebuild_leader_set_status rgt r (SCAN_DONE ||| PULL_DONE)

/-- A sequence of leader events applied in order. -/
def leader_run (rgt : rebuild_global_pool_tracker) :
    List leader_event → Option rebuild_global_pool_tracker
  | [] => some rgt
  | e :: es =>
    match leader_step rgt e with
    | none => none
    | some rgt1 => leader_run rgt1 es

/-- The entry of a rank as the lookup loop finds it: the first one with the rank. -/
def rgt_lookup (rgt : rebuild_global_pool_tracker) (rank : Nat) :
    Option rebuild_server_status :=
  rgt.rgt_servers.find? (fun s => s.rank = rank)

/-- Number of entries whose `scan_done` is set. -/
def scan_done_count (rgt : rebuild_global_pool_tracker) : Nat :=
  rgt.rgt_servers.countP (fun s => s.scan_done)

/-- Number of entries whose `pull_done` is set. -/
def pull_done_count (rgt : rebuild_global_pool_tracker) : Nat :=
  rgt.rgt_servers.countP (fun s => s.pull_done)

/-- Every entry with `pull_done` set has `scan_done` set. -/
def pull_implies_scan (rgt : rebuild_global_pool_tracker) : Prop :=
  ∀ s ∈ rgt.rgt_servers, s.pull_done = true → s.scan_done = true

/-! ## The dispatcher `rebuild_ults` -/

/-- Constant `REBUILD_MAX_INFLIGHT` (`srv.c` 1387). -/
def REBUILD_MAX_INFLIGHT : Nat := 10

/-- Translation of `pool_is_rebuilding` (`srv.c` 1375-1385) on the running list. -/
def pool_is_rebuilding (running : List rebuild_task) (pool_uuid : Nat) : Bool :=
  running.any (fun t => t.dst_pool_uuid = pool_uuid)

/-- The `d_list_for_each_entry_safe` loop of `rebuild_ults` (`srv.c` 1413-1437) over
the tasks still to visit.  `ult_rc k` is the result of the `k`-th call of
`dss_ult_create` in the pass.  Returns the tasks left on the queue (in order), the
running list (`d_list_move` puts a task at its head) and `rg_inflight`, a 32-bit
counter. -/
def rebuild_ults_dispatch (ult_rc : Nat → Int) :
    Nat → List rebuild_task → List rebuild_task → Nat →
      List rebuild_task × List rebuild_task × Nat
  | _, [], running, inflight => ([], running, inflight)
  | k, task :: rest, running, inflight =>
    if pool_is_rebuilding running task.dst_pool_uuid then
      let r := rebuild_ults_dispatch ult_rc k rest running inflight
      (task :: r.1, r.2.1, r.2.2)
    else if ult_rc k = 0 then
      rebuild_ults_dispatch ult_rc (k + 1) rest (task :: running) ((inflight + 1) % 2 ^ 32)
    else
      let r := rebuild_ults_dispatch ult_rc (k + 1) rest running inflight
      (task :: r.1, r.2.1, r.2.2)

/-- One iteration of the `while` loop of `rebuild_ults` (`srv.c` 1398-1439): nothing
is dispatched when the loop is left (both lists empty, or `rg_abort`) or when the
gate of lines 1405-1411 sleeps; otherwise the queue is walked once. -/
def rebuild_ults_pass (ult_rc : Nat → Int) (gst : rebuild_global) : rebuild_global :=
  if gst.rg_queue_list.isEmpty && gst.rg_running_list.isEmpty then gst
  else if gst.rg_abort then gst
  else if gst.rg_queue_list.isEmpty || gst.rg_inflight ≥ REBUILD_MAX_INFLIGHT then gst
  else
    let r := rebuild_ults_dispatch ult_rc 0 gst.rg_queue_list gst.rg_running_list
      gst.rg_inflight
    { gst with rg_queue_list := r.1, rg_running_list := r.2.1, rg_inflight := r.2.2 }

/-- The queued or running tasks of one pool, in list order. -/
def pool_tasks (pool_uuid : Nat) (l : List rebuild_task) : List rebuild_task :=
  l.filter (fun t => t.dst_pool_uuid = pool_uuid)

/-- A task of the given pool, op and version for the examples. -/
def mk_task (pool_uuid map_ver : Nat) (op : daos_rebuild_opc_t)
    (tgts : pool_target_id_list) : rebuild_task :=
  { dst_pool_uuid := pool_uuid, dst_map_ver := map_ver, dst_rebuild_op := op,
    dst_tgts := tgts, dst_schedule_time := 0 }

/-! ## `ds_rebuild_query` -/

/-- Translation of `rebuild_global_pool_tracker_lookup` (`srv.c` 722-741): the first
tracker of the pool whose version matches; `ver` equal to `(unsigned int)(-1)`
matches every version. -/
def rebuild_global_pool_tracker_lookup (gst : rebuild_global) (pool_uuid ver : Nat) :
    Option rebuild_global_pool_tracker :=
  gst.rg_global_tracker_list.find?
    (fun rgt => rgt.rgt_pool_uuid = pool_uuid ∧ (ver = 2 ^ 32 - 1 ∨ rgt.rgt_rebuild_ver = ver))

/-- Translation of `rebuild_status_completed_lookup` (`srv.c` 238-252). -/
def rebuild_status_completed_lookup (gst : rebuild_global) (pool_uuid : Nat) :
    Option daos_rebuild_status :=
  (gst.rg_completed_list.find? (fun rsc => rsc.rsc_pool_uuid = pool_uuid)).map
    (fun rsc => rsc.rsc_status)

/-- Translation of `ds_rebuild_query` (`srv.c` 439-483): return code and the status
written to the caller's buffer. -/
def ds_rebuild_query (gst : rebuild_global) (pool_uuid : Nat) : Int × daos_rebuild_status :=
  let status : daos_rebuild_status :=
    match rebuild_global_pool_tracker_lookup gst pool_uuid (2 ^ 32 - 1) with
    | none =>
      match rebuild_status_completed_lookup gst pool_uuid with
      | some rs_inlist => rs_inlist
      | none => { ({} : daos_rebuild_status) with rs_done := 1 }
    | some rgt => { rgt.rgt_status with rs_version := rgt.rgt_rebuild_ver }
  if status.rs_done = 1 ∧ gst.rg_queue_list.isEmpty = false then
    if gst.rg_queue_list.any (fun task => task.dst_pool_uuid = pool_uuid) then
      (0, { status with rs_done := 0 })
    else (0, status)
  else (0, status)

/-! ## `rebuild_task_ult` from `rebuild_leader_start` on -/

/-- Translation of `is_rebuild_global_done` (`srv.c` 152-158). -/
def is_rebuild_global_done (rgt : rebuild_global_pool_tracker) : Option Bool :=
  match is_rebuild_global_scan_done rgt with
  | none => none
  | some false => some false
  | some true => is_rebuild_global_pull_done rgt

/-- The calls `rebuild_task_ult` makes to its collaborators, with the arguments
that matter: pool uuid, map version, targets, op, delay, status, return code. -/
inductive task_call
  | rebuild_notify_ras_start
  | ds_pool_tgt_exclude_out (pool_uuid : Nat) (tgts : pool_target_id_list)
  | ds_pool_tgt_add_in (pool_uuid : Nat) (tgts : pool_target_id_list)
  | rebuild_iv_update
  | ds_rebuild_schedule (pool_uuid map_ver : Nat) (tgts : pool_target_id_list)
      (opc : daos_rebuild_opc_t) (delay_sec : Nat)
  | rebuild_status_completed_update (pool_uuid : Nat) (rs : daos_rebuild_status)
  | rebuild_notify_ras_end (rc : Int)
deriving DecidableEq

/-- What `rebuild_task_ult` gets from its environment: the pool found by
`ds_pool_lookup`; return code and tracker of `rebuild_leader_start`; the tracker as
`rebuild_leader_status_check` leaves it; own rank and IV master rank; the return
codes of the pool-map and IV calls; and the constants `DER_CANCELED` and
`DER_NOTLEADER` of `daos_errno.h`, absent from the sources. -/
structure task_ult_env where
  pool : Option ds_pool
  start_rc : Int
  start_rgt : Option rebuild_global_pool_tracker
  status_check : rebuild_global_pool_tracker → rebuild_global_pool_tracker
  myrank : Nat
  iv_master_rank : Nat
  exclude_out_rc : Int
  add_in_rc : Int
  iv_update_rc : Int
  der_canceled : Int
  der_notleader : Int

/-- Label `try_reschedule` to the end of `rebuild_task_ult` (`srv.c` 1312-1358);
`none` is a failed assertion of `is_rebuild_global_done`. -/
def task_try_reschedule (task : rebuild_task) (pool : ds_pool)
    (rgt : Option rebuild_global_pool_tracker) (rc : Int) : Option (List task_call) :=
  match rgt with
  | none =>
    some [task_call.ds_rebuild_schedule pool.sp_uuid task.dst_map_ver task.dst_tgts
            task.dst_rebuild_op 5,
          task_call.rebuild_notify_ras_end rc]
  | some r =>
    match is_rebuild_global_done r with
    | none => none
    | some done =>
      if done = false ∨ r.rgt_status.rs_errno ≠ 0 ∨
          task.dst_rebuild_op = daos_rebuild_opc_t.RB_OP_REINT then
        let opc :=
          if done = true ∧ r.rgt_status.rs_errno = 0 ∧
              task.dst_rebuild_op = daos_rebuild_opc_t.RB_OP_REINT then
            daos_rebuild_opc_t.RB_OP_RECLAIM
          else task.dst_rebuild_op
        some [task_call.ds_rebuild_schedule pool.sp_uuid task.dst_map_ver task.dst_tgts opc 5,
              task_call.rebuild_notify_ras_end rc]
      else
        some [task_call.rebuild_status_completed_update task.dst_pool_uuid r.rgt_status,
              task_call.rebuild_notify_ras_end rc]

/-- Label `iv_stop` (`srv.c` 1271-1310) and what follows. -/
def task_iv_stop (env : task_ult_env) (task : rebuild_task) (pool : ds_pool)
    (r : rebuild_global_pool_tracker) (rc : Int) : Option (List task_call) :=
  if r.rgt_init_scan then
    if env.myrank ≠ env.iv_master_rank then task_try_reschedule task pool (some r) rc
    else
      match is_rebuild_global_scan_done r with
      | none => none
      | some _ =>
        (task_try_reschedule task pool (some r) env.iv_update_rc).map
          (fun l => task_call.rebuild_iv_update :: l)
  else task_try_reschedule task pool (some r) rc

/-- Label `done` (`srv.c` 1231-1270) and what follows.  When the tracker is not
globally done, was aborted and has no error, the function leaves through
`out_pool` without a further call. -/
def task_done (env : task_ult_env) (task : rebuild_task) (pool : ds_pool)
    (r : rebuild_global_pool_tracker) (rc : Int) : Option (List task_call) :=
  match is_rebuild_global_done r with
  | none => none
  | some false =>
    if r.rgt_abort = true ∧ r.rgt_status.rs_errno = 0 then some []
    else task_iv_stop env task pool r rc
  | some true =>
    if task.dst_tgts.card = 0 ∨ r.rgt_status.rs_errno ≠ 0 then
      task_iv_stop env task pool r rc
    else if task.dst_rebuild_op = daos_rebuild_opc_t.RB_OP_FAIL ∨
        task.dst_rebuild_op = daos_rebuild_opc_t.RB_OP_DRAIN then
      (task_iv_stop env task pool r env.exclude_out_rc).map
        (fun l => task_call.ds_pool_tgt_exclude_out pool.sp_uuid task.dst_tgts :: l)
    else if task.dst_rebuild_op = daos_rebuild_opc_t.RB_OP_REINT ∨
        task.dst_rebuild_op = daos_rebuild_opc_t.RB_OP_EXTEND then
      (task_iv_stop env task pool r env.add_in_rc).map
        (fun l => task_call.ds_pool_tgt_add_in pool.sp_uuid task.dst_tgts :: l)
    else task_iv_stop env task pool r rc

/-- Translation of `rebuild_task_ult` (`srv.c` 1155-1373) as the list of calls it
makes, in order; `none` is a crash (NULL tracker after a successful start, or a
failed assertion). -/
def rebuild_task_ult (env : task_ult_env) (task : rebuild_task) : Option (List task_call) :=
  match env.pool with
  | none => some []
  | some pool =>
    if env.start_rc ≠ 0 then
      if env.start_rc = -env.der_canceled ∨ env.start_rc = -env.der_notleader then
        some [task_call.rebuild_notify_ras_start, task_call.rebuild_notify_ras_end 0]
      else
        match env.start_rgt with
        | some r =>
          (task_done env task pool
            { r with rgt_abort := true
                     rgt_status := { r.rgt_status with rs_errno := env.start_rc } }
            env.start_rc).map (fun l => task_call.rebuild_notify_ras_start :: l)
        | none =>
          (task_try_reschedule task pool none env.start_rc).map
            (fun l => task_call.rebuild_notify_ras_start :: l)
    else
      match env.start_rgt with
      | none => none
      | some r =>
        (task_done env task pool (env.status_check r) 0).map
          (fun l => task_call.rebuild_notify_ras_start :: l)

/-- The pool-map transition requests among a list of calls. -/
def transition_calls (l : List task_call) : List task_call :=
  l.filter (fun c =>
    match c with
    | task_call.ds_pool_tgt_exclude_out _ _ => true
    | task_call.ds_pool_tgt_add_in _ _ => true
    | _ => false)

/-- The `ds_rebuild_schedule` calls among a list of calls. -/
def schedule_calls (l : List task_call) : List task_call :=
  l.filter (fun c =>
    match c with
    | task_call.ds_rebuild_schedule _ _ _ _ _ => true
    | _ => false)

/-- The `rebuild_status_completed_update` calls among a list of calls. -/
def completed_calls (l : List task_call) : List task_call :=
  l.filter (fun c =>
    match c with
    | task_call.rebuild_status_completed_update _ _ => true
    | _ => false)

/-- A tracker of ranks 0 and 1 on which both ranks have finished scan and pull. -/
def rgt_all_done : rebuild_global_pool_tracker :=
  { rgt_servers := [⟨0, true, true⟩, ⟨1, true, true⟩], rgt_init_scan := true }

/-- An environment of `rebuild_task_ult` on the leader (rank 0) in which the pool is
found, `rebuild_leader_start` succeeds and the status check ends with every rank
done. -/
def task_env_done : task_ult_env :=
  { pool := some pool1, start_rc := 0, start_rgt := some rgt_all_done,
    status_check := fun r => r, myrank := 0, iv_master_rank := 0,
    exclude_out_rc := 0, add_in_rc := 0, iv_update_rc := 0,
    der_canceled := 2018, der_notleader := 2008 }

/-! ## `ds_rebuild_leader_stop` -/

/-- The test of the loop of `ds_rebuild_leader_stop` (`srv.c` 1498-1499): the task is
of the pool and `version` is `(unsigned int)(-1)` or the task's `dst_map_ver`. -/
def stop_match (pool_uuid version : Nat) (task : rebuild_task) : Bool :=
  task.dst_pool_uuid = pool_uuid ∧ (version = 2 ^ 32 - 1 ∨ task.dst_map_ver = version)

/-- The loop of `ds_rebuild_leader_stop` (`srv.c` 1496-1504) on the queue: a task that
passes the test is destroyed (`rebuild_task_destroy` unlinks it), and for a `version`
other than -1 the loop ends right after the first task it destroys. -/
def leader_stop_queue (pool_uuid version : Nat) : List rebuild_task → List rebuild_task
  | [] => []
  | task :: rest =>
    if stop_match pool_uuid version task then
      if version ≠ 2 ^ 32 - 1 then rest
      else leader_stop_queue pool_uuid version rest
    else task :: leader_stop_queue pool_uuid version rest

/-- Lines 1510-1516 of `ds_rebuild_leader_stop` on the tracker list: the tracker that
`rebuild_global_pool_tracker_lookup` finds gets `rgt_abort = 1`. -/
def tracker_list_abort (pool_uuid ver : Nat) :
    List rebuild_global_pool_tracker → List rebuild_global_pool_tracker
  | [] => []
  | rgt :: rest =>
    if rgt.rgt_pool_uuid = pool_uuid ∧ (ver = 2 ^ 32 - 1 ∨ rgt.rgt_rebuild_ver = ver) then
      { rgt with rgt_abort := true } :: rest
    else rgt :: tracker_list_abort pool_uuid ver rest

/-- Translation of `ds_rebuild_leader_stop` (`srv.c` 1487-1529): the global state at
the point where the caller starts to wait on `rgt_done_cond` (or returns, when no
tracker is found). -/
def ds_rebuild_leader_stop (gst : rebuild_global) (pool_uuid version : Nat) : rebuild_global :=
  { gst with
    rg_queue_list := leader_stop_queue pool_uuid version gst.rg_queue_list
    rg_global_tracker_list := tracker_list_abort pool_uuid version gst.rg_global_tracker_list }

/-! ## Frame of a status report -/

/-- What a report of `rank` may do to one entry of `rgt_servers`: the rank stays, a set
flag stays set, and an entry of another rank stays as it is. -/
def entry_frame (rank : Nat) (s s' : rebuild_server_status) : Prop :=
  s'.rank = s.rank ∧ (s.scan_done = true → s'.scan_done = true) ∧
    (s.pull_done = true → s'.pull_done = true) ∧ (s.rank ≠ rank → s' = s)

/-! ## `rebuild_tgt_status_check_ult` -/

/-- The fields of `struct rebuild_tgt_pool_tracker` the status check loop reads or
writes (`srv.c` 1868-2014).  The four `rt_reported_*` counters hold what the leader
acknowledged last; they are 64 bits wide (the declaration is in a header outside the
sources). -/
structure rebuild_tgt_pool_tracker where
  rt_reported_toberb_objs : Nat := 0
  rt_reported_obj_cnt : Nat := 0
  rt_reported_rec_cnt : Nat := 0
  rt_reported_size : Nat := 0
  rt_re_report : Bool := false
  rt_global_done : Bool := false
  rt_global_scan_done : Bool := false
  rt_scan_done : Bool := false
  rt_abort : Bool := false
  rt_errno : Int := 0
  rt_rank : Nat := 0
deriving DecidableEq

/-- What `rebuild_tgt_query` fills in (`struct rebuild_tgt_query_info`): the counters
are 64 bits wide. -/
structure rebuild_tgt_query_info where
  scanning : Int := 0
  status : Int := 0
  obj_count : Nat := 0
  tobe_obj_count : Nat := 0
  rec_count : Nat := 0
  size : Nat := 0
  rebuilding : Bool := false
deriving DecidableEq

/-- The four 64-bit progress counters of a report (`struct rebuild_iv`), the fields the
status check loop sets besides those of `rebuild_iv` above. -/
structure rebuild_iv_progress where
  riv_toberb_obj_count : Nat
  riv_obj_count : Nat
  riv_rec_count : Nat
  riv_size : Nat
deriving DecidableEq

/-- Outcomes of the calls one round of the status check loop makes:
`ABT_mutex_create`, `rebuild_tgt_query` (return code and the record it fills),
`DAOS_FAIL_CHECK(DAOS_REBUILD_TGT_IV_UPDATE_FAIL)`, `rebuild_iv_update` and the value
of `ns->iv_stop`; `der_inval` and `der_nonexist` are the constants of `daos_errno.h`. -/
structure tgt_check_env where
  mutex_ok : Bool
  query_rc : Int
  query_status : rebuild_tgt_query_info
  fail_check : Bool
  iv_update_rc : Int
  iv_stop : Bool
  der_inval : Int
  der_nonexist : Int
deriving DecidableEq

/-- Result of one round: the tracker, the report that was built, the return code of
the update (`none` when the round did not get to the update) and whether the loop is
left. -/
structure tgt_check_result where
  rpt : rebuild_tgt_pool_tracker
  iv : rebuild_iv
  progress : rebuild_iv_progress
  update_rc : Option Int
  stop : Bool
deriving DecidableEq

/-- The clamp of lines 1908-1915: a counter below the acknowledged value is raised to
it. -/
def tgt_clamp (count reported : Nat) : Nat :=
  if count < reported then reported else count

/-- Difference of two 64-bit counters as C computes it. -/
def u64_sub (a b : Nat) : Nat :=
  (a + 2 ^ 64 - b % 2 ^ 64) % 2 ^ 64

/-- Lines 1892-1900 of the loop: the value of `status.status` after the query; a
failed query with a clean status puts its return code there. -/
def tgt_query_status (env : tgt_check_env) : Int :=
  if env.query_rc ≠ 0 ∨ env.query_status.status ≠ 0 then
    (if env.query_status.status = 0 then env.query_rc else env.query_status.status)
  else env.query_status.status

/-- Lines 1892-1900 of the loop on the tracker: the first error is kept in `rt_errno`. -/
def tgt_note_errno (env : tgt_check_env) (rpt : rebuild_tgt_pool_tracker) :
    rebuild_tgt_pool_tracker :=
  if env.query_rc ≠ 0 ∨ env.query_status.status ≠ 0 then
    (if rpt.rt_errno = 0 then { rpt with rt_errno := tgt_query_status env } else rpt)
  else rpt

/-- Lines 1908-1930 of the loop: the counters of the query are clamped and the report
carries them as they are when `rt_re_report` is set and else as differences to the
acknowledged counters. -/
def tgt_progress (env : tgt_check_env) (rpt : rebuild_tgt_pool_tracker) :
    rebuild_iv_progress :=
  let obj_count := tgt_clamp env.query_status.obj_count rpt.rt_reported_obj_cnt
  let rec_count := tgt_clamp env.query_status.rec_count rpt.rt_reported_rec_cnt
  let size := tgt_clamp env.query_status.size rpt.rt_reported_size
  let tobe_obj_count := tgt_clamp env.query_status.tobe_obj_count rpt.rt_reported_toberb_objs
  if rpt.rt_re_report then
    { riv_toberb_obj_count := tobe_obj_count, riv_obj_count := obj_count,
      riv_rec_count := rec_count, riv_size := size }
  else
    { riv_toberb_obj_count := u64_sub tobe_obj_count rpt.rt_reported_toberb_objs
      riv_obj_count := u64_sub obj_count rpt.rt_reported_obj_cnt
      riv_rec_count := u64_sub rec_count rpt.rt_reported_rec_cnt
      riv_size := u64_sub size rpt.rt_reported_size }

/-- The test of lines 1932-1933: the scan is reported as done. -/
def tgt_scan_done (env : tgt_check_env) (rpt : rebuild_tgt_pool_tracker) : Bool :=
  env.query_status.scanning = 0 ∨ rpt.rt_abort = true ∨ tgt_query_status env ≠ 0

/-- Lines 1932-1936 of the loop on the tracker. -/
def tgt_note_scan (env : tgt_check_env) (rpt : rebuild_tgt_pool_tracker) :
    rebuild_tgt_pool_tracker :=
  if tgt_scan_done env rpt then { rpt with rt_scan_done := true } else rpt

/-- The test of lines 1939-1941: the pull is reported as done. -/
def tgt_pull_done (env : tgt_check_env) (rpt : rebuild_tgt_pool_tracker) : Bool :=
  (rpt.rt_global_scan_done = true ∧ env.query_status.rebuilding = false) ∨ rpt.rt_abort = true

/-- Lines 1958-1993 of the loop: the report is sent (or the fail point gives
`-DER_INVAL`); on success the acknowledged counters are brought up to date, else
`rt_global_done` and `rt_abort` may be set.  Returns the return code and the tracker. -/
def tgt_iv_update (env : tgt_check_env) (rpt : rebuild_tgt_pool_tracker)
    (progress : rebuild_iv_progress) : Int × rebuild_tgt_pool_tracker :=
  let rc : Int := if env.fail_check then -env.der_inval else env.iv_update_rc
  if rc = 0 then
    (rc,
     { rpt with
       rt_reported_toberb_objs :=
         if rpt.rt_re_report then progress.riv_toberb_obj_count
         else (rpt.rt_reported_toberb_objs + progress.riv_toberb_obj_count) % 2 ^ 64
       rt_re_report := false
       rt_reported_obj_cnt := tgt_clamp env.query_status.obj_count rpt.rt_reported_obj_cnt
       rt_reported_rec_cnt := tgt_clamp env.query_status.rec_count rpt.rt_reported_rec_cnt
       rt_reported_size := tgt_clamp env.query_status.size rpt.rt_reported_size })
  else
    let rpt1 : rebuild_tgt_pool_tracker :=
      if rc = -env.der_nonexist ∧ env.query_status.rebuilding = false then
        { rpt with rt_global_done := true }
      else rpt
    (rc, if env.iv_stop then { rpt1 with rt_abort := true } else rpt1)

/-- One round of the `while (1)` loop of `rebuild_tgt_status_check_ult`
(`srv.c` 1881-2006). -/
def rebuild_tgt_status_check_round (env : tgt_check_env) (rpt : rebuild_tgt_pool_tracker) :
    tgt_check_result :=
  if env.mutex_ok = false then
    { rpt := rpt
      iv := { riv_rank := 0, riv_scan_done := false, riv_pull_done := false, riv_status := 0 }
      progress := { riv_toberb_obj_count := 0, riv_obj_count := 0, riv_rec_count := 0,
                    riv_size := 0 }
      update_rc := none, stop := true }
  else
    let rpt1 := tgt_note_errno env rpt
    let progress := tgt_progress env rpt1
    let rpt2 := tgt_note_scan env rpt1
    if rpt2.rt_global_done then
      { rpt := rpt2
        iv := { riv_rank := 0, riv_scan_done := tgt_scan_done env rpt1,
                riv_pull_done := tgt_pull_done env rpt2, riv_status := tgt_query_status env }
        progress := progress, update_rc := none, stop := true }
    else
      let r := tgt_iv_update env rpt2 progress
      { rpt := r.2
        iv := { riv_rank := rpt2.rt_rank, riv_scan_done := tgt_scan_done env rpt1,
                riv_pull_done := tgt_pull_done env rpt2, riv_status := tgt_query_status env }
        progress := progress, update_rc := some r.1
        stop := r.2.rt_global_done || r.2.rt_abort }

/-- The loop of `rebuild_tgt_status_check_ult`: rounds are run, each with the outcomes
of its own calls, until one leaves the loop. -/
def rebuild_tgt_status_check_ult (rpt : rebuild_tgt_pool_tracker) :
    List tgt_check_env → rebuild_tgt_pool_tracker
  | [] => rpt
  | env :: rest =>
    let r := rebuild_tgt_status_check_round env rpt
    if r.stop then r.rpt else rebuild_tgt_status_check_ult r.rpt rest

/-- The counters of a tracker and of a query result fit in 64 bits. -/
def counters_in_range (rpt : rebuild_tgt_pool_tracker) : Prop :=
  rpt.rt_reported_toberb_objs < 2 ^ 64 ∧ rpt.rt_reported_obj_cnt < 2 ^ 64 ∧
    rpt.rt_reported_rec_cnt < 2 ^ 64 ∧ rpt.rt_reported_size < 2 ^ 64

/-- The counters `rebuild_tgt_query` returns fit in 64 bits. -/
def query_in_range (env : tgt_check_env) : Prop :=
  env.query_status.tobe_obj_count < 2 ^ 64 ∧ env.query_status.obj_count < 2 ^ 64 ∧
    env.query_status.rec_count < 2 ^ 64 ∧ env.query_status.size < 2 ^ 64

/-- Every acknowledged counter of `b` is at least the one of `a`. -/
def reported_le (a b : rebuild_tgt_pool_tracker) : Prop :=
  a.rt_reported_toberb_objs ≤ b.rt_reported_toberb_objs ∧
    a.rt_reported_obj_cnt ≤ b.rt_reported_obj_cnt ∧
    a.rt_reported_rec_cnt ≤ b.rt_reported_rec_cnt ∧
    a.rt_reported_size ≤ b.rt_reported_size

/-- A tracker whose last acknowledged counters are 5 objects to rebuild, 10 objects,
20 records and 30 bytes. -/
def rpt_acked : rebuild_tgt_pool_tracker :=
  { rt_reported_toberb_objs := 5, rt_reported_obj_cnt := 10, rt_reported_rec_cnt := 20,
    rt_reported_size := 30 }

/-- A round in which the query returns 9 objects to rebuild, 7 objects (fewer than
acknowledged), 25 records and 30 bytes, and the update succeeds. -/
def tgt_env_ok : tgt_check_env :=
  { mutex_ok := true, query_rc := 0
    query_status := { scanning := 1, obj_count := 7, tobe_obj_count := 9, rec_count := 25,
                      size := 30, rebuilding := true }
    fail_check := false, iv_update_rc := 0, iv_stop := false, der_inval := 1003,
    der_nonexist := 1005 }

end Rebuild

/-!
# Membership engine: definitions

Definitions follow `src/cart/crt_swim.c`.  The circular queue `csm_head` becomes a
list in queue order (first to last) and the pointer `csm_target` the index of the
record it points to (`none` for `NULL`).
-/

namespace Swim

/-- Member status (`enum swim_member_status`, declared in the SWIM header outside the
sources; the four values are the ones `crt_swim.c` uses). -/
inductive swim_member_status
  | SWIM_MEMBER_ALIVE
  | SWIM_MEMBER_SUSPECT
  | SWIM_MEMBER_DEAD
  | SWIM_MEMBER_INACTIVE
deriving DecidableEq, Repr

open swim_member_status

/-- State of a member (`struct swim_member_state`); `sms_delay` is 32 bits wide. -/
structure swim_member_state where
  sms_incarnation : Nat
  sms_delay : Nat
  sms_status : swim_member_status
deriving DecidableEq

/-- One record of the membership list (`struct crt_swim_target`). -/
structure crt_swim_target where
  cst_id : Nat
  cst_state : swim_member_state
deriving DecidableEq

/-- One piggybacked update (`struct swim_member_update`). -/
structure swim_member_update where
  smu_id : Nat
  smu_state : swim_member_state
deriving DecidableEq

/-- Modelled from the spec: `SWIM_ID_INVALID`, the id the spec calls INVALID; the
constant is declared outside the sources and is taken as the all-ones 64-bit id.
The theorems use only that no member has this id. -/
def SWIM_ID_INVALID : Nat := 2 ^ 64 - 1

/-- Modelled from the spec: `CRT_NO_RANK`, the rank value of a node whose self rank
is not set; declared outside the sources and taken as the all-ones 32-bit rank. -/
def CRT_NO_RANK : Nat := 2 ^ 32 - 1

/-- Modelled from the spec: error code INVAL (`DER_INVAL`), declared outside the
sources; only its being non-zero matters. -/
def DER_INVAL : Int := 1003

/-- Modelled from the spec: error code NONEXIST (`DER_NONEXIST`), declared outside
the sources; only its being non-zero matters. -/
def DER_NONEXIST : Int := 1005

/-- Modelled from the spec: error code ALREADY (`DER_ALREADY`), declared outside the
sources; only its being non-zero matters. -/
def DER_ALREADY : Int := 1008

/-- Modelled from the spec: error code NOMEM (`DER_NOMEM`), declared outside the
sources; only its being non-zero matters. -/
def DER_NOMEM : Int := 1009

/-- The state `crt_swim.c` works on: `gp_self` and `gp_size` of the primary group,
`crt_gdata.cg_swim_inited`, the fields of `gp_membs_swim`, the self id of the SWIM
context (`swim_self_get`), the timeouts of the SWIM library read through
`swim_ping_timeout_get`, `swim_suspect_timeout_get` and `sc_default_ping_timeout`, and
the fields `sc_target`, `sc_deadline` and `sc_last_success_time` of the SWIM context
that `crt_swim_cli_cb` writes (zero in a fresh context). -/
structure crt_grp_priv where
  gp_self : Nat
  gp_size : Nat
  cg_swim_inited : Bool
  csm_head : List crt_swim_target
  csm_target : Option Nat
  csm_incarnation : Nat
  csm_crt_ctx_idx : Int
  sc_self : Nat
  swim_ping_timeout : Nat
  swim_suspect_timeout : Nat
  sc_default_ping_timeout : Nat
  sc_target : Nat := 0
  sc_deadline : Nat := 0
  sc_last_success_time : Nat := 0
deriving DecidableEq

/-- Kind of an event passed to the subscribers (`enum crt_event_type`). -/
inductive crt_event_type
  | CRT_EVT_ALIVE
  | CRT_EVT_DEAD
deriving DecidableEq, Repr

/-- Source of an event (`enum crt_event_source`); SWIM is the one used here. -/
inductive crt_event_source
  | CRT_EVS_SWIM
deriving DecidableEq, Repr

/-- One invocation of an event callback: index of the subscriber and the arguments
`(rank, incarnation, source, kind)`. -/
structure crt_event_call where
  subscriber : Nat
  rank : Nat
  incarnation : Nat
  src : crt_event_source
  type : crt_event_type
deriving DecidableEq

/-- `D_CIRCLEQ_LOOP_NEXT` on indices: the next record, the first one after the last. -/
def circleq_loop_next (len t : Nat) : Nat :=
  if t + 1 < len then t + 1 else 0

/-- `D_CIRCLEQ_INSERT_AFTER`: the new record goes right behind the record at `t`. -/
def circleq_insert_after (l : List crt_swim_target) (t : Nat) (x : crt_swim_target) :
    List crt_swim_target :=
  l.take (t + 1) ++ x :: l.drop (t + 1)

/-- Index of the first record with the id, as the `D_CIRCLEQ_FOREACH` searches find it. -/
def cst_index (id : Nat) : List crt_swim_target → Option Nat
  | [] => none
  | cst :: rest =>
    if cst.cst_id = id then some 0 else (cst_index id rest).map (fun i => i + 1)

/-- The cursor is `NULL` exactly on the empty list and else points into the list. -/
def csm_wf (g : crt_grp_priv) : Prop :=
  match g.csm_target with
  | none => g.csm_head = []
  | some t => t < g.csm_head.length

/-! ## `crt_swim_update_delays` -/

/-- One round of the outer loop of `crt_swim_update_delays` (`crt_swim.c` 129-157): the first record with the id of the update gets its new delay, in
32-bit arithmetic; the first component is the value assigned to `snd_delay`, if any. -/
def update_delays_one (from_id rcv_delay : Nat) (upd : swim_member_update) :
    List crt_swim_target → Option Nat × List crt_swim_target
  | [] => (none, [])
  | cst :: rest =>
    if cst.cst_id = upd.smu_id then
      let l := cst.cst_state.sms_delay
      if upd.smu_id = from_id then
        let l1 := if l ≠ 0 then (l + rcv_delay) % 2 ^ 32 / 2 else rcv_delay
        (some l1, { cst with cst_state := { cst.cst_state with sms_delay := l1 } } :: rest)
      else
        let r := upd.smu_state.sms_delay
        let l1 := if l ≠ 0 then (l + r) % 2 ^ 32 / 2 else r
        (none, { cst with cst_state := { cst.cst_state with sms_delay := l1 } } :: rest)
    else
      let res := update_delays_one from_id rcv_delay upd rest
      (res.1, cst :: res.2)

/-- Translation of `crt_swim_update_delays` (`crt_swim.c` 117-162): returned
`snd_delay` and new state.  The fault-injection bookkeeping of lines 146-154 writes
only the static `crt_swim_fail_*` variables and is left out. -/
def crt_swim_update_delays (g : crt_grp_priv) (from_id rcv_delay : Nat)
    (upds : List swim_member_update) : Nat × crt_grp_priv :=
  upds.foldl
    (fun acc upd =>
      let res := update_delays_one from_id rcv_delay upd acc.2.csm_head
      (res.1.getD acc.1, { acc.2 with csm_head := res.2 }))
    (0, g)

/-! ## `crt_swim_get_dping_target` -/

/-- The `do ... while` loop of `crt_swim_get_dping_target` (`crt_swim.c` 533-544) with
a bound on the number of rounds; `count` is a 32-bit counter.  Returns the id and the
cursor; `none` when the bound is used up. -/
def dping_loop (self_id gp_size : Nat) (l : List crt_swim_target) :
    Nat → Nat → Nat → Option (Nat × Nat)
  | 0, _, _ => none
  | fuel + 1, count, cur =>
    if count > gp_size then some (SWIM_ID_INVALID, cur)
    else
      let cur1 := circleq_loop_next l.length cur
      match l[cur1]? with
      | none => none
      | some cst =>
        if cst.cst_id = self_id ∨ cst.cst_state.sms_status = SWIM_MEMBER_DEAD then
          dping_loop self_id gp_size l fuel ((count + 1) % 2 ^ 32) cur1
        else some (cst.cst_id, cur1)

/-- Translation of `crt_swim_get_dping_target` (`crt_swim.c` 522-555): returned id and
new state; `none` when the assertion `csm_target != NULL` fails (or the bound on the
rounds is used up). -/
def crt_swim_get_dping_target (fuel : Nat) (g : crt_grp_priv) : Option (Nat × crt_grp_priv) :=
  match g.csm_target with
  | none => none
  | some t =>
    (dping_loop g.sc_self g.gp_size g.csm_head fuel 0 t).map
      (fun r => (r.1, { g with csm_target := some r.2 }))

/-! ## `crt_swim_suspend_all` and `crt_swim_accommodate` -/

/-- Translation of `crt_swim_suspend_all` (`crt_swim.c` 958-975): new state and the
event callbacks invoked (the function writes the status directly and calls none). -/
def crt_swim_suspend_all (g : crt_grp_priv) : crt_grp_priv × List crt_event_call :=
  if g.cg_swim_inited = false then (g, [])
  else
    ({ g with
       csm_head := g.csm_head.map (fun cst =>
         if cst.cst_id ≠ g.sc_self then
           { cst with cst_state := { cst.cst_state with sms_status := SWIM_MEMBER_INACTIVE } }
         else cst) }, [])

/-- The loop of `crt_swim_accommodate` (`crt_swim.c` 996-1001): sum and number of the
non-zero delays, both 64-bit. -/
def accommodate_sums (l : List crt_swim_target) : Nat × Nat :=
  l.foldl
    (fun acc cst =>
      if cst.cst_state.sms_delay > 0 then
        ((acc.1 + cst.cst_state.sms_delay) % 2 ^ 64, (acc.2 + 1) % 2 ^ 64)
      else acc)
    (0, 0)

/-- Lines 1010-1013 of `crt_swim_accommodate`: the average is raised to the lower
bound, else lowered to the upper bound. -/
def accommodate_clamp (average min_timeout max_timeout : Nat) : Nat :=
  if average < min_timeout then min_timeout
  else if average > max_timeout then max_timeout
  else average

/-- The argument of `swim_ping_timeout_set` when `crt_swim_accommodate` calls it
(`crt_swim.c` 1004-1020), `none` when it does not. -/
def accommodate_set_value (g : crt_grp_priv) : Option Nat :=
  if g.cg_swim_inited = false then none
  else
    let sums := accommodate_sums g.csm_head
    if sums.2 > 0 then
      let max_timeout := g.swim_suspect_timeout / 3
      let min_timeout := g.sc_default_ping_timeout
      let average := accommodate_clamp ((2 * sums.1) % 2 ^ 64 / sums.2) min_timeout max_timeout
      if average ≠ g.swim_ping_timeout then some average else none
    else none

/-- Translation of `crt_swim_accommodate` (`crt_swim.c` 984-1021). -/
def crt_swim_accommodate (g : crt_grp_priv) : crt_grp_priv :=
  match accommodate_set_value g with
  | some average => { g with swim_ping_timeout := average }
  | none => g

/-! ## `crt_swim_rank_add` and `crt_swim_rank_del` -/

/-- Translation of `crt_swim_rank_del` (`crt_swim.c` 1110-1149): return code and new
state; `none` when `csm_target` is `NULL` where the code reads through it. -/
def crt_swim_rank_del (g : crt_grp_priv) (rank : Nat) : Option (Int × crt_grp_priv) :=
  if g.cg_swim_inited = false then some (0, g)
  else
    match cst_index rank g.csm_head with
    | none =>
      some (-DER_NONEXIST, if rank = g.gp_self then { g with sc_self := SWIM_ID_INVALID } else g)
    | some i =>
      match g.csm_target with
      | none => none
      | some t =>
        let next := circleq_loop_next g.csm_head.length t
        let head := g.csm_head.eraseIdx i
        let g1 : crt_grp_priv :=
          if head = [] then
            { g with csm_head := head, sc_self := SWIM_ID_INVALID, csm_target := none }
          else if t = i then
            { g with csm_head := head, csm_target := some (if next > i then next - 1 else next) }
          else
            { g with csm_head := head, csm_target := some (if t > i then t - 1 else t) }
        some (0, if rank = g.gp_self then { g1 with sc_self := SWIM_ID_INVALID } else g1)

/-- `n` applications of `D_CIRCLEQ_LOOP_NEXT` to the cursor. -/
def cursor_advance (len : Nat) : Nat → Nat → Nat
  | 0, t => t
  | n + 1, t => cursor_advance len n (circleq_loop_next len t)

/-- Lines 1073-1088 of `crt_swim_rank_add`: the record of a peer is inserted behind
the cursor as INACTIVE with incarnation 0 and the cursor moves `1 + rand() %
(gp_size + 1)` records on; `rnd` is the value of `rand()`. -/
def rank_add_member (rnd : Nat) (g : crt_grp_priv) (rank : Nat) : Option crt_grp_priv :=
  match g.csm_target with
  | none => none
  | some t =>
    let cst : crt_swim_target :=
      { cst_id := rank
        cst_state := { sms_incarnation := 0, sms_delay := 0,
                       sms_status := SWIM_MEMBER_INACTIVE } }
    let head := circleq_insert_after g.csm_head t cst
    some { g with
           csm_head := head
           csm_target := some (cursor_advance head.length (1 + rnd % (g.gp_size + 1)) t) }

/-- Label `out_check_self` of `crt_swim_rank_add` (`crt_swim.c` 1091-1094). -/
def rank_add_check_self (g : crt_grp_priv) : crt_grp_priv :=
  if g.sc_self ≠ g.gp_self then { g with sc_self := g.gp_self } else g

/-- Translation of `crt_swim_rank_add` (`crt_swim.c` 1023-1108): return code and new
state.  `alloc1` and `alloc2` tell whether the first and the second `D_ALLOC_PTR`
succeed, `rnd` is the value of `rand()`. -/
def crt_swim_rank_add (alloc1 alloc2 : Bool) (rnd : Nat) (g : crt_grp_priv) (rank : Nat) :
    Option (Int × crt_grp_priv) :=
  if g.cg_swim_inited = false then some (0, g)
  else if g.gp_self = CRT_NO_RANK then some (-DER_INVAL, g)
  else if alloc1 = false then some (-DER_NOMEM, g)
  else if g.csm_head = [] then
    let self_cst : crt_swim_target :=
      { cst_id := g.gp_self
        cst_state := { sms_incarnation := g.csm_incarnation, sms_delay := 0,
                       sms_status := SWIM_MEMBER_ALIVE } }
    let g1 : crt_grp_priv := { g with csm_head := [self_cst], csm_target := some 0 }
    if rank ≠ g.gp_self then
      if alloc2 = false then
        (crt_swim_rank_del g1 g.gp_self).map (fun r => (-DER_NOMEM, r.2))
      else
        (rank_add_member rnd g1 rank).map (fun g2 => (0, rank_add_check_self g2))
    else some (0, rank_add_check_self g1)
  else if (cst_index rank g.csm_head).isSome then
    some (-DER_ALREADY, rank_add_check_self g)
  else if rank ≠ g.gp_self then
    (rank_add_member rnd g rank).map (fun g2 => (0, rank_add_check_self g2))
  else some (0, rank_add_check_self g)

/-- Everything but list, cursor and self id is the same in both states. -/
def same_config (g g' : crt_grp_priv) : Prop :=
  g' = { g with csm_head := g'.csm_head, csm_target := g'.csm_target, sc_self := g'.sc_self }

/-- An initialised engine of rank 0 in a group of size 3 with an empty list: the state
`crt_swim_init` leaves before the first `crt_swim_rank_add`. -/
def engine0 : crt_grp_priv :=
  { gp_self := 0, gp_size := 3, cg_swim_inited := true, csm_head := [], csm_target := none,
    csm_incarnation := 77, csm_crt_ctx_idx := 0, sc_self := SWIM_ID_INVALID,
    swim_ping_timeout := 900, swim_suspect_timeout := 8000, sc_default_ping_timeout := 900 }

/-- A member record for the examples. -/
def mk_cst (id incarnation delay : Nat) (status : swim_member_status) : crt_swim_target :=
  { cst_id := id
    cst_state := { sms_incarnation := incarnation, sms_delay := delay, sms_status := status } }

/-! ## `crt_swim_set_member_state` and the event callbacks -/

/-- The loop of `crt_swim_notify_rank_state` (`crt_swim.c` 616-623) from slot `i` on:
`cbs` tells for each slot of `cpg_event_cbs` whether `cecp_func` is not `NULL`; a
callback that is set is called once with `(rank, incarnation, CRT_EVS_SWIM, cb_type)`. -/
def notify_loop (rank incarnation : Nat) (cb_type : crt_event_type) :
    Nat → List Bool → List crt_event_call
  | _, [] => []
  | i, cb_func :: rest =>
    if cb_func then
      { subscriber := i, rank := rank, incarnation := incarnation,
        src := crt_event_source.CRT_EVS_SWIM, type := cb_type } ::
        notify_loop rank incarnation cb_type (i + 1) rest
    else notify_loop rank incarnation cb_type (i + 1) rest

/-- Translation of `crt_swim_notify_rank_state` (`crt_swim.c` 592-624): the callbacks
invoked, in order. -/
def crt_swim_notify_rank_state (cbs : List Bool) (rank : Nat) (state : swim_member_state) :
    List crt_event_call :=
  match state.sms_status with
  | SWIM_MEMBER_ALIVE =>
    notify_loop rank state.sms_incarnation crt_event_type.CRT_EVT_ALIVE 0 cbs
  | SWIM_MEMBER_DEAD =>
    notify_loop rank state.sms_incarnation crt_event_type.CRT_EVT_DEAD 0 cbs
  | _ => []

/-- The search loop of `crt_swim_set_member_state` (`crt_swim.c` 660-666): the first
record with the id gets the state; `none` when no record has the id. -/
def set_state_list (id : Nat) (state : swim_member_state) :
    List crt_swim_target → Option (List crt_swim_target)
  | [] => none
  | cst :: rest =>
    if cst.cst_id = id then some ({ cst with cst_state := state } :: rest)
    else (set_state_list id state rest).map (fun l => cst :: l)

/-- Translation of `crt_swim_set_member_state` (`crt_swim.c` 648-674): return code, new
state and the callbacks invoked.  A SUSPECT state first gets the ping timeout added to
its 32-bit delay; the rank passed on is the id cast to the 32-bit `d_rank_t`. -/
def crt_swim_set_member_state (cbs : List Bool) (g : crt_grp_priv) (id : Nat)
    (state : swim_member_state) : Int × crt_grp_priv × List crt_event_call :=
  let state1 : swim_member_state :=
    if state.sms_status = SWIM_MEMBER_SUSPECT then
      { state with sms_delay := (state.sms_delay + g.swim_ping_timeout) % 2 ^ 32 }
    else state
  match set_state_list id state1 g.csm_head with
  | none => (-DER_NONEXIST, g, [])
  | some head =>
    (0, { g with csm_head := head }, crt_swim_notify_rank_state cbs (id % 2 ^ 32) state1)

/-! ## `crt_swim_cli_cb` -/

/-- Lines 332-357 of `crt_swim_cli_cb`: `cci_rc` is the completion code of the probe,
`to_id` its destination and `now` the value of `swim_now_ms()`; all times are 64-bit.
Returns the new state, whether `crt_swim_suspend_all` was called, and the event
callbacks invoked.  What follows in the function hands the reply to the SWIM library
(`swim_updates_parse`, `swim_ipings_reply`), which is not part of the sources. -/
def crt_swim_cli_cb (g : crt_grp_priv) (cci_rc : Int) (to_id now : Nat) :
    crt_grp_priv × Bool × List crt_event_call :=
  let g1 : crt_grp_priv :=
    if cci_rc ≠ 0 ∧ to_id = g.sc_target then { g with sc_deadline := 0 } else g
  let g2 : crt_grp_priv :=
    if cci_rc = 0 then { g1 with sc_last_success_time := now } else g1
  if g2.sc_last_success_time ≠ 0 then
    let delay := (now + 2 ^ 64 - g2.sc_last_success_time % 2 ^ 64) % 2 ^ 64
    let max_delay := g2.swim_suspect_timeout * 2 % 2 ^ 64 / 3
    if delay > max_delay then
      let r := crt_swim_suspend_all g2
      ({ r.1 with sc_last_success_time := 0 }, true, r.2)
    else (g2, false, [])
  else (g2, false, [])

/-! ## `crt_swim_enable` and `crt_swim_disable` -/

/-- A call that adds or removes `crt_swim_progress_cb` on a context. -/
inductive progress_cb_call
  | register (ctx_idx : Int)
  | unregister (ctx_idx : Int)
deriving DecidableEq

/-- Translation of `crt_swim_enable` (`crt_swim.c` 851-900): return code, new state and
the calls of `crt_unregister_progress_cb` / `crt_register_progress_cb`, whose return
codes are `unreg_rc` and `reg_rc`. -/
def crt_swim_enable (unreg_rc reg_rc : Int) (g : crt_grp_priv) (crt_ctx_idx : Int) :
    Int × crt_grp_priv × List progress_cb_call :=
  if g.cg_swim_inited = false then (0, g, [])
  else if g.gp_self = CRT_NO_RANK then (-DER_INVAL, g, [])
  else if crt_ctx_idx < 0 then (-DER_INVAL, g, [])
  else
    let old_ctx_idx : Int :=
      if g.csm_crt_ctx_idx ≠ crt_ctx_idx then g.csm_crt_ctx_idx else -1
    let g1 : crt_grp_priv :=
      { g with
        csm_crt_ctx_idx := crt_ctx_idx
        sc_self := if g.sc_self ≠ g.gp_self then g.gp_self else g.sc_self }
    let rc1 : Int :=
      if old_ctx_idx ≠ -1 then (if unreg_rc = -DER_NONEXIST then 0 else unreg_rc) else 0
    let calls1 : List progress_cb_call :=
      if old_ctx_idx ≠ -1 then [progress_cb_call.unregister old_ctx_idx] else []
    if old_ctx_idx ≠ crt_ctx_idx then
      (reg_rc, g1, calls1 ++ [progress_cb_call.register crt_ctx_idx])
    else (rc1, g1, calls1)

/-- Translation of `crt_swim_disable` (`crt_swim.c` 902-936): return code, new state
and the calls of `crt_unregister_progress_cb`, whose return code is `unreg_rc`. -/
def crt_swim_disable (unreg_rc : Int) (g : crt_grp_priv) (crt_ctx_idx : Int) :
    Int × crt_grp_priv × List progress_cb_call :=
  if g.cg_swim_inited = false then (0, g, [])
  else if crt_ctx_idx < 0 then (0, { g with sc_self := SWIM_ID_INVALID }, [])
  else
    let old_ctx_idx : Int :=
      if g.csm_crt_ctx_idx = crt_ctx_idx then g.csm_crt_ctx_idx else -1
    let g1 : crt_grp_priv :=
      if g.csm_crt_ctx_idx = crt_ctx_idx then
        { g with csm_crt_ctx_idx := -1, sc_self := SWIM_ID_INVALID }
      else g
    if old_ctx_idx ≠ -1 then
      ((if unreg_rc = -DER_NONEXIST then 0 else unreg_rc), g1,
        [progress_cb_call.unregister old_ctx_idx])
    else (-DER_NONEXIST, g1, [])

/-! ## `crt_swim_rank_del_all` and sequences of membership calls -/

/-- Translation of `crt_swim_rank_del_all` (`crt_swim.c` 1151-1171). -/
def crt_swim_rank_del_all (g : crt_grp_priv) : crt_grp_priv :=
  if g.cg_swim_inited = false then g
  else { g with sc_self := SWIM_ID_INVALID, csm_target := none, csm_head := [] }

/-- A call that changes the membership list: `crt_swim_rank_add` with the outcomes of
its allocations and of `rand()`, `crt_swim_rank_del`, or `crt_swim_rank_del_all`. -/
inductive memb_op
  | add (alloc1 alloc2 : Bool) (rnd rank : Nat)
  | del (rank : Nat)
  | del_all
deriving DecidableEq

/-- The state after one membership call; `none` when the call reads through a `NULL`
cursor. -/
def memb_step (g : crt_grp_priv) : memb_op → Option crt_grp_priv
  | memb_op.add alloc1 alloc2 rnd rank =>
    (crt_swim_rank_add alloc1 alloc2 rnd g rank).map (fun r => r.2)
  | memb_op.del rank => (crt_swim_rank_del g rank).map (fun r => r.2)
  | memb_op.del_all => some (crt_swim_rank_del_all g)

/-- The state after a sequence of membership calls. -/
def memb_run (g : crt_grp_priv) : List memb_op → Option crt_grp_priv
  | [] => some g
  | op :: ops =>
    match memb_step g op with
    | none => none
    | some g1 => memb_run g1 ops

/-- The ids of the records of the membership list, in list order. -/
def member_ids (g : crt_grp_priv) : List Nat :=
  g.csm_head.map (fun cst => cst.cst_id)

/-- The invariant of the membership list: the cursor is valid and no two records have
the same id. -/
def memb_inv (g : crt_grp_priv) : Prop :=
  csm_wf g ∧ (member_ids g).Nodup

end Swim

/-!
# Object ids: definitions

Definitions follow `src/include/daos/object.h`.
-/

namespace Object

/-- An object id (`daos_obj_id_t`): two 64-bit words. -/
structure daos_obj_id_t where
  lo : Nat
  hi : Nat
deriving DecidableEq

/-- Position of the object class in `hi`: the macros `OID_FMT_CLASS_MASK` and
`OID_FMT_CLASS_SHIFT` that `daos_obj_id2class` uses are defined in the public header
`daos_obj.h`, which is not part of the sources, so they are parameters here. -/
structure oid_fmt where
  OID_FMT_CLASS_MASK : Nat
  OID_FMT_CLASS_SHIFT : Nat
deriving DecidableEq

/-- Modelled from the spec: the spec gives no layout of the object id; this is the
layout the comment of `daos_obj_set_oid` (`object.h` 355-359) describes, with the
widths of the public header: 4 bits of version and 16 bits of features at the top of
`hi`, then 12 bits of object class, which start at bit 32. -/
def oid_fmt_default : oid_fmt :=
  { OID_FMT_CLASS_MASK := ((1 <<< 12) - 1) <<< 32, OID_FMT_CLASS_SHIFT := 32 }

/-- Macro `DAOS_OC_SR_SHIFT` (`object.h` 287). -/
def DAOS_OC_SR_SHIFT : Nat := 24

/-- Macro `DAOS_OC_SR_BITS` (`object.h` 288). -/
def DAOS_OC_SR_BITS : Nat := 8

/-- Macro `DAOS_OC_SR_MASK` (`object.h` 289-290). -/
def DAOS_OC_SR_MASK : Nat := (((1 <<< DAOS_OC_SR_BITS) - 1) <<< DAOS_OC_SR_SHIFT) % 2 ^ 64

/-- Class id `DAOS_OC_R1S_SPEC_RANK` of the enumeration of `object.h` 60-103. -/
def DAOS_OC_R1S_SPEC_RANK : Nat := 18

/-- Class id `DAOS_OC_R2S_SPEC_RANK`. -/
def DAOS_OC_R2S_SPEC_RANK : Nat := 19

/-- Class id `DAOS_OC_R3S_SPEC_RANK`. -/
def DAOS_OC_R3S_SPEC_RANK : Nat := 20

/-- Class id `DAOS_OC_EC_K2P1_SPEC_RANK_L32K`. -/
def DAOS_OC_EC_K2P1_SPEC_RANK_L32K : Nat := 25

/-- Class id `DAOS_OC_EC_K4P1_SPEC_RANK_L32K`. -/
def DAOS_OC_EC_K4P1_SPEC_RANK_L32K : Nat := 26

/-- Translation of `daos_obj_id2class` (`object.h` 21-28). -/
def daos_obj_id2class (fmt : oid_fmt) (oid : daos_obj_id_t) : Nat :=
  (oid.hi &&& fmt.OID_FMT_CLASS_MASK) >>> fmt.OID_FMT_CLASS_SHIFT

/-- Translation of `daos_obj_is_srank` (`object.h` 130-139). -/
def daos_obj_is_srank (fmt : oid_fmt) (oid : daos_obj_id_t) : Bool :=
  let oc := daos_obj_id2class fmt oid
  oc = DAOS_OC_R3S_SPEC_RANK ∨ oc = DAOS_OC_R1S_SPEC_RANK ∨ oc = DAOS_OC_R2S_SPEC_RANK ∨
    oc = DAOS_OC_EC_K2P1_SPEC_RANK_L32K ∨ oc = DAOS_OC_EC_K4P1_SPEC_RANK_L32K

/-- Translation of `daos_oclass_sr_get_rank` (`object.h` 301-307): the rank, a 32-bit
`d_rank_t`; `none` when the assertion fails. -/
def daos_oclass_sr_get_rank (fmt : oid_fmt) (oid : daos_obj_id_t) : Option Nat :=
  if daos_obj_is_srank fmt oid then
    some (((oid.hi &&& DAOS_OC_SR_MASK) >>> DAOS_OC_SR_SHIFT) % 2 ^ 32)
  else none

/-- Translation of `daos_oclass_sr_set_rank` (`object.h` 308-317): the new id; `none`
when one of the three assertions fails. -/
def daos_oclass_sr_set_rank (fmt : oid_fmt) (oid : daos_obj_id_t) (rank : Nat) :
    Option daos_obj_id_t :=
  if daos_obj_is_srank fmt oid = false then none
  else if ¬ rank < 1 <<< DAOS_OC_SR_SHIFT then none
  else if oid.hi &&& DAOS_OC_SR_MASK ≠ 0 then none
  else some { oid with hi := (oid.hi ||| (rank <<< DAOS_OC_SR_SHIFT) % 2 ^ 64) % 2 ^ 64 }

end Object

/-! # Theorems -/

namespace Rebuild

open daos_rebuild_opc_t

/-! ## Shared lemmas on the queue -/

theorem queue_split (p : Nat) (q : List rebuild_task) :
    (∀ x ∈ q, x.dst_pool_uuid ≠ p) ∨
      ∃ pre t post, q = pre ++ t :: post ∧ (∀ x ∈ pre, x.dst_pool_uuid ≠ p) ∧
        t.dst_pool_uuid = p := by
  induction q with
  | nil => left; simp
  | cons a q ih =>
    by_cases ha : a.dst_pool_uuid = p
    · right; exact ⟨[], a, q, rfl, by simp, ha⟩
    · rcases ih with h | ⟨pre, t, post, hq, hpre, ht⟩
      · left
        intro x hx
        rcases List.mem_cons.mp hx with rfl | hx
        · exact ha
        · exact h x hx
      · right
        refine ⟨a :: pre, t, post, by simp [hq], ?_, ht⟩
        intro x hx
        rcases List.mem_cons.mp hx with rfl | hx
        · exact ha
        · exact hpre x hx

theorem try_merge_none (env : sched_env) (p v : Nat) (o : daos_rebuild_opc_t)
    (T : pool_target_id_list) (q : List rebuild_task) (h : ∀ x ∈ q, x.dst_pool_uuid ≠ p) :
    rebuild_try_merge_tgts env p v o T q = (0, q) := by
  induction q with
  | nil => rfl
  | cons a q ih =>
    have ha : a.dst_pool_uuid ≠ p := h a (List.mem_cons_self _ _)
    have hq : ∀ x ∈ q, x.dst_pool_uuid ≠ p := fun x hx => h x (List.mem_cons_of_mem _ hx)
    simp [rebuild_try_merge_tgts, ha, ih hq]

theorem try_merge_first (env : sched_env) (p v : Nat) (o : daos_rebuild_opc_t)
    (T : pool_target_id_list)
    (pre : List rebuild_task) (t : rebuild_task) (post : List rebuild_task)
    (hpre : ∀ x ∈ pre, x.dst_pool_uuid ≠ p) (ht : t.dst_pool_uuid = p)
    (hmr : env.merge_rc = 0) :
    rebuild_try_merge_tgts env p v o T (pre ++ t :: post) =
      if t.dst_rebuild_op = o then (1, pre ++ merge_into t v T :: post)
      else (0, pre ++ t :: post) := by
  induction pre with
  | nil =>
    by_cases ho : t.dst_rebuild_op = o <;> simp [rebuild_try_merge_tgts, ht, ho, hmr]
  | cons a pre ih =>
    have ha : a.dst_pool_uuid ≠ p := hpre a (List.mem_cons_self _ _)
    have hq : ∀ x ∈ pre, x.dst_pool_uuid ≠ p :=
      fun x hx => hpre x (List.mem_cons_of_mem _ hx)
    by_cases ho : t.dst_rebuild_op = o <;>
      simp [rebuild_try_merge_tgts, ha, ih hq, ho]

theorem try_merge_first_failed (env : sched_env) (p v : Nat) (o : daos_rebuild_opc_t)
    (T : pool_target_id_list)
    (pre : List rebuild_task) (t : rebuild_task) (post : List rebuild_task)
    (hpre : ∀ x ∈ pre, x.dst_pool_uuid ≠ p) (ht : t.dst_pool_uuid = p)
    (hmr : env.merge_rc ≠ 0) :
    rebuild_try_merge_tgts env p v o T (pre ++ t :: post) =
      if t.dst_rebuild_op = o then
        (env.merge_rc, pre ++ merge_failed t T env.merge_done :: post)
      else (0, pre ++ t :: post) := by
  induction pre with
  | nil =>
    by_cases ho : t.dst_rebuild_op = o <;> simp [rebuild_try_merge_tgts, ht, ho, hmr]
  | cons a pre ih =>
    have ha : a.dst_pool_uuid ≠ p := hpre a (List.mem_cons_self _ _)
    have hq : ∀ x ∈ pre, x.dst_pool_uuid ≠ p :=
      fun x hx => hpre x (List.mem_cons_of_mem _ hx)
    by_cases ho : t.dst_rebuild_op = o <;>
      simp [rebuild_try_merge_tgts, ha, ih hq, ho]

theorem merge_failed_idem (t : rebuild_task) (T done : pool_target_id_list) :
    merge_failed (merge_failed t T done) T done = merge_failed t T done := by
  unfold merge_failed pool_target_id_list_merge_failed
  simp [Finset.union_assoc]

theorem queue_insert_none (n : rebuild_task) (q : List rebuild_task)
    (h : ∀ x ∈ q, x.dst_pool_uuid ≠ n.dst_pool_uuid) :
    queue_insert n q = q ++ [n] := by
  induction q with
  | nil => rfl
  | cons a q ih =>
    have ha : a.dst_pool_uuid ≠ n.dst_pool_uuid := h a (List.mem_cons_self _ _)
    have hq : ∀ x ∈ q, x.dst_pool_uuid ≠ n.dst_pool_uuid :=
      fun x hx => h x (List.mem_cons_of_mem _ hx)
    simp [queue_insert, ha, ih hq]

theorem merge_into_idem (t : rebuild_task) (v : Nat) (T : pool_target_id_list) :
    merge_into (merge_into t v T) v T = merge_into t v T := by
  unfold merge_into pool_target_id_list_merge
  by_cases h : t.dst_map_ver < v <;> simp [h, Finset.union_assoc]

/-- C1 (the code departs from the claim): scheduling FAIL({3}, v=10), REINT({9}, v=11),
FAIL({4}, v=12) on one pool from the empty queue leaves two queued tasks, and the
first FAIL task has taken targets {3,4} and version 12 although the REINT task is
queued after it. -/
theorem c1_fail_merged_across_reint :
    (schedule_all rebuild_gst_init
      [(env_ok, pool1, 10, {3}, RB_OP_FAIL, 0), (env_ok, pool1, 11, {9}, RB_OP_REINT, 0),
       (env_ok, pool1, 12, {4}, RB_OP_FAIL, 0)]).rg_queue_list =
      [mk_task 1 12 RB_OP_FAIL {3, 4}, mk_task 1 11 RB_OP_REINT {9}] := by
  decide

/-- C3 (the code departs from the claim): from the empty queue, REINT({9}, v=5) and
FAIL({3}, v=10) on one pool give the queue [REINT v=5, FAIL v=10]; a FAIL({4}, v=12)
request is then not merged into the last task, which has the same op: a third task
is queued and the FAIL v=10 task keeps its targets and version. -/
theorem c3_same_op_last_task_not_merged :
    (schedule_all rebuild_gst_init
      [(env_ok, pool1, 5, {9}, RB_OP_REINT, 0),
       (env_ok, pool1, 10, {3}, RB_OP_FAIL, 0)]).rg_queue_list =
      [mk_task 1 5 RB_OP_REINT {9}, mk_task 1 10 RB_OP_FAIL {3}] ∧
    (schedule_all rebuild_gst_init
      [(env_ok, pool1, 5, {9}, RB_OP_REINT, 0), (env_ok, pool1, 10, {3}, RB_OP_FAIL, 0),
       (env_ok, pool1, 12, {4}, RB_OP_FAIL, 0)]).rg_queue_list =
      [mk_task 1 5 RB_OP_REINT {9}, mk_task 1 10 RB_OP_FAIL {3},
       mk_task 1 12 RB_OP_FAIL {4}] := by
  decide

/-- C4 (the code departs from the claim): from the empty queue, FAIL v=10, REINT
v=11, FAIL v=12 on one pool leave that pool's queued versions as 12, 11: not in
ascending order. -/
theorem c4_queue_not_sorted_after_merge :
    pool_vers 1 (schedule_all rebuild_gst_init
      [(env_ok, pool1, 10, {3}, RB_OP_FAIL, 0), (env_ok, pool1, 11, {9}, RB_OP_REINT, 0),
       (env_ok, pool1, 12, {4}, RB_OP_FAIL, 0)]).rg_queue_list = [12, 11] ∧
    ¬ queue_sorted (schedule_all rebuild_gst_init
      [(env_ok, pool1, 10, {3}, RB_OP_FAIL, 0), (env_ok, pool1, 11, {9}, RB_OP_REINT, 0),
       (env_ok, pool1, 12, {4}, RB_OP_FAIL, 0)]).rg_queue_list := by
  have h : pool_vers 1 (schedule_all rebuild_gst_init
      [(env_ok, pool1, 10, {3}, RB_OP_FAIL, 0), (env_ok, pool1, 11, {9}, RB_OP_REINT, 0),
       (env_ok, pool1, 12, {4}, RB_OP_FAIL, 0)]).rg_queue_list = [12, 11] := by decide
  refine ⟨h, fun hs => ?_⟩
  have h1 := hs 1
  rw [h] at h1
  exact absurd h1 (by decide)

/-- C5 (counterexample): with REINT v=5 and DRAIN v=20 of one pool queued (scheduled
from the empty queue), scheduling FAIL({3}, v=10) once leaves three tasks and
scheduling it twice leaves four, two of them FAIL v=10: the second call does not
merge. -/
theorem c5_second_call_queues_again :
    (schedule_all rebuild_gst_init
      [(env_ok, pool1, 5, {9}, RB_OP_REINT, 0), (env_ok, pool1, 20, {7}, RB_OP_DRAIN, 0),
       (env_ok, pool1, 10, {3}, RB_OP_FAIL, 0)]).rg_queue_list =
      [mk_task 1 5 RB_OP_REINT {9}, mk_task 1 10 RB_OP_FAIL {3},
       mk_task 1 20 RB_OP_DRAIN {7}] ∧
    (schedule_all rebuild_gst_init
      [(env_ok, pool1, 5, {9}, RB_OP_REINT, 0), (env_ok, pool1, 20, {7}, RB_OP_DRAIN, 0),
       (env_ok, pool1, 10, {3}, RB_OP_FAIL, 0),
       (env_ok, pool1, 10, {3}, RB_OP_FAIL, 0)]).rg_queue_list =
      [mk_task 1 5 RB_OP_REINT {9}, mk_task 1 10 RB_OP_FAIL {3},
       mk_task 1 10 RB_OP_FAIL {3}, mk_task 1 20 RB_OP_DRAIN {7}] ∧
    (ds_rebuild_schedule env_ok
        (ds_rebuild_schedule env_ok
          (schedule_all rebuild_gst_init
            [(env_ok, pool1, 5, {9}, RB_OP_REINT, 0),
             (env_ok, pool1, 20, {7}, RB_OP_DRAIN, 0)])
          pool1 10 {3} RB_OP_FAIL 0).2
        pool1 10 {3} RB_OP_FAIL 0).2.rg_queue_list ≠
      (ds_rebuild_schedule env_ok
        (schedule_all rebuild_gst_init
          [(env_ok, pool1, 5, {9}, RB_OP_REINT, 0),
           (env_ok, pool1, 20, {7}, RB_OP_DRAIN, 0)])
        pool1 10 {3} RB_OP_FAIL 0).2.rg_queue_list := by
  decide

/-- C5 (amended): when every queued task of pool `p` has the op of the request (in
particular when `p` has no queued task), calling `ds_rebuild_schedule(p, v, T, op)`
twice in a row, with the same outcomes of allocation, target-list merge and ULT
creation (failures included), leaves the same global state (same tasks, ops, versions, target sets, order) as calling it
once: the second call merges and queues no further task. -/
theorem c5_schedule_twice_same_op (env : sched_env) (gst : rebuild_global)
    (pool : ds_pool) (v : Nat) (T : pool_target_id_list) (op : daos_rebuild_opc_t)
    (delay : Nat)
    (hall : ∀ t ∈ gst.rg_queue_list, t.dst_pool_uuid = pool.sp_uuid →
      t.dst_rebuild_op = op) :
    (ds_rebuild_schedule env (ds_rebuild_schedule env gst pool v T op delay).2
        pool v T op delay).2 =
      (ds_rebuild_schedule env gst pool v T op delay).2 := by
  cases hstop : pool.sp_stopping with
  | true => simp [ds_rebuild_schedule, hstop]
  | false =>
    rcases queue_split pool.sp_uuid gst.rg_queue_list with
      hno | ⟨pre, t, post, hq, hpre, ht⟩
    · -- no queued task of the pool: the first call queues, the second merges
      have hm := try_merge_none env pool.sp_uuid v op T gst.rg_queue_list hno
      have hins : ∀ n : rebuild_task, n.dst_pool_uuid = pool.sp_uuid →
          queue_insert n gst.rg_queue_list = gst.rg_queue_list ++ [n] := by
        intro n hn
        exact queue_insert_none n _ (by rw [hn]; exact hno)
      have hm2 : env.merge_rc = 0 → ∀ n : rebuild_task, n.dst_pool_uuid = pool.sp_uuid →
          n.dst_rebuild_op = op →
          rebuild_try_merge_tgts env pool.sp_uuid v op T (gst.rg_queue_list ++ [n]) =
            (1, gst.rg_queue_list ++ [merge_into n v T]) := by
        intro hmr n hn ho
        have := try_merge_first env pool.sp_uuid v op T gst.rg_queue_list n [] hno hn hmr
        rw [if_pos ho] at this
        exact this
      have hnew : ∀ s : Nat, merge_into
          { dst_pool_uuid := pool.sp_uuid, dst_map_ver := v, dst_rebuild_op := op,
            dst_tgts := pool_target_id_list_merge ∅ T, dst_schedule_time := s } v T =
          { dst_pool_uuid := pool.sp_uuid, dst_map_ver := v, dst_rebuild_op := op,
            dst_tgts := pool_target_id_list_merge ∅ T, dst_schedule_time := s } := by
        intro s
        simp [merge_into, pool_target_id_list_merge]
      cases halloc : env.alloc_ok with
      | false => simp [ds_rebuild_schedule, hstop, hm, halloc]
      | true =>
        by_cases hmr : env.merge_rc = 0
        · have hm3 := hm2 hmr
          cases hrun : gst.rg_rebuild_running with
          | true =>
            simp [ds_rebuild_schedule, hstop, hm, halloc, hmr, hrun, hins, hm3, hnew]
          | false =>
            cases hcf : env.cond_fail with
            | true =>
              by_cases hcd : env.cond_der = 0
              · simp [ds_rebuild_schedule, hstop, hm, halloc, hmr, hrun, hcf, hcd, hins,
                  hm3, hnew]
              · simp [ds_rebuild_schedule, hstop, hm, halloc, hmr, hrun, hcf, hcd]
            | false =>
              by_cases hu : env.ult_rc = 0
              · simp [ds_rebuild_schedule, hstop, hm, halloc, hmr, hrun, hcf, hu, hins,
                  hm3, hnew]
              · simp [ds_rebuild_schedule, hstop, hm, halloc, hmr, hrun, hcf, hu]
        · simp [ds_rebuild_schedule, hstop, hm, halloc, hmr]
    · -- the first queued task of the pool has the op: both calls merge into it
      have hto : t.dst_rebuild_op = op := hall t (by simp [hq]) ht
      by_cases hmr : env.merge_rc = 0
      · have hm := try_merge_first env pool.sp_uuid v op T pre t post hpre ht hmr
        rw [if_pos hto] at hm
        have hm2 := try_merge_first env pool.sp_uuid v op T pre (merge_into t v T) post hpre
          (by simpa [merge_into] using ht) hmr
        rw [if_pos (by simpa [merge_into] using hto), merge_into_idem] at hm2
        simp [ds_rebuild_schedule, hstop, hq, hm, hm2]
      · have hm := try_merge_first_failed env pool.sp_uuid v op T pre t post hpre ht hmr
        rw [if_pos hto] at hm
        have hm2 := try_merge_first_failed env pool.sp_uuid v op T pre
          (merge_failed t T env.merge_done) post hpre (by simpa [merge_failed] using ht) hmr
        rw [if_pos (by simpa [merge_failed] using hto), merge_failed_idem] at hm2
        simp [ds_rebuild_schedule, hstop, hq, hm, hm2, hmr]

/-- Witness for C5 (amended): FAIL({3}, v=10) scheduled twice on an empty queue leaves
the single task FAIL({3}, v=10), as scheduling it once does. -/
theorem c5_schedule_twice_same_op_witness :
    (∀ t ∈ rebuild_gst_init.rg_queue_list, t.dst_pool_uuid = pool1.sp_uuid →
      t.dst_rebuild_op = RB_OP_FAIL) ∧
    (ds_rebuild_schedule env_ok
        (ds_rebuild_schedule env_ok rebuild_gst_init pool1 10 {3} RB_OP_FAIL 0).2
        pool1 10 {3} RB_OP_FAIL 0).2 =
      (ds_rebuild_schedule env_ok rebuild_gst_init pool1 10 {3} RB_OP_FAIL 0).2 ∧
    (ds_rebuild_schedule env_ok rebuild_gst_init pool1 10 {3} RB_OP_FAIL 0).2.rg_queue_list =
      [mk_task 1 10 RB_OP_FAIL {3}] :=
  ⟨by decide,
   c5_schedule_twice_same_op env_ok rebuild_gst_init pool1 10 {3} RB_OP_FAIL 0 (by decide),
   by decide⟩

/-! ## Shared lemmas on the tracker -/

theorem apply_flags_scan (s : rebuild_server_status) :
    apply_flags SCAN_DONE s = { s with scan_done := true } := by
  simp [apply_flags, SCAN_DONE, PULL_DONE]

theorem apply_flags_pull (s : rebuild_server_status) :
    apply_flags PULL_DONE s = { s with pull_done := true } := by
  simp [apply_flags, SCAN_DONE, PULL_DONE]

theorem apply_flags_both (s : rebuild_server_status) :
    apply_flags (SCAN_DONE ||| PULL_DONE) s =
      { s with scan_done := true, pull_done := true } := by
  simp [apply_flags, SCAN_DONE, PULL_DONE]

theorem servers_split (r : Nat) (l : List rebuild_server_status) :
    (∀ x ∈ l, x.rank ≠ r) ∨
      ∃ pre s post, l = pre ++ s :: post ∧ (∀ x ∈ pre, x.rank ≠ r) ∧ s.rank = r := by
  induction l with
  | nil => left; simp
  | cons a l ih =>
    by_cases ha : a.rank = r
    · right; exact ⟨[], a, l, rfl, by simp, ha⟩
    · rcases ih with h | ⟨pre, s, post, hl, hpre, hs⟩
      · left
        intro x hx
        rcases List.mem_cons.mp hx with rfl | hx
        · exact ha
        · exact h x hx
      · right
        refine ⟨a :: pre, s, post, by simp [hl], ?_, hs⟩
        intro x hx
        rcases List.mem_cons.mp hx with rfl | hx
        · exact ha
        · exact hpre x hx

theorem set_status_servers_split (r f : Nat) (pre : List rebuild_server_status)
    (s : rebuild_server_status) (post : List rebuild_server_status)
    (hpre : ∀ x ∈ pre, x.rank ≠ r) (hs : s.rank = r) :
    set_status_servers r f (pre ++ s :: post) = some (pre ++ apply_flags f s :: post) := by
  induction pre with
  | nil => simp [set_status_servers, hs]
  | cons a pre ih =>
    have ha : a.rank ≠ r := hpre a (List.mem_cons_self _ _)
    have hq : ∀ x ∈ pre, x.rank ≠ r := fun x hx => hpre x (List.mem_cons_of_mem _ hx)
    simp [set_status_servers, ha, ih hq]

theorem lookup_split (r : Nat) (rgt : rebuild_global_pool_tracker)
    (pre : List rebuild_server_status) (s : rebuild_server_status)
    (post : List rebuild_server_status) (hl : rgt.rgt_servers = pre ++ s :: post)
    (hpre : ∀ x ∈ pre, x.rank ≠ r) (hs : s.rank = r) :
    rgt_lookup rgt r = some s := by
  unfold rgt_lookup
  rw [hl]
  clear hl
  induction pre with
  | nil => simp [hs]
  | cons a pre ih =>
    have ha : a.rank ≠ r := hpre a (List.mem_cons_self _ _)
    have hq : ∀ x ∈ pre, x.rank ≠ r := fun x hx => hpre x (List.mem_cons_of_mem _ hx)
    have := ih hq
    simp only [List.cons_append, List.find?_cons] at this ⊢
    simp [ha, this]

theorem set_status_servers_none (r f : Nat) (l : List rebuild_server_status)
    (h : ∀ x ∈ l, x.rank ≠ r) : set_status_servers r f l = none := by
  induction l with
  | nil => rfl
  | cons a l ih =>
    have ha : a.rank ≠ r := h a (List.mem_cons_self _ _)
    have hq : ∀ x ∈ l, x.rank ≠ r := fun x hx => h x (List.mem_cons_of_mem _ hx)
    simp [set_status_servers, ha, ih hq]

theorem set_status_servers_some (r f : Nat) (l l' : List rebuild_server_status)
    (h : set_status_servers r f l = some l') :
    ∃ pre s post, l = pre ++ s :: post ∧ (∀ x ∈ pre, x.rank ≠ r) ∧ s.rank = r ∧
      l' = pre ++ apply_flags f s :: post := by
  rcases servers_split r l with hno | ⟨pre, s, post, hl, hpre, hs⟩
  · rw [set_status_servers_none r f l hno] at h
    exact absurd h (by simp)
  · refine ⟨pre, s, post, hl, hpre, hs, ?_⟩
    rw [hl, set_status_servers_split r f pre s post hpre hs] at h
    exact (Option.some.inj h).symm

theorem leader_set_status_some (rgt rgt1 : rebuild_global_pool_tracker) (r f : Nat)
    (h : rebuild_leader_set_status rgt r f = some rgt1) :
    ∃ pre s post, rgt.rgt_servers = pre ++ s :: post ∧ (∀ x ∈ pre, x.rank ≠ r) ∧
      s.rank = r ∧ rgt1 = { rgt with rgt_servers := pre ++ apply_flags f s :: post } := by
  unfold rebuild_leader_set_status at h
  split at h
  · cases hs : set_status_servers r f rgt.rgt_servers with
    | none => simp [hs] at h
    | some l =>
      obtain ⟨pre, s, post, hl, hpre, hsr, hl'⟩ := set_status_servers_some r f _ l hs
      refine ⟨pre, s, post, hl, hpre, hsr, ?_⟩
      simp [hs] at h
      rw [← h, hl']
  · exact absurd h (by simp)

theorem leader_set_status_split (rgt : rebuild_global_pool_tracker) (r f : Nat)
    (pre : List rebuild_server_status) (s : rebuild_server_status)
    (post : List rebuild_server_status) (hl : rgt.rgt_servers = pre ++ s :: post)
    (hpre : ∀ x ∈ pre, x.rank ≠ r) (hs : s.rank = r) :
    rebuild_leader_set_status rgt r f =
      some { rgt with rgt_servers := pre ++ apply_flags f s :: post } := by
  unfold rebuild_leader_set_status
  have hlen : rgt.rgt_servers.length > 0 := by simp [hl]
  rw [if_pos hlen, hl, set_status_servers_split r f pre s post hpre hs]
  rfl

/-! ## Claims on the tracker -/

/-- C6: if `rebuild_global_status_update` returns and some entry's `pull_done` went
from clear to set, the scan was globally complete before the call or the report has
a non-zero status; when the scan is not globally complete and the status is 0, the
`pull_done` flags are all as before. -/
theorem c6_pull_done_only_when_trusted (rgt : rebuild_global_pool_tracker)
    (iv : rebuild_iv) (rc : Int) (rgt' : rebuild_global_pool_tracker)
    (h : rebuild_global_status_update rgt iv = some (rc, rgt')) :
    ((∃ (i : Nat) (s s' : rebuild_server_status), rgt.rgt_servers[i]? = some s ∧ rgt'.rgt_servers[i]? = some s' ∧
        s.pull_done = false ∧ s'.pull_done = true) →
      is_rebuild_global_scan_done rgt = some true ∨ iv.riv_status ≠ 0) ∧
    (is_rebuild_global_scan_done rgt ≠ some true → iv.riv_status = 0 →
      rgt'.rgt_servers.map (fun s => s.pull_done) =
        rgt.rgt_servers.map (fun s => s.pull_done)) := by
  have part2 : is_rebuild_global_scan_done rgt ≠ some true → iv.riv_status = 0 →
      rgt'.rgt_servers.map (fun s => s.pull_done) =
        rgt.rgt_servers.map (fun s => s.pull_done) := by
    intro hnd hst
    unfold rebuild_global_status_update at h
    cases hsd : iv.riv_scan_done with
    | false =>
      simp [hsd] at h
      rw [h.2]
    | true =>
      cases hd : is_rebuild_global_scan_done rgt with
      | none => simp [hsd, hd] at h
      | some b =>
        cases b with
        | true => exact absurd hd hnd
        | false =>
          cases hset : rebuild_leader_set_status rgt iv.riv_rank SCAN_DONE with
          | none => simp [hsd, hd, hset] at h
          | some rgt1 =>
            simp [hsd, hd, hset, hst] at h
            obtain ⟨pre, s, post, hl, -, -, h1⟩ := leader_set_status_some _ _ _ _ hset
            rw [← h.2, h1, hl]
            simp [apply_flags_scan]
  refine ⟨?_, part2⟩
  rintro ⟨i, s, s', hs, hs', hclr, hset⟩
  by_contra hcon
  push_neg at hcon
  have hmap := part2 hcon.1 hcon.2
  have hi := congrArg (fun l => l[i]?) hmap
  simp only [List.getElem?_map, hs, hs', Option.map_some'] at hi
  rw [hclr, hset] at hi
  exact absurd hi (by simp)

/-- Witness for C6: on a fresh tracker of ranks 0 and 1, a report of rank 0 with scan
and pull done and status -1 sets rank 0's `pull_done`; the scan was not globally
complete, and the status is indeed non-zero. -/
theorem c6_pull_done_only_when_trusted_witness :
    rebuild_global_status_update (rebuild_global_pool_tracker_create [0, 1])
        { riv_rank := 0, riv_scan_done := true, riv_pull_done := true, riv_status := -1 } =
      some (0, { rebuild_global_pool_tracker_create [0, 1] with
                 rgt_servers := [⟨0, true, true⟩, ⟨1, false, false⟩] }) ∧
    is_rebuild_global_scan_done (rebuild_global_pool_tracker_create [0, 1]) = some false ∧
    (is_rebuild_global_scan_done (rebuild_global_pool_tracker_create [0, 1]) = some true ∨
      (-1 : Int) ≠ 0) :=
  ⟨by decide, by decide,
   (c6_pull_done_only_when_trusted (rebuild_global_pool_tracker_create [0, 1])
      { riv_rank := 0, riv_scan_done := true, riv_pull_done := true, riv_status := -1 }
      0 { rebuild_global_pool_tracker_create [0, 1] with
          rgt_servers := [⟨0, true, true⟩, ⟨1, false, false⟩] } (by decide)).1
     ⟨0, ⟨0, false, false⟩, ⟨0, true, true⟩, by decide, by decide, rfl, rfl⟩⟩

theorem update_cases (rgt : rebuild_global_pool_tracker) (iv : rebuild_iv)
    (hsd : iv.riv_scan_done = true)
    (pre : List rebuild_server_status) (s : rebuild_server_status)
    (post : List rebuild_server_status) (hl : rgt.rgt_servers = pre ++ s :: post)
    (hpre : ∀ x ∈ pre, x.rank ≠ iv.riv_rank) (hs : s.rank = iv.riv_rank) :
    ∃ s', rebuild_global_status_update rgt iv =
        some (0, { rgt with rgt_servers := pre ++ s' :: post }) ∧
      s'.rank = s.rank ∧ s'.scan_done = true ∧
      (s'.pull_done = true → s.pull_done = true ∨ s'.scan_done = true) := by
  have hlen : rgt.rgt_servers.length > 0 := by simp [hl]
  unfold rebuild_global_status_update
  cases hd : rgt.rgt_servers.all (fun s => s.scan_done) with
  | true =>
    have hs_scan : s.scan_done = true := by
      have := List.all_eq_true.mp hd s (by simp [hl])
      simpa using this
    cases hp : iv.riv_pull_done with
    | false =>
      refine ⟨s, ?_, rfl, hs_scan, fun h => Or.inl h⟩
      simp [hsd, is_rebuild_global_scan_done, hlen, hd, status_update_pull, hp, ← hl]
    | true =>
      refine ⟨apply_flags PULL_DONE s, ?_, ?_, ?_, ?_⟩
      · simp [hsd, is_rebuild_global_scan_done, hlen, hd, status_update_pull, hp,
          leader_set_status_split rgt iv.riv_rank PULL_DONE pre s post hl hpre hs]
      · simp [apply_flags_pull]
      · simp [apply_flags_pull, hs_scan]
      · intro _
        right
        simp [apply_flags_pull, hs_scan]
  | false =>
    have h1 := leader_set_status_split rgt iv.riv_rank SCAN_DONE pre s post hl hpre hs
    by_cases hst : iv.riv_status = 0
    · refine ⟨apply_flags SCAN_DONE s, ?_, ?_, ?_, ?_⟩
      · simp [hsd, is_rebuild_global_scan_done, hlen, hd, h1, hst]
      · simp [apply_flags_scan]
      · simp [apply_flags_scan]
      · intro _
        right
        simp [apply_flags_scan]
    · cases hp : iv.riv_pull_done with
      | false =>
        refine ⟨apply_flags SCAN_DONE s, ?_, ?_, ?_, ?_⟩
        · simp [hsd, is_rebuild_global_scan_done, hlen, hd, h1, hst, status_update_pull, hp]
        · simp [apply_flags_scan]
        · simp [apply_flags_scan]
        · intro _
          right
          simp [apply_flags_scan]
      | true =>
        have hs1 : (apply_flags SCAN_DONE s).rank = iv.riv_rank := by
          simp [apply_flags_scan, hs]
        have h2 := leader_set_status_split
          { rgt with rgt_servers := pre ++ apply_flags SCAN_DONE s :: post }
          iv.riv_rank PULL_DONE pre (apply_flags SCAN_DONE s) post rfl hpre hs1
        refine ⟨apply_flags PULL_DONE (apply_flags SCAN_DONE s), ?_, ?_, ?_, ?_⟩
        · simp [hsd, is_rebuild_global_scan_done, hlen, hd, h1, hst, status_update_pull, hp,
            h2]
        · simp [apply_flags_scan, apply_flags_pull]
        · simp [apply_flags_scan, apply_flags_pull]
        · intro _
          right
          simp [apply_flags_scan, apply_flags_pull]

theorem pull_implies_scan_replace (rgt : rebuild_global_pool_tracker)
    (pre : List rebuild_server_status) (s s' : rebuild_server_status)
    (post : List rebuild_server_status) (hl : rgt.rgt_servers = pre ++ s :: post)
    (hinv : pull_implies_scan rgt) (hs' : s'.pull_done = true → s'.scan_done = true) :
    pull_implies_scan { rgt with rgt_servers := pre ++ s' :: post } := by
  intro x hx hxp
  simp only [List.mem_append, List.mem_cons] at hx
  rcases hx with hx | rfl | hx
  · exact hinv x (by simp [hl, hx]) hxp
  · exact hs' hxp
  · exact hinv x (by simp [hl, hx]) hxp

theorem leader_step_inv (rgt : rebuild_global_pool_tracker) (e : leader_event)
    (hinv : pull_implies_scan rgt)
    (hr : e.rank ∈ rgt.rgt_servers.map (fun s => s.rank)) :
    ∃ rgt', leader_step rgt e = some rgt' ∧ pull_implies_scan rgt' ∧
      rgt'.rgt_servers.map (fun s => s.rank) = rgt.rgt_servers.map (fun s => s.rank) := by
  rcases servers_split e.rank rgt.rgt_servers with hno | ⟨pre, s, post, hl, hpre, hs⟩
  · obtain ⟨x, hx, hxr⟩ := List.mem_map.mp hr
    exact absurd hxr (hno x hx)
  · cases e with
    | failed_rank r =>
      refine ⟨_, leader_set_status_split rgt r _ pre s post hl hpre hs, ?_, ?_⟩
      · exact pull_implies_scan_replace rgt pre s _ post hl hinv
          (by simp [apply_flags_both])
      · simp [hl, apply_flags_both]
    | report iv =>
      cases hsd : iv.riv_scan_done with
      | false =>
        refine ⟨rgt, ?_, hinv, rfl⟩
        simp [leader_step, rebuild_global_status_update, hsd]
      | true =>
        obtain ⟨s', hu, hrank, hscan, -⟩ := update_cases rgt iv hsd pre s post hl hpre hs
        refine ⟨{ rgt with rgt_servers := pre ++ s' :: post }, by simp [leader_step, hu],
          ?_, ?_⟩
        · exact pull_implies_scan_replace rgt pre s s' post hl hinv (fun _ => hscan)
        · simp [hl, hrank]

theorem leader_run_inv (evs : List leader_event) :
    ∀ rgt : rebuild_global_pool_tracker, pull_implies_scan rgt →
      (∀ e ∈ evs, e.rank ∈ rgt.rgt_servers.map (fun s => s.rank)) →
      ∃ rgt', leader_run rgt evs = some rgt' ∧ pull_implies_scan rgt' := by
  induction evs with
  | nil => intro rgt hinv _; exact ⟨rgt, rfl, hinv⟩
  | cons e es ih =>
    intro rgt hinv hr
    obtain ⟨rgt1, h1, hinv1, hranks⟩ :=
      leader_step_inv rgt e hinv (hr e (List.mem_cons_self _ _))
    obtain ⟨rgt2, h2, hinv2⟩ := ih rgt1 hinv1 (by
      intro e' he'
      rw [hranks]
      exact hr e' (List.mem_cons_of_mem _ he'))
    exact ⟨rgt2, by simp [leader_run, h1, h2], hinv2⟩

/-- C7: from a freshly created tracker, any sequence of reports and failed-rank
pre-marks for tracked ranks runs to a tracker in which every entry with `pull_done`
set has `scan_done` set, so the count of `pull_done` entries is at most the count of
`scan_done` entries. -/
theorem c7_pull_done_implies_scan_done (doms : List Nat) (evs : List leader_event)
    (htracked : ∀ e ∈ evs, e.rank ∈ doms) :
    ∃ rgt, leader_run (rebuild_global_pool_tracker_create doms) evs = some rgt ∧
      (∀ s ∈ rgt.rgt_servers, s.pull_done = true → s.scan_done = true) ∧
      pull_done_count rgt ≤ scan_done_count rgt := by
  have h0 : pull_implies_scan (rebuild_global_pool_tracker_create doms) := by
    intro s hs hp
    simp only [rebuild_global_pool_tracker_create, List.mem_map] at hs
    obtain ⟨r, -, rfl⟩ := hs
    simp at hp
  obtain ⟨rgt, hrun, hinv⟩ := leader_run_inv evs _ h0 (by
    intro e he
    simpa [rebuild_global_pool_tracker_create, Function.comp_def] using htracked e he)
  refine ⟨rgt, hrun, hinv, ?_⟩
  unfold pull_done_count scan_done_count
  exact List.countP_mono_left (fun s hs hp => hinv s hs hp)

/-- Witness for C7: ranks 0, 1, 2; rank 1 reports scan and pull done with an error,
rank 2 is pre-marked as failed, rank 0 reports scan done. -/
theorem c7_pull_done_implies_scan_done_witness :
    (∀ e ∈ [leader_event.report ⟨1, true, true, -1⟩, leader_event.failed_rank 2,
        leader_event.report ⟨0, true, false, 0⟩], leader_event.rank e ∈ [0, 1, 2]) ∧
    ∃ rgt, leader_run (rebuild_global_pool_tracker_create [0, 1, 2])
        [leader_event.report ⟨1, true, true, -1⟩, leader_event.failed_rank 2,
         leader_event.report ⟨0, true, false, 0⟩] = some rgt ∧
      (∀ s ∈ rgt.rgt_servers, s.pull_done = true → s.scan_done = true) ∧
      pull_done_count rgt ≤ scan_done_count rgt :=
  ⟨by decide,
   c7_pull_done_implies_scan_done [0, 1, 2]
     [leader_event.report ⟨1, true, true, -1⟩, leader_event.failed_rank 2,
      leader_event.report ⟨0, true, false, 0⟩] (by decide)⟩

/-- C8: for a report with `riv_scan_done` set from a rank that has an entry in the
tracker, `rebuild_global_status_update` returns 0 and afterwards the entry of that
rank has `scan_done` set, whatever the report's pull flag and status and whatever
the other entries. -/
theorem c8_scan_done_recorded (rgt : rebuild_global_pool_tracker) (iv : rebuild_iv)
    (hsd : iv.riv_scan_done = true)
    (htracked : ∃ s ∈ rgt.rgt_servers, s.rank = iv.riv_rank) :
    ∃ rgt' s', rebuild_global_status_update rgt iv = some (0, rgt') ∧
      rgt_lookup rgt' iv.riv_rank = some s' ∧ s'.scan_done = true := by
  rcases servers_split iv.riv_rank rgt.rgt_servers with hno | ⟨pre, s, post, hl, hpre, hs⟩
  · obtain ⟨x, hx, hxr⟩ := htracked
    exact absurd hxr (hno x hx)
  · obtain ⟨s', hu, hrank, hscan, -⟩ := update_cases rgt iv hsd pre s post hl hpre hs
    exact ⟨_, s', hu, lookup_split iv.riv_rank _ pre s' post rfl hpre (hrank.trans hs),
      hscan⟩

/-- Witness for C8: ranks 0 and 1, rank 1 reports scan done, pull done and an error
while rank 0 has reported nothing. -/
theorem c8_scan_done_recorded_witness :
    (∃ s ∈ (rebuild_global_pool_tracker_create [0, 1]).rgt_servers, s.rank = 1) ∧
    ∃ rgt' s', rebuild_global_status_update (rebuild_global_pool_tracker_create [0, 1])
        ⟨1, true, true, -5⟩ = some (0, rgt') ∧
      rgt_lookup rgt' 1 = some s' ∧ s'.scan_done = true :=
  ⟨by decide,
   c8_scan_done_recorded (rebuild_global_pool_tracker_create [0, 1]) ⟨1, true, true, -5⟩
     rfl (by decide)⟩

/-! ## Claims on the dispatcher -/

theorem pool_tasks_cons (p : Nat) (a : rebuild_task) (l : List rebuild_task) :
    pool_tasks p (a :: l) =
      if a.dst_pool_uuid = p then a :: pool_tasks p l else pool_tasks p l := by
  unfold pool_tasks
  by_cases h : a.dst_pool_uuid = p <;> simp [List.filter_cons, h]

theorem not_rebuilding_iff (running : List rebuild_task) (p : Nat) :
    pool_is_rebuilding running p = false ↔ pool_tasks p running = [] := by
  unfold pool_is_rebuilding pool_tasks
  rw [List.filter_eq_nil_iff]
  constructor
  · intro h a ha
    have := List.any_eq_false.mp h a ha
    simpa using this
  · intro h
    apply List.any_eq_false.mpr
    intro a ha
    simpa using h a ha

theorem rebuilding_cons (running : List rebuild_task) (a : rebuild_task) (p : Nat) :
    pool_is_rebuilding (a :: running) p =
      (decide (a.dst_pool_uuid = p) || pool_is_rebuilding running p) := by
  simp [pool_is_rebuilding]

theorem dispatch_cons_skip (ult_rc : Nat → Int) (k : Nat) (a : rebuild_task)
    (q running : List rebuild_task) (n : Nat)
    (h : pool_is_rebuilding running a.dst_pool_uuid = true) :
    rebuild_ults_dispatch ult_rc k (a :: q) running n =
      (a :: (rebuild_ults_dispatch ult_rc k q running n).1,
       (rebuild_ults_dispatch ult_rc k q running n).2.1,
       (rebuild_ults_dispatch ult_rc k q running n).2.2) := by
  simp [rebuild_ults_dispatch, h]

theorem dispatch_cons_move (ult_rc : Nat → Int) (k : Nat) (a : rebuild_task)
    (q running : List rebuild_task) (n : Nat)
    (h : pool_is_rebuilding running a.dst_pool_uuid = false) (hk : ult_rc k = 0) :
    rebuild_ults_dispatch ult_rc k (a :: q) running n =
      rebuild_ults_dispatch ult_rc (k + 1) q (a :: running) ((n + 1) % 2 ^ 32) := by
  simp [rebuild_ults_dispatch, h, hk]

theorem dispatch_cons_fail (ult_rc : Nat → Int) (k : Nat) (a : rebuild_task)
    (q running : List rebuild_task) (n : Nat)
    (h : pool_is_rebuilding running a.dst_pool_uuid = false) (hk : ult_rc k ≠ 0) :
    rebuild_ults_dispatch ult_rc k (a :: q) running n =
      (a :: (rebuild_ults_dispatch ult_rc (k + 1) q running n).1,
       (rebuild_ults_dispatch ult_rc (k + 1) q running n).2.1,
       (rebuild_ults_dispatch ult_rc (k + 1) q running n).2.2) := by
  simp [rebuild_ults_dispatch, h, hk]

theorem dispatch_rebuilding (ult_rc : Nat → Int) (p : Nat) (q : List rebuild_task) :
    ∀ (k : Nat) (running : List rebuild_task) (n : Nat),
      pool_is_rebuilding running p = true →
      pool_tasks p (rebuild_ults_dispatch ult_rc k q running n).1 = pool_tasks p q ∧
      pool_tasks p (rebuild_ults_dispatch ult_rc k q running n).2.1 =
        pool_tasks p running := by
  induction q with
  | nil => intro k running n _; simp [rebuild_ults_dispatch]
  | cons a q ih =>
    intro k running n hp
    cases ha : pool_is_rebuilding running a.dst_pool_uuid with
    | true =>
      have := ih k running n hp
      rw [dispatch_cons_skip ult_rc k a q running n ha]
      simp only [pool_tasks_cons, this.1, this.2, and_self]
    | false =>
      have hap : a.dst_pool_uuid ≠ p := by
        intro h
        rw [h, hp] at ha
        exact absurd ha (by simp)
      by_cases hk : ult_rc k = 0
      · have hp' : pool_is_rebuilding (a :: running) p = true := by
          simp [rebuilding_cons, hp]
        have := ih (k + 1) (a :: running) ((n + 1) % 2 ^ 32) hp'
        rw [dispatch_cons_move ult_rc k a q running n ha hk]
        simp only [pool_tasks_cons, if_neg hap] at this ⊢
        exact this
      · have := ih (k + 1) running n hp
        rw [dispatch_cons_fail ult_rc k a q running n ha hk]
        simp only [pool_tasks_cons, if_neg hap, this.1, this.2, and_self]

theorem dispatch_not_rebuilding (ult_rc : Nat → Int) (hok : ∀ k, ult_rc k = 0) (p : Nat)
    (q : List rebuild_task) :
    ∀ (k : Nat) (running : List rebuild_task) (n : Nat),
      pool_is_rebuilding running p = false →
      pool_tasks p (rebuild_ults_dispatch ult_rc k q running n).1 = (pool_tasks p q).tail ∧
      pool_tasks p (rebuild_ults_dispatch ult_rc k q running n).2.1 =
        (pool_tasks p q).head?.toList := by
  induction q with
  | nil =>
    intro k running n hp
    have hr := (not_rebuilding_iff running p).mp hp
    have hnil : pool_tasks p [] = [] := rfl
    simp [rebuild_ults_dispatch, hr, hnil]
  | cons a q ih =>
    intro k running n hp
    by_cases hap : a.dst_pool_uuid = p
    · have ha : pool_is_rebuilding running a.dst_pool_uuid = false := by
        rw [hap, hp]
      have hp' : pool_is_rebuilding (a :: running) p = true := by
        simp [rebuilding_cons, hap]
      have := dispatch_rebuilding ult_rc p q (k + 1) (a :: running) ((n + 1) % 2 ^ 32) hp'
      rw [dispatch_cons_move ult_rc k a q running n ha (hok k)]
      simp only [pool_tasks_cons, if_pos hap, this.1, this.2,
        List.tail_cons, List.head?_cons, Option.toList, (not_rebuilding_iff running p).mp hp,
        and_self]
    · cases ha : pool_is_rebuilding running a.dst_pool_uuid with
      | true =>
        have := ih k running n hp
        rw [dispatch_cons_skip ult_rc k a q running n ha]
        simp only [pool_tasks_cons, if_neg hap, this.1, this.2, and_self]
      | false =>
        have hp' : pool_is_rebuilding (a :: running) p = false := by
          simp [rebuilding_cons, hap, hp]
        have := ih (k + 1) (a :: running) ((n + 1) % 2 ^ 32) hp'
        rw [dispatch_cons_move ult_rc k a q running n ha (hok k)]
        simp only [pool_tasks_cons, if_neg hap, this.1, this.2, and_self]

theorem dispatch_sublist (ult_rc : Nat → Int) (q : List rebuild_task) :
    ∀ (k : Nat) (running : List rebuild_task) (n : Nat),
      (rebuild_ults_dispatch ult_rc k q running n).1.Sublist q := by
  induction q with
  | nil => intro k running n; simp [rebuild_ults_dispatch]
  | cons a q ih =>
    intro k running n
    cases ha : pool_is_rebuilding running a.dst_pool_uuid with
    | true =>
      rw [dispatch_cons_skip ult_rc k a q running n ha]
      exact List.Sublist.cons₂ a (ih k running n)
    | false =>
      by_cases hk : ult_rc k = 0
      · rw [dispatch_cons_move ult_rc k a q running n ha hk]
        exact List.Sublist.cons a (ih _ _ _)
      · rw [dispatch_cons_fail ult_rc k a q running n ha hk]
        exact List.Sublist.cons₂ a (ih _ _ _)

/-- C9 (the code departs from the claim): with nine tasks running (`rg_inflight` = 9)
and two queued tasks of two further pools, one pass of the dispatcher in which both
ULT creations succeed leaves `rg_inflight` = 11, above `REBUILD_MAX_INFLIGHT` = 10. -/
theorem c9_inflight_exceeds_cap :
    (9 : Nat) ≤ REBUILD_MAX_INFLIGHT ∧
    (rebuild_ults_pass (fun _ => 0)
      { rg_queue_list := [mk_task 10 1 RB_OP_FAIL {0}, mk_task 11 1 RB_OP_FAIL {0}]
        rg_running_list := (List.range 9).map (fun i => mk_task (i + 1) 1 RB_OP_FAIL {0})
        rg_inflight := 9
        rg_rebuild_running := true
        rg_abort := false }).rg_inflight = 11 ∧
    ¬ (rebuild_ults_pass (fun _ => 0)
      { rg_queue_list := [mk_task 10 1 RB_OP_FAIL {0}, mk_task 11 1 RB_OP_FAIL {0}]
        rg_running_list := (List.range 9).map (fun i => mk_task (i + 1) 1 RB_OP_FAIL {0})
        rg_inflight := 9
        rg_rebuild_running := true
        rg_abort := false }).rg_inflight ≤ REBUILD_MAX_INFLIGHT := by
  decide

/-- C10: in one walk of the queue by `rebuild_ults` in which every `dss_ult_create`
succeeds, for every pool: if it has a running task, its queued and running tasks stay
as they are; otherwise its first queued task, and only that one, moves to the running
list and its other queued tasks stay queued in order.  The tasks left on the queue
keep their order, and a running list with at most one task per pool stays so. -/
theorem c10_one_running_task_per_pool (ult_rc : Nat → Int) (hok : ∀ k, ult_rc k = 0)
    (queue running : List rebuild_task) (inflight p : Nat) :
    (pool_is_rebuilding running p = true →
      pool_tasks p (rebuild_ults_dispatch ult_rc 0 queue running inflight).1 =
        pool_tasks p queue ∧
      pool_tasks p (rebuild_ults_dispatch ult_rc 0 queue running inflight).2.1 =
        pool_tasks p running) ∧
    (pool_is_rebuilding running p = false →
      ∀ t ts, pool_tasks p queue = t :: ts →
        pool_tasks p (rebuild_ults_dispatch ult_rc 0 queue running inflight).1 = ts ∧
        pool_tasks p (rebuild_ults_dispatch ult_rc 0 queue running inflight).2.1 = [t]) ∧
    (rebuild_ults_dispatch ult_rc 0 queue running inflight).1.Sublist queue ∧
    ((∀ p', (pool_tasks p' running).length ≤ 1) →
      ∀ p', (pool_tasks p'
        (rebuild_ults_dispatch ult_rc 0 queue running inflight).2.1).length ≤ 1) := by
  refine ⟨dispatch_rebuilding ult_rc p queue 0 running inflight, ?_,
    dispatch_sublist ult_rc queue 0 running inflight, ?_⟩
  · intro hp t ts hq
    have := dispatch_not_rebuilding ult_rc hok p queue 0 running inflight hp
    rw [hq] at this
    simpa using this
  · intro h1 p'
    cases hp : pool_is_rebuilding running p' with
    | true =>
      rw [(dispatch_rebuilding ult_rc p' queue 0 running inflight hp).2]
      exact h1 p'
    | false =>
      rw [(dispatch_not_rebuilding ult_rc hok p' queue 0 running inflight hp).2]
      cases pool_tasks p' queue <;> simp

/-- Witness for C10: pool 1 has a running task and pools 2 and 3 have none; the queue
holds two tasks of pool 2, one of pool 1 and one of pool 3. -/
theorem c10_one_running_task_per_pool_witness :
    (∀ k : Nat, (fun _ => (0 : Int)) k = 0) ∧
    rebuild_ults_dispatch (fun _ => 0) 0
        [mk_task 2 5 RB_OP_FAIL {0}, mk_task 1 6 RB_OP_FAIL {1}, mk_task 2 7 RB_OP_REINT {0},
         mk_task 3 8 RB_OP_DRAIN {2}]
        [mk_task 1 4 RB_OP_FAIL {9}] 1 =
      ([mk_task 1 6 RB_OP_FAIL {1}, mk_task 2 7 RB_OP_REINT {0}],
       [mk_task 3 8 RB_OP_DRAIN {2}, mk_task 2 5 RB_OP_FAIL {0}, mk_task 1 4 RB_OP_FAIL {9}],
       3) ∧
    (pool_is_rebuilding [mk_task 1 4 RB_OP_FAIL {9}] 2 = false →
      ∀ t ts, pool_tasks 2
          [mk_task 2 5 RB_OP_FAIL {0}, mk_task 1 6 RB_OP_FAIL {1},
           mk_task 2 7 RB_OP_REINT {0}, mk_task 3 8 RB_OP_DRAIN {2}] = t :: ts →
        pool_tasks 2 (rebuild_ults_dispatch (fun _ => 0) 0
          [mk_task 2 5 RB_OP_FAIL {0}, mk_task 1 6 RB_OP_FAIL {1},
           mk_task 2 7 RB_OP_REINT {0}, mk_task 3 8 RB_OP_DRAIN {2}]
          [mk_task 1 4 RB_OP_FAIL {9}] 1).1 = ts ∧
        pool_tasks 2 (rebuild_ults_dispatch (fun _ => 0) 0
          [mk_task 2 5 RB_OP_FAIL {0}, mk_task 1 6 RB_OP_FAIL {1},
           mk_task 2 7 RB_OP_REINT {0}, mk_task 3 8 RB_OP_DRAIN {2}]
          [mk_task 1 4 RB_OP_FAIL {9}] 1).2.1 = [t]) :=
  ⟨fun _ => rfl, by decide,
   (c10_one_running_task_per_pool (fun _ => 0) (fun _ => rfl)
      [mk_task 2 5 RB_OP_FAIL {0}, mk_task 1 6 RB_OP_FAIL {1}, mk_task 2 7 RB_OP_REINT {0},
       mk_task 3 8 RB_OP_DRAIN {2}]
      [mk_task 1 4 RB_OP_FAIL {9}] 1 2).2.1⟩

/-! ## Claims on `rebuild_task_ult` and `ds_rebuild_query` -/

theorem global_done_some (r : rebuild_global_pool_tracker) (h : r.rgt_servers ≠ []) :
    ∃ b, is_rebuild_global_done r = some b ∧
      ∃ b', is_rebuild_global_scan_done r = some b' := by
  have hlen : r.rgt_servers.length > 0 := List.length_pos.mpr h
  unfold is_rebuild_global_done is_rebuild_global_scan_done is_rebuild_global_pull_done
  simp only [hlen, if_true]
  cases r.rgt_servers.all (fun s => s.scan_done) <;> simp

theorem global_done_scan (r : rebuild_global_pool_tracker) (b : Bool)
    (h : is_rebuild_global_done r = some b) :
    ∃ b', is_rebuild_global_scan_done r = some b' := by
  unfold is_rebuild_global_done at h
  cases hs : is_rebuild_global_scan_done r with
  | none => simp [hs] at h
  | some b' => exact ⟨b', rfl⟩

theorem try_reschedule_transitions (task : rebuild_task) (pool : ds_pool)
    (rgt : Option rebuild_global_pool_tracker) (rc : Int) (l : List task_call)
    (h : task_try_reschedule task pool rgt rc = some l) : transition_calls l = [] := by
  unfold task_try_reschedule at h
  cases rgt with
  | none =>
    simp only [Option.some.injEq] at h
    subst h
    rfl
  | some r =>
    cases hd : is_rebuild_global_done r with
    | none => simp [hd] at h
    | some done =>
      simp only [hd] at h
      split at h <;>
        (simp only [Option.some.injEq] at h
         subst h
         rfl)

theorem iv_stop_transitions (env : task_ult_env) (task : rebuild_task) (pool : ds_pool)
    (r : rebuild_global_pool_tracker) (rc : Int) (l : List task_call)
    (h : task_iv_stop env task pool r rc = some l) : transition_calls l = [] := by
  unfold task_iv_stop at h
  split at h
  · split at h
    · exact try_reschedule_transitions _ _ _ _ _ h
    · cases hs : is_rebuild_global_scan_done r with
      | none => simp [hs] at h
      | some b =>
        simp only [hs, Option.map_eq_some'] at h
        obtain ⟨l', hl', rfl⟩ := h
        have := try_reschedule_transitions _ _ _ _ _ hl'
        simpa [transition_calls] using this
  · exact try_reschedule_transitions _ _ _ _ _ h

/-- What `task_try_reschedule` does when the tracker has an error or is not done:
the task is scheduled again with its own op and a delay of 5. -/
theorem try_reschedule_same_op (task : rebuild_task) (pool : ds_pool)
    (r : rebuild_global_pool_tracker) (rc : Int) (b : Bool)
    (hd : is_rebuild_global_done r = some b) (herr : r.rgt_status.rs_errno ≠ 0) :
    task_try_reschedule task pool (some r) rc =
      some [task_call.ds_rebuild_schedule pool.sp_uuid task.dst_map_ver task.dst_tgts
              task.dst_rebuild_op 5, task_call.rebuild_notify_ras_end rc] := by
  simp [task_try_reschedule, hd, herr]

/-- Calls of `task_iv_stop`: the optional final IV update, then those of
`task_try_reschedule` with some return code. -/
theorem iv_stop_shape (env : task_ult_env) (task : rebuild_task) (pool : ds_pool)
    (r : rebuild_global_pool_tracker) (rc : Int) (b : Bool)
    (hd : is_rebuild_global_done r = some b) :
    ∃ rc' pre, (pre = [] ∨ pre = [task_call.rebuild_iv_update]) ∧
      task_iv_stop env task pool r rc =
        (task_try_reschedule task pool (some r) rc').map (fun l => pre ++ l) := by
  obtain ⟨b', hs⟩ := global_done_scan r b hd
  unfold task_iv_stop
  by_cases hi : r.rgt_init_scan = true
  · by_cases hm : env.myrank ≠ env.iv_master_rank
    · exact ⟨rc, [], Or.inl rfl, by simp [hi, hm]⟩
    · exact ⟨env.iv_update_rc, [task_call.rebuild_iv_update], Or.inr rfl, by
        simp [hi, hm, hs]⟩
  · exact ⟨rc, [], Or.inl rfl, by simp [hi]⟩

/-- Transition requests from label `done` on. -/
theorem task_done_transitions (env : task_ult_env) (task : rebuild_task)
    (pool : ds_pool) (r : rebuild_global_pool_tracker) (rc : Int) (calls : List task_call)
    (h : task_done env task pool r rc = some calls) :
    transition_calls calls =
      (if is_rebuild_global_done r = some true ∧ r.rgt_status.rs_errno = 0 ∧
          task.dst_tgts.card ≠ 0 then
        (if task.dst_rebuild_op = RB_OP_FAIL ∨ task.dst_rebuild_op = RB_OP_DRAIN then
          [task_call.ds_pool_tgt_exclude_out pool.sp_uuid task.dst_tgts]
        else if task.dst_rebuild_op = RB_OP_REINT ∨ task.dst_rebuild_op = RB_OP_EXTEND then
          [task_call.ds_pool_tgt_add_in pool.sp_uuid task.dst_tgts]
        else [])
      else []) ∧
    (r.rgt_status.rs_errno ≠ 0 → transition_calls calls = []) := by
  have main : transition_calls calls =
      (if is_rebuild_global_done r = some true ∧ r.rgt_status.rs_errno = 0 ∧
          task.dst_tgts.card ≠ 0 then
        (if task.dst_rebuild_op = RB_OP_FAIL ∨ task.dst_rebuild_op = RB_OP_DRAIN then
          [task_call.ds_pool_tgt_exclude_out pool.sp_uuid task.dst_tgts]
        else if task.dst_rebuild_op = RB_OP_REINT ∨ task.dst_rebuild_op = RB_OP_EXTEND then
          [task_call.ds_pool_tgt_add_in pool.sp_uuid task.dst_tgts]
        else [])
      else []) := by
    unfold task_done at h
    cases hd : is_rebuild_global_done r with
    | none => simp [hd] at h
    | some b =>
      cases b with
      | false =>
        simp only [hd] at h
        have hne : ¬ ((some false : Option Bool) = some true ∧ r.rgt_status.rs_errno = 0 ∧
            task.dst_tgts.card ≠ 0) := by simp
        rw [if_neg hne]
        split at h
        · simp only [Option.some.injEq] at h
          subst h
          rfl
        · exact iv_stop_transitions _ _ _ _ _ _ h
      | true =>
        simp only [hd] at h
        by_cases hskip : task.dst_tgts.card = 0 ∨ r.rgt_status.rs_errno ≠ 0
        · rw [if_pos hskip] at h
          have hne : ¬ ((some true : Option Bool) = some true ∧ r.rgt_status.rs_errno = 0 ∧
              task.dst_tgts.card ≠ 0) := by
            rintro ⟨-, he, hc⟩
            rcases hskip with h1 | h1
            · exact hc h1
            · exact h1 he
          rw [if_neg hne]
          exact iv_stop_transitions _ _ _ _ _ _ h
        · rw [if_neg hskip] at h
          push_neg at hskip
          have hpos : (some true : Option Bool) = some true ∧ r.rgt_status.rs_errno = 0 ∧
              task.dst_tgts.card ≠ 0 := ⟨rfl, hskip.2, hskip.1⟩
          rw [if_pos hpos]
          by_cases h1 : task.dst_rebuild_op = RB_OP_FAIL ∨ task.dst_rebuild_op = RB_OP_DRAIN
          · rw [if_pos h1] at h
            rw [if_pos h1]
            simp only [Option.map_eq_some'] at h
            obtain ⟨l, hl, rfl⟩ := h
            have := iv_stop_transitions _ _ _ _ _ _ hl
            simpa [transition_calls] using this
          · rw [if_neg h1] at h
            rw [if_neg h1]
            by_cases h2 : task.dst_rebuild_op = RB_OP_REINT ∨
                task.dst_rebuild_op = RB_OP_EXTEND
            · rw [if_pos h2] at h
              rw [if_pos h2]
              simp only [Option.map_eq_some'] at h
              obtain ⟨l, hl, rfl⟩ := h
              have := iv_stop_transitions _ _ _ _ _ _ hl
              simpa [transition_calls] using this
            · rw [if_neg h2] at h
              rw [if_neg h2]
              exact iv_stop_transitions _ _ _ _ _ _ h
  refine ⟨main, fun herr => ?_⟩
  rw [main, if_neg]
  rintro ⟨-, he, -⟩
  exact herr he

/-- C12: a started `rebuild_task_ult` (pool found, `rebuild_leader_start` returns 0)
requests a pool-map transition after the status-check loop exactly when the tracker
is globally done, its error is 0 and the target list is non-empty: exclude-out of the
task's targets for FAIL and DRAIN, add-in for REINT and EXTEND, nothing for RECLAIM;
with a non-zero tracker error, and when the start fails, no transition is requested. -/
theorem c12_transition_only_on_success (env : task_ult_env) (task : rebuild_task)
    (pool : ds_pool) (calls : List task_call) (hpool : env.pool = some pool)
    (h : rebuild_task_ult env task = some calls) :
    (∀ r0, env.start_rc = 0 → env.start_rgt = some r0 →
      transition_calls calls =
        (if is_rebuild_global_done (env.status_check r0) = some true ∧
            (env.status_check r0).rgt_status.rs_errno = 0 ∧ task.dst_tgts.card ≠ 0 then
          (if task.dst_rebuild_op = RB_OP_FAIL ∨ task.dst_rebuild_op = RB_OP_DRAIN then
            [task_call.ds_pool_tgt_exclude_out pool.sp_uuid task.dst_tgts]
          else if task.dst_rebuild_op = RB_OP_REINT ∨ task.dst_rebuild_op = RB_OP_EXTEND then
            [task_call.ds_pool_tgt_add_in pool.sp_uuid task.dst_tgts]
          else [])
        else []) ∧
      ((env.status_check r0).rgt_status.rs_errno ≠ 0 → transition_calls calls = [])) ∧
    (env.start_rc ≠ 0 → transition_calls calls = []) := by
  unfold rebuild_task_ult at h
  rw [hpool] at h
  dsimp only at h
  constructor
  · intro r0 hrc hrgt
    have hrc' : ¬ (env.start_rc ≠ 0) := by simp [hrc]
    rw [if_neg hrc', hrgt] at h
    simp only [Option.map_eq_some'] at h
    obtain ⟨l, hl, rfl⟩ := h
    have hmain := task_done_transitions env task pool (env.status_check r0) 0 l hl
    have hcons : transition_calls (task_call.rebuild_notify_ras_start :: l) =
        transition_calls l := by simp [transition_calls]
    rw [hcons]
    exact hmain
  · intro hrc
    rw [if_pos hrc] at h
    by_cases hcn : env.start_rc = -env.der_canceled ∨ env.start_rc = -env.der_notleader
    · rw [if_pos hcn] at h
      simp only [Option.some.injEq] at h
      subst h
      rfl
    · rw [if_neg hcn] at h
      cases hr : env.start_rgt with
      | none =>
        rw [hr] at h
        simp only [Option.map_eq_some'] at h
        obtain ⟨l, hl, rfl⟩ := h
        have := try_reschedule_transitions _ _ _ _ _ hl
        simpa [transition_calls] using this
      | some r =>
        rw [hr] at h
        simp only [Option.map_eq_some'] at h
        obtain ⟨l, hl, rfl⟩ := h
        have := (task_done_transitions env task pool _ env.start_rc l hl).2 hrc
        simpa [transition_calls] using this

/-- Witness for C12: a FAIL task with target 3 whose tracker ends globally done with
error 0 requests exclude-out of target 3 for pool 1. -/
theorem c12_transition_only_on_success_witness :
    rebuild_task_ult task_env_done (mk_task 1 7 RB_OP_FAIL {3}) =
      some [task_call.rebuild_notify_ras_start,
            task_call.ds_pool_tgt_exclude_out 1 {3}, task_call.rebuild_iv_update,
            task_call.rebuild_status_completed_update 1 {},
            task_call.rebuild_notify_ras_end 0] ∧
    transition_calls
        [task_call.rebuild_notify_ras_start,
         task_call.ds_pool_tgt_exclude_out 1 {3}, task_call.rebuild_iv_update,
         task_call.rebuild_status_completed_update 1 {},
         task_call.rebuild_notify_ras_end 0] =
      (if is_rebuild_global_done (task_env_done.status_check rgt_all_done) = some true ∧
          (task_env_done.status_check rgt_all_done).rgt_status.rs_errno = 0 ∧
          (mk_task 1 7 RB_OP_FAIL {3}).dst_tgts.card ≠ 0 then
        (if (mk_task 1 7 RB_OP_FAIL {3}).dst_rebuild_op = RB_OP_FAIL ∨
            (mk_task 1 7 RB_OP_FAIL {3}).dst_rebuild_op = RB_OP_DRAIN then
          [task_call.ds_pool_tgt_exclude_out pool1.sp_uuid
            (mk_task 1 7 RB_OP_FAIL {3}).dst_tgts]
        else if (mk_task 1 7 RB_OP_FAIL {3}).dst_rebuild_op = RB_OP_REINT ∨
            (mk_task 1 7 RB_OP_FAIL {3}).dst_rebuild_op = RB_OP_EXTEND then
          [task_call.ds_pool_tgt_add_in pool1.sp_uuid (mk_task 1 7 RB_OP_FAIL {3}).dst_tgts]
        else [])
      else []) :=
  ⟨by decide,
   ((c12_transition_only_on_success task_env_done (mk_task 1 7 RB_OP_FAIL {3}) pool1 _ rfl
      (by decide)).1 rgt_all_done rfl rfl).1⟩

/-- With a non-zero tracker error, everything from label `done` on ends in one
`ds_rebuild_schedule` call with the task's own op and delay 5. -/
theorem task_done_error (env : task_ult_env) (task : rebuild_task) (pool : ds_pool)
    (r : rebuild_global_pool_tracker) (rc : Int) (hsrv : r.rgt_servers ≠ [])
    (herr : r.rgt_status.rs_errno ≠ 0) :
    ∃ l, task_done env task pool r rc = some l ∧
      schedule_calls l =
        [task_call.ds_rebuild_schedule pool.sp_uuid task.dst_map_ver task.dst_tgts
          task.dst_rebuild_op 5] := by
  obtain ⟨b, hb, -⟩ := global_done_some r hsrv
  obtain ⟨rc', pre, hpre, hshape⟩ := iv_stop_shape env task pool r rc b hb
  rw [try_reschedule_same_op task pool r rc' b hb herr] at hshape
  have hs : schedule_calls (pre ++
      [task_call.ds_rebuild_schedule pool.sp_uuid task.dst_map_ver task.dst_tgts
        task.dst_rebuild_op 5, task_call.rebuild_notify_ras_end rc']) =
      [task_call.ds_rebuild_schedule pool.sp_uuid task.dst_map_ver task.dst_tgts
        task.dst_rebuild_op 5] := by
    rcases hpre with rfl | rfl <;> simp [schedule_calls]
  refine ⟨_, ?_, hs⟩
  unfold task_done
  cases b with
  | false =>
    have hab : ¬ (r.rgt_abort = true ∧ r.rgt_status.rs_errno = 0) := fun h => herr h.2
    simp only [hb, hab, if_false, hshape, Option.map_some']
  | true =>
    have hsk : task.dst_tgts.card = 0 ∨ r.rgt_status.rs_errno ≠ 0 := Or.inr herr
    simp only [hb, hsk, if_true, hshape, Option.map_some']

/-- C13: when `rebuild_leader_start` fails in `rebuild_task_ult`, with an error other
than CANCELED and NOTLEADER the task is scheduled again through exactly one
`ds_rebuild_schedule` call with its pool, map version, targets and op and delay 5;
with CANCELED or NOTLEADER only the RAS events are sent: there is no
`ds_rebuild_schedule` call and no completed record. -/
theorem c13_start_failure_reschedules (env : task_ult_env) (task : rebuild_task)
    (pool : ds_pool) (hpool : env.pool = some pool) (hrc : env.start_rc ≠ 0)
    (hsrv : ∀ r, env.start_rgt = some r → r.rgt_servers ≠ []) :
    (env.start_rc ≠ -env.der_canceled ∧ env.start_rc ≠ -env.der_notleader →
      ∃ calls, rebuild_task_ult env task = some calls ∧
        schedule_calls calls =
          [task_call.ds_rebuild_schedule pool.sp_uuid task.dst_map_ver task.dst_tgts
            task.dst_rebuild_op 5]) ∧
    (env.start_rc = -env.der_canceled ∨ env.start_rc = -env.der_notleader →
      ∃ calls, rebuild_task_ult env task = some calls ∧
        calls = [task_call.rebuild_notify_ras_start, task_call.rebuild_notify_ras_end 0] ∧
        schedule_calls calls = [] ∧ completed_calls calls = []) := by
  constructor
  · rintro ⟨hc, hn⟩
    have hcn : ¬ (env.start_rc = -env.der_canceled ∨ env.start_rc = -env.der_notleader) := by
      rintro (h | h)
      · exact hc h
      · exact hn h
    unfold rebuild_task_ult
    simp only [hpool, hrc, ne_eq, not_false_eq_true, if_true, hcn, if_false]
    cases hr : env.start_rgt with
    | none =>
      refine ⟨[task_call.rebuild_notify_ras_start,
        task_call.ds_rebuild_schedule pool.sp_uuid task.dst_map_ver task.dst_tgts
          task.dst_rebuild_op 5, task_call.rebuild_notify_ras_end env.start_rc], ?_, ?_⟩
      · simp [task_try_reschedule]
      · simp [schedule_calls]
    | some r =>
      obtain ⟨l, hl, hs⟩ := task_done_error env task pool
        { r with rgt_abort := true,
                 rgt_status := { r.rgt_status with rs_errno := env.start_rc } }
        env.start_rc (hsrv r hr) hrc
      refine ⟨task_call.rebuild_notify_ras_start :: l, ?_, by simpa [schedule_calls] using hs⟩
      simp only [hl, Option.map_some']
  · intro hcn
    refine ⟨_, ?_, rfl, by simp [schedule_calls], by simp [completed_calls]⟩
    unfold rebuild_task_ult
    simp only [hpool, hrc, ne_eq, not_false_eq_true, if_true, hcn]

/-- Witness for C13: `rebuild_leader_start` fails with -1 and leaves no tracker; the
REINT task of pool 1, version 7, target 3 is scheduled again with op REINT. -/
theorem c13_start_failure_reschedules_witness :
    ({ task_env_done with start_rc := -1, start_rgt := none } : task_ult_env).start_rc ≠ 0 ∧
    ∃ calls,
      rebuild_task_ult { task_env_done with start_rc := -1, start_rgt := none }
          (mk_task 1 7 RB_OP_REINT {3}) = some calls ∧
        schedule_calls calls =
          [task_call.ds_rebuild_schedule pool1.sp_uuid
            (mk_task 1 7 RB_OP_REINT {3}).dst_map_ver (mk_task 1 7 RB_OP_REINT {3}).dst_tgts
            (mk_task 1 7 RB_OP_REINT {3}).dst_rebuild_op 5] :=
  ⟨by decide,
   (c13_start_failure_reschedules { task_env_done with start_rc := -1, start_rgt := none }
      (mk_task 1 7 RB_OP_REINT {3}) pool1 rfl (by decide) (by intro r h; cases h)).1
     ⟨by decide, by decide⟩⟩

/-- C14 (counterexample): pool 1 has no tracker and no completed record but a queued
task; `ds_rebuild_query` returns 0 with every field zero, `rs_done` included. -/
theorem c14_queued_task_resets_done :
    rebuild_global_pool_tracker_lookup
        { rebuild_gst_init with rg_queue_list := [mk_task 1 10 RB_OP_FAIL {3}] } 1 (2 ^ 32 - 1) =
      none ∧
    rebuild_status_completed_lookup
        { rebuild_gst_init with rg_queue_list := [mk_task 1 10 RB_OP_FAIL {3}] } 1 = none ∧
    ds_rebuild_query
        { rebuild_gst_init with rg_queue_list := [mk_task 1 10 RB_OP_FAIL {3}] } 1 =
      (0, {}) ∧
    (ds_rebuild_query
        { rebuild_gst_init with rg_queue_list := [mk_task 1 10 RB_OP_FAIL {3}] } 1).2.rs_done ≠
      1 := by
  decide

/-- C14 (amended): for a pool with no global tracker, no record in the completed list
and no queued rebuild task, `ds_rebuild_query` returns 0 and a status whose `rs_done`
is 1 and whose other fields are zero. -/
theorem c14_query_unknown_pool (gst : rebuild_global) (pool_uuid : Nat)
    (hrgt : rebuild_global_pool_tracker_lookup gst pool_uuid (2 ^ 32 - 1) = none)
    (hrsc : rebuild_status_completed_lookup gst pool_uuid = none)
    (hq : ∀ task ∈ gst.rg_queue_list, task.dst_pool_uuid ≠ pool_uuid) :
    ds_rebuild_query gst pool_uuid = (0, { ({} : daos_rebuild_status) with rs_done := 1 }) := by
  unfold ds_rebuild_query
  simp only [hrgt, hrsc]
  have hany : gst.rg_queue_list.any (fun task => decide (task.dst_pool_uuid = pool_uuid)) =
      false := by
    apply List.any_eq_false.mpr
    intro t ht
    simpa using hq t ht
  simp [hany]

/-- Witness for C14 (amended): pool 1 is queried while only pool 2 has a queued task. -/
theorem c14_query_unknown_pool_witness :
    (∀ task ∈ ({ rebuild_gst_init with rg_queue_list := [mk_task 2 10 RB_OP_FAIL {3}] } :
        rebuild_global).rg_queue_list, task.dst_pool_uuid ≠ 1) ∧
    ds_rebuild_query { rebuild_gst_init with rg_queue_list := [mk_task 2 10 RB_OP_FAIL {3}] } 1 =
      (0, { ({} : daos_rebuild_status) with rs_done := 1 }) :=
  ⟨by decide,
   c14_query_unknown_pool { rebuild_gst_init with rg_queue_list := [mk_task 2 10 RB_OP_FAIL {3}] }
     1 (by decide) (by decide) (by decide)⟩

/-! ## Claims on `ds_rebuild_leader_stop` -/

theorem leader_stop_queue_all (p : Nat) (q : List rebuild_task) :
    leader_stop_queue p (2 ^ 32 - 1) q = q.filter (fun t => ! stop_match p (2 ^ 32 - 1) t) := by
  induction q with
  | nil => rfl
  | cons a q ih =>
    have ih' := ih
    simp only [Nat.reducePow, Nat.reduceSub] at ih' ⊢
    by_cases h : stop_match p 4294967295 a = true
    · simp [leader_stop_queue, h, ih']
    · simp [leader_stop_queue, h, ih']

theorem leader_stop_queue_one (p v : Nat) (hv : v ≠ 2 ^ 32 - 1) (q : List rebuild_task)
    (h : (q.filter (fun t => stop_match p v t)).length ≤ 1) :
    leader_stop_queue p v q = q.filter (fun t => ! stop_match p v t) := by
  induction q with
  | nil => rfl
  | cons a q ih =>
    by_cases ha : stop_match p v a = true
    · have hq : q.filter (fun t => stop_match p v t) = [] := by
        simp only [List.filter_cons, ha, if_true, List.length_cons] at h
        exact List.length_eq_zero.mp (by omega)
      have hq2 : q.filter (fun t => ! stop_match p v t) = q := by
        apply List.filter_eq_self.mpr
        intro x hx
        have := List.filter_eq_nil_iff.mp hq x hx
        simpa using this
      have hv' : v ≠ 4294967295 := by simpa using hv
      simp [leader_stop_queue, ha, hv', hq2]
    · have h2 : (q.filter (fun t => stop_match p v t)).length ≤ 1 := by
        simpa [List.filter_cons, ha] using h
      simp [leader_stop_queue, ha, ih h2]

/-- C24 (counterexample): FAIL and then REINT are scheduled for pool 1 at map version
10, which queues two tasks of that version; `ds_rebuild_leader_stop(pool 1, 10)`
removes the first one only and the FAIL task of version 10 is still queued. -/
theorem c24_same_version_task_stays :
    (schedule_all rebuild_gst_init
        [(env_ok, pool1, 10, {3}, RB_OP_FAIL, 0),
         (env_ok, pool1, 10, {4}, RB_OP_REINT, 0)]).rg_queue_list =
      [mk_task 1 10 RB_OP_REINT {4}, mk_task 1 10 RB_OP_FAIL {3}] ∧
    (ds_rebuild_leader_stop
        (schedule_all rebuild_gst_init
          [(env_ok, pool1, 10, {3}, RB_OP_FAIL, 0),
           (env_ok, pool1, 10, {4}, RB_OP_REINT, 0)]) 1 10).rg_queue_list =
      [mk_task 1 10 RB_OP_FAIL {3}] := by
  decide

/-- C24 (amended): when `ver` is -1, or at most one queued task of the pool has
`dst_map_ver = ver`, the queue after `ds_rebuild_leader_stop(pool, ver)` is the old
queue without the tasks of the pool that match `ver` (all tasks of the pool for -1):
no such task is left and all other tasks keep their places relative to each other. -/
theorem c24_leader_stop_queue (gst : rebuild_global) (pool_uuid ver : Nat)
    (h : ver = 2 ^ 32 - 1 ∨
      (gst.rg_queue_list.filter
        (fun t => t.dst_pool_uuid = pool_uuid ∧ t.dst_map_ver = ver)).length ≤ 1) :
    (ds_rebuild_leader_stop gst pool_uuid ver).rg_queue_list =
        gst.rg_queue_list.filter
          (fun t => ¬ (t.dst_pool_uuid = pool_uuid ∧ (ver = 2 ^ 32 - 1 ∨ t.dst_map_ver = ver))) ∧
      (∀ t ∈ (ds_rebuild_leader_stop gst pool_uuid ver).rg_queue_list,
        ¬ (t.dst_pool_uuid = pool_uuid ∧ (ver = 2 ^ 32 - 1 ∨ t.dst_map_ver = ver))) ∧
      (ds_rebuild_leader_stop gst pool_uuid ver).rg_queue_list.Sublist gst.rg_queue_list := by
  have key : (ds_rebuild_leader_stop gst pool_uuid ver).rg_queue_list =
      gst.rg_queue_list.filter
        (fun t => ¬ (t.dst_pool_uuid = pool_uuid ∧
          (ver = 2 ^ 32 - 1 ∨ t.dst_map_ver = ver))) := by
    have e : (fun t : rebuild_task => decide (¬ (t.dst_pool_uuid = pool_uuid ∧
          (ver = 2 ^ 32 - 1 ∨ t.dst_map_ver = ver)))) =
        (fun t => ! stop_match pool_uuid ver t) := by
      funext t
      simp [stop_match]
    rw [e]
    show leader_stop_queue pool_uuid ver gst.rg_queue_list = _
    by_cases hv : ver = 2 ^ 32 - 1
    · subst hv
      exact leader_stop_queue_all pool_uuid _
    · apply leader_stop_queue_one pool_uuid ver hv
      rcases h with h | h
      · exact absurd h hv
      · have e2 : (fun t : rebuild_task => stop_match pool_uuid ver t) =
            (fun t => decide (t.dst_pool_uuid = pool_uuid ∧ t.dst_map_ver = ver)) := by
          have hv' : ver ≠ 4294967295 := by simpa using hv
          funext t
          simp [stop_match, hv']
        rw [e2]
        exact h
  refine ⟨key, ?_, ?_⟩
  · intro t ht
    rw [key] at ht
    exact of_decide_eq_true (List.mem_filter.mp ht).2
  · rw [key]
    exact List.filter_sublist _

/-- Witness for C24 (amended): pool 1 has one queued task of version 10; it is removed
and the tasks of version 5 and of pool 2 stay in their order. -/
theorem c24_leader_stop_queue_witness :
    (({ rebuild_gst_init with
          rg_queue_list := [mk_task 1 5 RB_OP_REINT {4}, mk_task 2 10 RB_OP_FAIL {1},
            mk_task 1 10 RB_OP_FAIL {3}] } : rebuild_global).rg_queue_list.filter
        (fun t => t.dst_pool_uuid = 1 ∧ t.dst_map_ver = 10)).length ≤ 1 ∧
    (ds_rebuild_leader_stop
        { rebuild_gst_init with
          rg_queue_list := [mk_task 1 5 RB_OP_REINT {4}, mk_task 2 10 RB_OP_FAIL {1},
            mk_task 1 10 RB_OP_FAIL {3}] } 1 10).rg_queue_list =
      [mk_task 1 5 RB_OP_REINT {4}, mk_task 2 10 RB_OP_FAIL {1}] :=
  ⟨by decide,
   (c24_leader_stop_queue
    { rebuild_gst_init with
      rg_queue_list := [mk_task 1 5 RB_OP_REINT {4}, mk_task 2 10 RB_OP_FAIL {1},
        mk_task 1 10 RB_OP_FAIL {3}] } 1 10 (Or.inr (by decide))).1.trans (by decide)⟩

/-! ## Claims on the target status check -/

theorem tgt_clamp_max (c r : Nat) : tgt_clamp c r = max c r := by
  unfold tgt_clamp
  by_cases h : c < r
  · simp [h, Nat.max_eq_right (Nat.le_of_lt h)]
  · simp [h, Nat.max_eq_left (Nat.le_of_not_lt h)]

theorem u64_sub_exact (a b : Nat) (ha : a < 2 ^ 64) (hb : b ≤ a) : u64_sub a b = a - b := by
  unfold u64_sub
  have hb2 : b % 2 ^ 64 = b := Nat.mod_eq_of_lt (Nat.lt_of_le_of_lt hb ha)
  rw [hb2]
  have : a + 2 ^ 64 - b = (a - b) + 2 ^ 64 := by omega
  rw [this, Nat.add_mod_right]
  exact Nat.mod_eq_of_lt (by omega)

theorem u64_add_back (c r : Nat) (hc : c < 2 ^ 64) (hr : r < 2 ^ 64) :
    (r + u64_sub (max c r) r) % 2 ^ 64 = max c r := by
  have hm : max c r < 2 ^ 64 := max_lt hc hr
  rw [u64_sub_exact _ _ hm (le_max_right c r)]
  have : r + (max c r - r) = max c r := by
    have := le_max_right c r
    omega
  rw [this]
  exact Nat.mod_eq_of_lt hm

theorem tgt_note_errno_fields (env : tgt_check_env) (rpt : rebuild_tgt_pool_tracker) :
    (tgt_note_errno env rpt).rt_reported_toberb_objs = rpt.rt_reported_toberb_objs ∧
      (tgt_note_errno env rpt).rt_reported_obj_cnt = rpt.rt_reported_obj_cnt ∧
      (tgt_note_errno env rpt).rt_reported_rec_cnt = rpt.rt_reported_rec_cnt ∧
      (tgt_note_errno env rpt).rt_reported_size = rpt.rt_reported_size ∧
      (tgt_note_errno env rpt).rt_re_report = rpt.rt_re_report ∧
      (tgt_note_errno env rpt).rt_global_done = rpt.rt_global_done := by
  unfold tgt_note_errno
  split_ifs <;> simp

theorem tgt_note_scan_fields (env : tgt_check_env) (rpt : rebuild_tgt_pool_tracker) :
    (tgt_note_scan env rpt).rt_reported_toberb_objs = rpt.rt_reported_toberb_objs ∧
      (tgt_note_scan env rpt).rt_reported_obj_cnt = rpt.rt_reported_obj_cnt ∧
      (tgt_note_scan env rpt).rt_reported_rec_cnt = rpt.rt_reported_rec_cnt ∧
      (tgt_note_scan env rpt).rt_reported_size = rpt.rt_reported_size ∧
      (tgt_note_scan env rpt).rt_re_report = rpt.rt_re_report ∧
      (tgt_note_scan env rpt).rt_global_done = rpt.rt_global_done := by
  unfold tgt_note_scan
  split_ifs <;> simp

theorem tgt_progress_eq (env : tgt_check_env) (a b : rebuild_tgt_pool_tracker)
    (h1 : b.rt_reported_toberb_objs = a.rt_reported_toberb_objs)
    (h2 : b.rt_reported_obj_cnt = a.rt_reported_obj_cnt)
    (h3 : b.rt_reported_rec_cnt = a.rt_reported_rec_cnt)
    (h4 : b.rt_reported_size = a.rt_reported_size)
    (h5 : b.rt_re_report = a.rt_re_report) :
    tgt_progress env b = tgt_progress env a := by
  unfold tgt_progress
  rw [h1, h2, h3, h4, h5]

theorem tgt_progress_delta (env : tgt_check_env) (rpt : rebuild_tgt_pool_tracker)
    (hr : counters_in_range rpt) (hq : query_in_range env) (hre : rpt.rt_re_report = false) :
    (tgt_progress env rpt).riv_toberb_obj_count =
        max env.query_status.tobe_obj_count rpt.rt_reported_toberb_objs -
          rpt.rt_reported_toberb_objs ∧
      (tgt_progress env rpt).riv_obj_count =
        max env.query_status.obj_count rpt.rt_reported_obj_cnt - rpt.rt_reported_obj_cnt ∧
      (tgt_progress env rpt).riv_rec_count =
        max env.query_status.rec_count rpt.rt_reported_rec_cnt - rpt.rt_reported_rec_cnt ∧
      (tgt_progress env rpt).riv_size =
        max env.query_status.size rpt.rt_reported_size - rpt.rt_reported_size := by
  obtain ⟨hr1, hr2, hr3, hr4⟩ := hr
  obtain ⟨hq1, hq2, hq3, hq4⟩ := hq
  unfold tgt_progress
  simp only [hre, tgt_clamp_max]
  exact ⟨u64_sub_exact _ _ (max_lt hq1 hr1) (le_max_right _ _),
    u64_sub_exact _ _ (max_lt hq2 hr2) (le_max_right _ _),
    u64_sub_exact _ _ (max_lt hq3 hr3) (le_max_right _ _),
    u64_sub_exact _ _ (max_lt hq4 hr4) (le_max_right _ _)⟩

theorem tgt_progress_absolute (env : tgt_check_env) (rpt : rebuild_tgt_pool_tracker)
    (hre : rpt.rt_re_report = true) :
    (tgt_progress env rpt).riv_toberb_obj_count =
        max env.query_status.tobe_obj_count rpt.rt_reported_toberb_objs ∧
      (tgt_progress env rpt).riv_obj_count =
        max env.query_status.obj_count rpt.rt_reported_obj_cnt ∧
      (tgt_progress env rpt).riv_rec_count =
        max env.query_status.rec_count rpt.rt_reported_rec_cnt ∧
      (tgt_progress env rpt).riv_size =
        max env.query_status.size rpt.rt_reported_size := by
  unfold tgt_progress
  simp [hre, tgt_clamp_max]

theorem tgt_iv_update_success (env : tgt_check_env) (rpt : rebuild_tgt_pool_tracker)
    (hr : counters_in_range rpt) (hq : query_in_range env)
    (hf : env.fail_check = false) (hu : env.iv_update_rc = 0) :
    (tgt_iv_update env rpt (tgt_progress env rpt)).2.rt_reported_toberb_objs =
        max env.query_status.tobe_obj_count rpt.rt_reported_toberb_objs ∧
      (tgt_iv_update env rpt (tgt_progress env rpt)).2.rt_reported_obj_cnt =
        max env.query_status.obj_count rpt.rt_reported_obj_cnt ∧
      (tgt_iv_update env rpt (tgt_progress env rpt)).2.rt_reported_rec_cnt =
        max env.query_status.rec_count rpt.rt_reported_rec_cnt ∧
      (tgt_iv_update env rpt (tgt_progress env rpt)).2.rt_reported_size =
        max env.query_status.size rpt.rt_reported_size := by
  unfold tgt_iv_update
  simp only [hf, hu, tgt_clamp_max]
  refine ⟨?_, by simp, by simp, by simp⟩
  cases hre : rpt.rt_re_report with
  | true => simpa using (tgt_progress_absolute env rpt hre).1
  | false =>
    have hd := (tgt_progress_delta env rpt hr hq hre).1
    have hle := le_max_right env.query_status.tobe_obj_count rpt.rt_reported_toberb_objs
    have hlt : max env.query_status.tobe_obj_count rpt.rt_reported_toberb_objs < 2 ^ 64 :=
      max_lt hq.1 hr.1
    simp only [Bool.false_eq_true, if_false, if_true]
    rw [hd]
    have : rpt.rt_reported_toberb_objs +
        (max env.query_status.tobe_obj_count rpt.rt_reported_toberb_objs -
          rpt.rt_reported_toberb_objs) =
        max env.query_status.tobe_obj_count rpt.rt_reported_toberb_objs := by omega
    rw [this]
    exact Nat.mod_eq_of_lt hlt

theorem tgt_iv_update_failure (env : tgt_check_env) (rpt : rebuild_tgt_pool_tracker)
    (p : rebuild_iv_progress) (h : ¬ (env.fail_check = false ∧ env.iv_update_rc = 0))
    (hd : env.der_inval ≠ 0) :
    (tgt_iv_update env rpt p).2.rt_reported_toberb_objs = rpt.rt_reported_toberb_objs ∧
      (tgt_iv_update env rpt p).2.rt_reported_obj_cnt = rpt.rt_reported_obj_cnt ∧
      (tgt_iv_update env rpt p).2.rt_reported_rec_cnt = rpt.rt_reported_rec_cnt ∧
      (tgt_iv_update env rpt p).2.rt_reported_size = rpt.rt_reported_size := by
  unfold tgt_iv_update
  have hrc : ¬ ((if env.fail_check = true then -env.der_inval else env.iv_update_rc) = 0) := by
    cases hf : env.fail_check with
    | true => simpa using hd
    | false =>
      simp only [Bool.false_eq_true, if_false]
      intro hu
      exact h ⟨hf, hu⟩
  simp only [hrc, if_false]
  split_ifs <;> simp

theorem tgt_iv_update_rc (env : tgt_check_env) (rpt : rebuild_tgt_pool_tracker)
    (p : rebuild_iv_progress) :
    (tgt_iv_update env rpt p).1 =
      if env.fail_check = true then -env.der_inval else env.iv_update_rc := by
  unfold tgt_iv_update
  dsimp only
  split_ifs <;> rfl

theorem tgt_round_progress (env : tgt_check_env) (rpt : rebuild_tgt_pool_tracker)
    (hm : env.mutex_ok = true) :
    (rebuild_tgt_status_check_round env rpt).progress = tgt_progress env rpt := by
  obtain ⟨e1, e2, e3, e4, e5, _⟩ := tgt_note_errno_fields env rpt
  unfold rebuild_tgt_status_check_round
  rw [if_neg (by simp [hm])]
  dsimp only
  split_ifs <;> exact tgt_progress_eq env rpt _ e1 e2 e3 e4 e5

theorem tgt_round_success (env : tgt_check_env) (rpt : rebuild_tgt_pool_tracker)
    (hr : counters_in_range rpt) (hq : query_in_range env)
    (hm : env.mutex_ok = true) (hg : rpt.rt_global_done = false)
    (hf : env.fail_check = false) (hu : env.iv_update_rc = 0) :
    (rebuild_tgt_status_check_round env rpt).update_rc = some 0 ∧
      (rebuild_tgt_status_check_round env rpt).rpt.rt_reported_toberb_objs =
        max env.query_status.tobe_obj_count rpt.rt_reported_toberb_objs ∧
      (rebuild_tgt_status_check_round env rpt).rpt.rt_reported_obj_cnt =
        max env.query_status.obj_count rpt.rt_reported_obj_cnt ∧
      (rebuild_tgt_status_check_round env rpt).rpt.rt_reported_rec_cnt =
        max env.query_status.rec_count rpt.rt_reported_rec_cnt ∧
      (rebuild_tgt_status_check_round env rpt).rpt.rt_reported_size =
        max env.query_status.size rpt.rt_reported_size := by
  obtain ⟨e1, e2, e3, e4, e5, e6⟩ := tgt_note_errno_fields env rpt
  obtain ⟨s1, s2, s3, s4, s5, s6⟩ := tgt_note_scan_fields env (tgt_note_errno env rpt)
  have hg2 : (tgt_note_scan env (tgt_note_errno env rpt)).rt_global_done = false := by
    rw [s6, e6, hg]
  have hr2 : counters_in_range (tgt_note_scan env (tgt_note_errno env rpt)) := by
    unfold counters_in_range
    rw [s1, s2, s3, s4, e1, e2, e3, e4]
    exact hr
  have hp : tgt_progress env (tgt_note_errno env rpt) =
      tgt_progress env (tgt_note_scan env (tgt_note_errno env rpt)) :=
    (tgt_progress_eq env _ _ s1 s2 s3 s4 s5).symm
  have h := tgt_iv_update_success env _ hr2 hq hf hu
  rw [s1, s2, s3, s4, e1, e2, e3, e4] at h
  unfold rebuild_tgt_status_check_round
  rw [if_neg (by simp [hm])]
  dsimp only
  rw [if_neg (by simp [hg2]), hp]
  refine ⟨?_, h⟩
  rw [tgt_iv_update_rc]
  simp [hf, hu]

theorem tgt_round_failure (env : tgt_check_env) (rpt : rebuild_tgt_pool_tracker)
    (h : ¬ (env.mutex_ok = true ∧ rpt.rt_global_done = false ∧ env.fail_check = false ∧
      env.iv_update_rc = 0)) (hd : env.der_inval ≠ 0) :
    (rebuild_tgt_status_check_round env rpt).update_rc ≠ some 0 ∧
      (rebuild_tgt_status_check_round env rpt).rpt.rt_reported_toberb_objs =
        rpt.rt_reported_toberb_objs ∧
      (rebuild_tgt_status_check_round env rpt).rpt.rt_reported_obj_cnt =
        rpt.rt_reported_obj_cnt ∧
      (rebuild_tgt_status_check_round env rpt).rpt.rt_reported_rec_cnt =
        rpt.rt_reported_rec_cnt ∧
      (rebuild_tgt_status_check_round env rpt).rpt.rt_reported_size =
        rpt.rt_reported_size := by
  obtain ⟨e1, e2, e3, e4, e5, e6⟩ := tgt_note_errno_fields env rpt
  obtain ⟨s1, s2, s3, s4, s5, s6⟩ := tgt_note_scan_fields env (tgt_note_errno env rpt)
  unfold rebuild_tgt_status_check_round
  by_cases hm : env.mutex_ok = true
  · rw [if_neg (by simp [hm])]
    dsimp only
    by_cases hg : rpt.rt_global_done = true
    · rw [if_pos (by rw [s6, e6, hg])]
      dsimp only
      rw [s1, s2, s3, s4, e1, e2, e3, e4]
      simp
    · rw [if_neg (by rw [s6, e6]; exact hg)]
      dsimp only
      have hfu : ¬ (env.fail_check = false ∧ env.iv_update_rc = 0) := by
        intro hfu
        exact h ⟨hm, by simpa using hg, hfu.1, hfu.2⟩
      have hf := tgt_iv_update_failure env (tgt_note_scan env (tgt_note_errno env rpt))
        (tgt_progress env (tgt_note_errno env rpt)) hfu hd
      rw [s1, s2, s3, s4, e1, e2, e3, e4] at hf
      refine ⟨?_, hf⟩
      rw [tgt_iv_update_rc]
      cases hfc : env.fail_check with
      | true => simpa using hd
      | false =>
        have hu : env.iv_update_rc ≠ 0 := fun hu => hfu ⟨hfc, hu⟩
        simpa using hu
  · rw [if_pos (by simpa using hm)]
    simp

theorem tgt_round_mono (env : tgt_check_env) (rpt : rebuild_tgt_pool_tracker)
    (hr : counters_in_range rpt) (hq : query_in_range env) (hd : env.der_inval ≠ 0) :
    reported_le rpt (rebuild_tgt_status_check_round env rpt).rpt ∧
      counters_in_range (rebuild_tgt_status_check_round env rpt).rpt := by
  by_cases h : env.mutex_ok = true ∧ rpt.rt_global_done = false ∧ env.fail_check = false ∧
      env.iv_update_rc = 0
  · obtain ⟨_, h1, h2, h3, h4⟩ := tgt_round_success env rpt hr hq h.1 h.2.1 h.2.2.1 h.2.2.2
    unfold reported_le counters_in_range
    rw [h1, h2, h3, h4]
    exact ⟨⟨le_max_right _ _, le_max_right _ _, le_max_right _ _, le_max_right _ _⟩,
      max_lt hq.1 hr.1, max_lt hq.2.1 hr.2.1, max_lt hq.2.2.1 hr.2.2.1,
      max_lt hq.2.2.2 hr.2.2.2⟩
  · obtain ⟨_, h1, h2, h3, h4⟩ := tgt_round_failure env rpt h hd
    unfold reported_le counters_in_range
    rw [h1, h2, h3, h4]
    exact ⟨⟨le_refl _, le_refl _, le_refl _, le_refl _⟩, hr⟩

theorem reported_le_trans (a b c : rebuild_tgt_pool_tracker) (h1 : reported_le a b)
    (h2 : reported_le b c) : reported_le a c :=
  ⟨Nat.le_trans h1.1 h2.1, Nat.le_trans h1.2.1 h2.2.1, Nat.le_trans h1.2.2.1 h2.2.2.1,
    Nat.le_trans h1.2.2.2 h2.2.2.2⟩

theorem tgt_ult_mono (envs : List tgt_check_env) :
    ∀ rpt : rebuild_tgt_pool_tracker, counters_in_range rpt →
      (∀ e ∈ envs, query_in_range e ∧ e.der_inval ≠ 0) →
      reported_le rpt (rebuild_tgt_status_check_ult rpt envs) := by
  induction envs with
  | nil =>
    intro rpt _ _
    exact ⟨le_refl _, le_refl _, le_refl _, le_refl _⟩
  | cons e es ih =>
    intro rpt hr he
    obtain ⟨hq, hd⟩ := he e (List.mem_cons_self _ _)
    obtain ⟨hle, hr2⟩ := tgt_round_mono e rpt hr hq hd
    unfold rebuild_tgt_status_check_ult
    dsimp only
    split_ifs
    · exact hle
    · exact reported_le_trans _ _ _ hle
        (ih _ hr2 (fun x hx => he x (List.mem_cons_of_mem _ hx)))

/-- C25: in a round of the loop of `rebuild_tgt_status_check_ult` every counter of the
report is the queried counter raised to the acknowledged one (`max`); without
`rt_re_report` the report carries that value minus the acknowledged one, an exact
difference; when the update is sent and returns 0 every acknowledged counter is that
value, in every other case the acknowledged counters stay; so over any number of
rounds no acknowledged counter goes down. -/
theorem c25_counters_never_go_back (env : tgt_check_env) (rpt : rebuild_tgt_pool_tracker)
    (envs : List tgt_check_env)
    (hr : counters_in_range rpt) (hq : query_in_range env) (hm : env.mutex_ok = true)
    (hd : env.der_inval ≠ 0) (hall : ∀ e ∈ envs, query_in_range e ∧ e.der_inval ≠ 0) :
    (rpt.rt_re_report = false →
      (rebuild_tgt_status_check_round env rpt).progress =
        { riv_toberb_obj_count :=
            max env.query_status.tobe_obj_count rpt.rt_reported_toberb_objs -
              rpt.rt_reported_toberb_objs
          riv_obj_count :=
            max env.query_status.obj_count rpt.rt_reported_obj_cnt - rpt.rt_reported_obj_cnt
          riv_rec_count :=
            max env.query_status.rec_count rpt.rt_reported_rec_cnt - rpt.rt_reported_rec_cnt
          riv_size := max env.query_status.size rpt.rt_reported_size - rpt.rt_reported_size }) ∧
    (rpt.rt_re_report = true →
      (rebuild_tgt_status_check_round env rpt).progress =
        { riv_toberb_obj_count :=
            max env.query_status.tobe_obj_count rpt.rt_reported_toberb_objs
          riv_obj_count := max env.query_status.obj_count rpt.rt_reported_obj_cnt
          riv_rec_count := max env.query_status.rec_count rpt.rt_reported_rec_cnt
          riv_size := max env.query_status.size rpt.rt_reported_size }) ∧
    ((rpt.rt_global_done = false ∧ env.fail_check = false ∧ env.iv_update_rc = 0) →
      (rebuild_tgt_status_check_round env rpt).update_rc = some 0 ∧
      (rebuild_tgt_status_check_round env rpt).rpt.rt_reported_toberb_objs =
        max env.query_status.tobe_obj_count rpt.rt_reported_toberb_objs ∧
      (rebuild_tgt_status_check_round env rpt).rpt.rt_reported_obj_cnt =
        max env.query_status.obj_count rpt.rt_reported_obj_cnt ∧
      (rebuild_tgt_status_check_round env rpt).rpt.rt_reported_rec_cnt =
        max env.query_status.rec_count rpt.rt_reported_rec_cnt ∧
      (rebuild_tgt_status_check_round env rpt).rpt.rt_reported_size =
        max env.query_status.size rpt.rt_reported_size) ∧
    (¬ (rpt.rt_global_done = false ∧ env.fail_check = false ∧ env.iv_update_rc = 0) →
      (rebuild_tgt_status_check_round env rpt).update_rc ≠ some 0 ∧
      (rebuild_tgt_status_check_round env rpt).rpt.rt_reported_toberb_objs =
        rpt.rt_reported_toberb_objs ∧
      (rebuild_tgt_status_check_round env rpt).rpt.rt_reported_obj_cnt =
        rpt.rt_reported_obj_cnt ∧
      (rebuild_tgt_status_check_round env rpt).rpt.rt_reported_rec_cnt =
        rpt.rt_reported_rec_cnt ∧
      (rebuild_tgt_status_check_round env rpt).rpt.rt_reported_size =
        rpt.rt_reported_size) ∧
    reported_le rpt (rebuild_tgt_status_check_round env rpt).rpt ∧
    reported_le rpt (rebuild_tgt_status_check_ult rpt envs) := by
  refine ⟨?_, ?_, ?_, ?_, (tgt_round_mono env rpt hr hq hd).1, tgt_ult_mono envs rpt hr hall⟩
  · intro hre
    obtain ⟨h1, h2, h3, h4⟩ := tgt_progress_delta env rpt hr hq hre
    rw [tgt_round_progress env rpt hm, ← h1, ← h2, ← h3, ← h4]
  · intro hre
    obtain ⟨h1, h2, h3, h4⟩ := tgt_progress_absolute env rpt hre
    rw [tgt_round_progress env rpt hm, ← h1, ← h2, ← h3, ← h4]
  · intro h
    exact tgt_round_success env rpt hr hq hm h.1 h.2.1 h.2.2
  · intro h
    exact tgt_round_failure env rpt (fun h2 => h h2.2) hd

/-- Witness for C25: 7 objects are queried against 10 acknowledged, so the report
carries 0 objects, 4 objects to rebuild, 5 records and 0 bytes, and after the update
the acknowledged counters are 9, 10, 25 and 30. -/
theorem c25_counters_never_go_back_witness :
    (rebuild_tgt_status_check_round tgt_env_ok rpt_acked).progress =
        { riv_toberb_obj_count := 4, riv_obj_count := 0, riv_rec_count := 5, riv_size := 0 } ∧
      (rebuild_tgt_status_check_round tgt_env_ok rpt_acked).rpt.rt_reported_toberb_objs = 9 ∧
      (rebuild_tgt_status_check_round tgt_env_ok rpt_acked).rpt.rt_reported_obj_cnt = 10 ∧
      (rebuild_tgt_status_check_round tgt_env_ok rpt_acked).rpt.rt_reported_rec_cnt = 25 ∧
      (rebuild_tgt_status_check_round tgt_env_ok rpt_acked).rpt.rt_reported_size = 30 ∧
      reported_le rpt_acked (rebuild_tgt_status_check_ult rpt_acked [tgt_env_ok, tgt_env_ok]) :=
  have h := c25_counters_never_go_back tgt_env_ok rpt_acked [tgt_env_ok, tgt_env_ok]
    (by norm_num [counters_in_range, rpt_acked])
    (by norm_num [query_in_range, tgt_env_ok]) rfl (by decide)
    (by
      intro e he
      have he2 : e = tgt_env_ok := by simpa using he
      subst he2
      exact ⟨by norm_num [query_in_range, tgt_env_ok], by decide⟩)
  ⟨(h.1 rfl).trans (by decide), (h.2.2.1 ⟨rfl, rfl, rfl⟩).2.1.trans (by decide),
    (h.2.2.1 ⟨rfl, rfl, rfl⟩).2.2.1.trans (by decide),
    (h.2.2.1 ⟨rfl, rfl, rfl⟩).2.2.2.1.trans (by decide),
    (h.2.2.1 ⟨rfl, rfl, rfl⟩).2.2.2.2.trans (by decide), h.2.2.2.2.2⟩

/-! ## Claims on the ordered insertion -/

theorem queue_insert_split (n : rebuild_task) (q : List rebuild_task) :
    ∃ pre post, q = pre ++ post ∧ queue_insert n q = pre ++ n :: post ∧
      (∀ x ∈ pre, x.dst_pool_uuid = n.dst_pool_uuid → x.dst_map_ver < n.dst_map_ver) ∧
      (post = [] ∨ ∃ t rest, post = t :: rest ∧ t.dst_pool_uuid = n.dst_pool_uuid ∧
        n.dst_map_ver ≤ t.dst_map_ver) := by
  induction q with
  | nil => exact ⟨[], [], rfl, rfl, by simp, Or.inl rfl⟩
  | cons a q ih =>
    obtain ⟨pre, post, hq, hins, hpre, hpost⟩ := ih
    by_cases hp : a.dst_pool_uuid = n.dst_pool_uuid
    · by_cases hv : n.dst_map_ver > a.dst_map_ver
      · refine ⟨a :: pre, post, by simp [hq], ?_, ?_, hpost⟩
        · simp [queue_insert, hp, hv, hins]
        · intro x hx hxp
          rcases List.mem_cons.mp hx with rfl | hx
          · exact hv
          · exact hpre x hx hxp
      · refine ⟨[], a :: q, rfl, ?_, by simp, Or.inr ⟨a, q, rfl, hp, Nat.le_of_not_lt hv⟩⟩
        simp [queue_insert, hp, hv]
    · refine ⟨a :: pre, post, by simp [hq], ?_, ?_, hpost⟩
      · simp [queue_insert, hp, hins]
      · intro x hx hxp
        rcases List.mem_cons.mp hx with rfl | hx
        · exact absurd hxp hp
        · exact hpre x hx hxp

theorem pool_vers_append (p : Nat) (a b : List rebuild_task) :
    pool_vers p (a ++ b) = pool_vers p a ++ pool_vers p b := by
  simp [pool_vers]

theorem mem_pool_vers (p v : Nat) (q : List rebuild_task) (h : v ∈ pool_vers p q) :
    ∃ x ∈ q, x.dst_pool_uuid = p ∧ x.dst_map_ver = v := by
  simp only [pool_vers, List.mem_map, List.mem_filter] at h
  obtain ⟨x, ⟨hx, hp⟩, hv⟩ := h
  exact ⟨x, hx, by simpa using hp, hv⟩

theorem queue_sorted_insert (n : rebuild_task) (pre post : List rebuild_task)
    (hpre : ∀ x ∈ pre, x.dst_pool_uuid = n.dst_pool_uuid → x.dst_map_ver < n.dst_map_ver)
    (hpost : post = [] ∨ ∃ t rest, post = t :: rest ∧ t.dst_pool_uuid = n.dst_pool_uuid ∧
        n.dst_map_ver ≤ t.dst_map_ver)
    (hs : queue_sorted (pre ++ post)) : queue_sorted (pre ++ n :: post) := by
  intro p
  have h := hs p
  rw [pool_vers_append] at h
  obtain ⟨h1, h2, h3⟩ := List.pairwise_append.mp h
  by_cases hp : n.dst_pool_uuid = p
  · have hcons : pool_vers p (n :: post) = n.dst_map_ver :: pool_vers p post := by
      simp [pool_vers, hp]
    rw [pool_vers_append, hcons]
    refine List.pairwise_append.mpr ⟨h1, List.pairwise_cons.mpr ⟨?_, h2⟩, ?_⟩
    · intro b hb
      rcases hpost with rfl | ⟨t, rest, rfl, htp, htv⟩
      · simp [pool_vers] at hb
      · have hc : pool_vers p (t :: rest) = t.dst_map_ver :: pool_vers p rest := by
          simp [pool_vers, htp, hp]
        rw [hc] at hb h2
        rcases List.mem_cons.mp hb with rfl | hb
        · exact htv
        · exact Nat.le_trans htv ((List.pairwise_cons.mp h2).1 b hb)
    · intro a ha b hb
      rcases List.mem_cons.mp hb with rfl | hb
      · obtain ⟨x, hx, hxp, hxv⟩ := mem_pool_vers p a pre ha
        rw [← hxv]
        exact Nat.le_of_lt (hpre x hx (hxp.trans hp.symm))
      · exact h3 a ha b hb
  · have hcons : pool_vers p (n :: post) = pool_vers p post := by
      simp [pool_vers, hp]
    rw [pool_vers_append, hcons]
    exact List.pairwise_append.mpr ⟨h1, h2, h3⟩

/-- C26: when the pool is not stopping, the request is not merged, the task is
allocated and `ds_rebuild_schedule` returns 0, the new queue is the old one with the
new task put right before the first task of the same pool whose `dst_map_ver` is not
below the new one (at the tail when there is none); the old tasks keep their order
and a queue sorted per pool stays sorted per pool. -/
theorem c26_ordered_insertion (env : sched_env) (gst : rebuild_global) (pool : ds_pool)
    (map_ver : Nat) (tgts : pool_target_id_list) (op : daos_rebuild_opc_t) (delay_sec : Nat)
    (hstop : pool.sp_stopping = false)
    (hmerge :
      (rebuild_try_merge_tgts env pool.sp_uuid map_ver op tgts gst.rg_queue_list).1 = 0)
    (halloc : env.alloc_ok = true)
    (hrc : (ds_rebuild_schedule env gst pool map_ver tgts op delay_sec).1 = 0) :
    ∃ pre post new_task, gst.rg_queue_list = pre ++ post ∧
      (ds_rebuild_schedule env gst pool map_ver tgts op delay_sec).2.rg_queue_list =
        pre ++ new_task :: post ∧
      new_task.dst_pool_uuid = pool.sp_uuid ∧ new_task.dst_map_ver = map_ver ∧
      new_task.dst_rebuild_op = op ∧
      (∀ x ∈ pre, x.dst_pool_uuid = pool.sp_uuid → x.dst_map_ver < map_ver) ∧
      (post = [] ∨ ∃ t rest, post = t :: rest ∧ t.dst_pool_uuid = pool.sp_uuid ∧
        map_ver ≤ t.dst_map_ver) ∧
      (queue_sorted gst.rg_queue_list →
        queue_sorted
          (ds_rebuild_schedule env gst pool map_ver tgts op delay_sec).2.rg_queue_list) := by
  obtain ⟨pre, post, hq, hins, hpre, hpost⟩ :=
    queue_insert_split
      { dst_pool_uuid := pool.sp_uuid, dst_map_ver := map_ver, dst_rebuild_op := op,
        dst_tgts := pool_target_id_list_merge ∅ tgts,
        dst_schedule_time := (env.cur_ts + delay_sec) % 2 ^ 64 } gst.rg_queue_list
  have hres : (ds_rebuild_schedule env gst pool map_ver tgts op delay_sec).2.rg_queue_list =
      pre ++ { dst_pool_uuid := pool.sp_uuid, dst_map_ver := map_ver, dst_rebuild_op := op,
               dst_tgts := pool_target_id_list_merge ∅ tgts,
               dst_schedule_time := (env.cur_ts + delay_sec) % 2 ^ 64 } :: post := by
    rw [← hins]
    unfold ds_rebuild_schedule at hrc ⊢
    simp only [hstop, hmerge, halloc] at hrc ⊢
    by_cases hmr : env.merge_rc = 0
    · by_cases hrun : gst.rg_rebuild_running = true
      · simp [hmr, hrun]
      · by_cases hcf : env.cond_fail = true
        · by_cases hcd : env.cond_der = 0
          · simp [hmr, hrun, hcf, hcd]
          · simp [hmr, hrun, hcf, hcd] at hrc
        · by_cases hu : env.ult_rc = 0
          · simp [hmr, hrun, hcf, hu]
          · simp [hmr, hrun, hcf, hu] at hrc
    · simp [hmr] at hrc
  refine ⟨pre, post, _, hq, hres, rfl, rfl, rfl, hpre, hpost, ?_⟩
  intro hs
  rw [hres]
  rw [hq] at hs
  exact queue_sorted_insert _ pre post hpre hpost hs

/-- Witness for C26: REINT of version 7 is scheduled for pool 1 while pool 1 has tasks
of versions 5 and 10 of another op queued, with a task of pool 2 between them. -/
theorem c26_ordered_insertion_witness :
    (ds_rebuild_schedule env_ok
        { rebuild_gst_init with
          rg_queue_list := [mk_task 1 5 RB_OP_FAIL {1}, mk_task 2 6 RB_OP_FAIL {2},
            mk_task 1 10 RB_OP_FAIL {3}] } pool1 7 {4} RB_OP_REINT 0).1 = 0 ∧
    ∃ pre post new_task,
      ({ rebuild_gst_init with
          rg_queue_list := [mk_task 1 5 RB_OP_FAIL {1}, mk_task 2 6 RB_OP_FAIL {2},
            mk_task 1 10 RB_OP_FAIL {3}] } : rebuild_global).rg_queue_list = pre ++ post ∧
      (ds_rebuild_schedule env_ok
        { rebuild_gst_init with
          rg_queue_list := [mk_task 1 5 RB_OP_FAIL {1}, mk_task 2 6 RB_OP_FAIL {2},
            mk_task 1 10 RB_OP_FAIL {3}] } pool1 7 {4} RB_OP_REINT 0).2.rg_queue_list =
        pre ++ new_task :: post ∧
      new_task.dst_pool_uuid = pool1.sp_uuid ∧ new_task.dst_map_ver = 7 :=
  ⟨by decide,
   (c26_ordered_insertion env_ok
      { rebuild_gst_init with
        rg_queue_list := [mk_task 1 5 RB_OP_FAIL {1}, mk_task 2 6 RB_OP_FAIL {2},
          mk_task 1 10 RB_OP_FAIL {3}] } pool1 7 {4} RB_OP_REINT 0
      (by decide) (by decide) (by decide) (by decide)).imp
    (fun _ h => h.imp (fun _ h => h.imp (fun _ h => ⟨h.1, h.2.1, h.2.2.1, h.2.2.2.1⟩)))⟩

/-! ## Frame of `rebuild_global_status_update` -/

theorem entry_frame_refl (r : Nat) (s : rebuild_server_status) : entry_frame r s s :=
  ⟨rfl, id, id, fun _ => rfl⟩

theorem entry_frame_trans (r : Nat) (a b c : rebuild_server_status)
    (h1 : entry_frame r a b) (h2 : entry_frame r b c) : entry_frame r a c := by
  obtain ⟨a1, a2, a3, a4⟩ := h1
  obtain ⟨b1, b2, b3, b4⟩ := h2
  refine ⟨b1.trans a1, fun h => b2 (a2 h), fun h => b3 (a3 h), ?_⟩
  intro hne
  have hb : b = a := a4 hne
  have hc : c = b := b4 (by rw [a1]; exact hne)
  rw [hc, hb]

theorem entry_frame_apply_flags (r f : Nat) (s : rebuild_server_status) (hs : s.rank = r) :
    entry_frame r s (apply_flags f s) := by
  refine ⟨rfl, ?_, ?_, fun hne => absurd hs hne⟩
  · intro h
    simp [apply_flags, h]
  · intro h
    simp [apply_flags, h]

theorem frame_list_refl (r : Nat) (l : List rebuild_server_status) :
    List.Forall₂ (entry_frame r) l l := by
  induction l with
  | nil => exact List.Forall₂.nil
  | cons a l ih => exact List.Forall₂.cons (entry_frame_refl r a) ih

theorem frame_list_trans (r : Nat) (a : List rebuild_server_status) :
    ∀ b c : List rebuild_server_status, List.Forall₂ (entry_frame r) a b →
      List.Forall₂ (entry_frame r) b c → List.Forall₂ (entry_frame r) a c := by
  induction a with
  | nil =>
    intro b c h1 h2
    cases h1
    cases h2
    exact List.Forall₂.nil
  | cons x a ih =>
    intro b c h1 h2
    cases h1 with
    | cons hxy hab =>
      cases h2 with
      | cons hyz hbc =>
        exact List.Forall₂.cons (entry_frame_trans r _ _ _ hxy hyz) (ih _ _ hab hbc)

theorem frame_list_replace (r f : Nat) (pre : List rebuild_server_status)
    (s : rebuild_server_status) (post : List rebuild_server_status) (hs : s.rank = r) :
    List.Forall₂ (entry_frame r) (pre ++ s :: post) (pre ++ apply_flags f s :: post) := by
  induction pre with
  | nil => exact List.Forall₂.cons (entry_frame_apply_flags r f s hs) (frame_list_refl r post)
  | cons a pre ih => exact List.Forall₂.cons (entry_frame_refl r a) ih

theorem leader_set_status_frame (rgt rgt1 : rebuild_global_pool_tracker) (r f : Nat)
    (h : rebuild_leader_set_status rgt r f = some rgt1) :
    rgt1 = { rgt with rgt_servers := rgt1.rgt_servers } ∧
      List.Forall₂ (entry_frame r) rgt.rgt_servers rgt1.rgt_servers := by
  obtain ⟨pre, s, post, hl, _, hs, h1⟩ := leader_set_status_some rgt rgt1 r f h
  subst h1
  refine ⟨rfl, ?_⟩
  rw [hl]
  exact frame_list_replace r f pre s post hs

theorem status_update_pull_frame (rgt rgt1 : rebuild_global_pool_tracker) (iv : rebuild_iv)
    (rc : Int) (h : status_update_pull rgt iv = some (rc, rgt1)) :
    rgt1 = { rgt with rgt_servers := rgt1.rgt_servers } ∧
      List.Forall₂ (entry_frame iv.riv_rank) rgt.rgt_servers rgt1.rgt_servers := by
  unfold status_update_pull at h
  split at h
  · cases hs : rebuild_leader_set_status rgt iv.riv_rank PULL_DONE with
    | none => simp [hs] at h
    | some r1 =>
      simp only [hs, Option.map_some', Option.some.injEq, Prod.mk.injEq] at h
      rw [← h.2]
      exact leader_set_status_frame rgt r1 iv.riv_rank PULL_DONE hs
  · simp only [Option.some.injEq, Prod.mk.injEq] at h
    rw [← h.2]
    exact ⟨rfl, frame_list_refl _ _⟩

theorem status_update_frame (rgt rgt1 : rebuild_global_pool_tracker) (iv : rebuild_iv)
    (rc : Int) (h : rebuild_global_status_update rgt iv = some (rc, rgt1)) :
    rgt1 = { rgt with rgt_servers := rgt1.rgt_servers } ∧
      List.Forall₂ (entry_frame iv.riv_rank) rgt.rgt_servers rgt1.rgt_servers := by
  unfold rebuild_global_status_update at h
  split at h
  · simp only [Option.some.injEq, Prod.mk.injEq] at h
    rw [← h.2]
    exact ⟨rfl, frame_list_refl _ _⟩
  · split at h
    · exact absurd h (by simp)
    · exact status_update_pull_frame rgt rgt1 iv rc h
    · split at h
      · exact absurd h (by simp)
      · rename_i r1 hs
        obtain ⟨e1, f1⟩ := leader_set_status_frame rgt r1 iv.riv_rank SCAN_DONE hs
        split at h
        · simp only [Option.some.injEq, Prod.mk.injEq] at h
          rw [← h.2]
          exact ⟨e1, f1⟩
        · obtain ⟨e2, f2⟩ := status_update_pull_frame r1 rgt1 iv rc h
          refine ⟨?_, frame_list_trans _ _ _ _ f1 f2⟩
          rw [e2, e1]

/-- C28: a report with `riv_scan_done` clear makes `rebuild_global_status_update` return
0 with the tracker as it was; for every report of a rank the tracker has an entry for
the function returns, and whenever it returns only `rgt_servers` may differ, entry by
entry within the frame of the reporting rank: the rank is the same, a set `scan_done`
or `pull_done` stays set, and an entry of another rank is unchanged. -/
theorem c28_status_update_frame (rgt : rebuild_global_pool_tracker) (iv : rebuild_iv) :
    (iv.riv_scan_done = false → rebuild_global_status_update rgt iv = some (0, rgt)) ∧
    ((∃ s ∈ rgt.rgt_servers, s.rank = iv.riv_rank) →
      ∃ res, rebuild_global_status_update rgt iv = some res) ∧
    (∀ rc rgt1, rebuild_global_status_update rgt iv = some (rc, rgt1) →
      rgt1 = { rgt with rgt_servers := rgt1.rgt_servers } ∧
      List.Forall₂
        (fun s s1 : rebuild_server_status =>
          s1.rank = s.rank ∧ (s.scan_done = true → s1.scan_done = true) ∧
            (s.pull_done = true → s1.pull_done = true) ∧ (s.rank ≠ iv.riv_rank → s1 = s))
        rgt.rgt_servers rgt1.rgt_servers) := by
  refine ⟨?_, ?_, ?_⟩
  · intro h
    simp [rebuild_global_status_update, h]
  · rintro ⟨s, hs, hr⟩
    cases hsd : iv.riv_scan_done with
    | false => exact ⟨(0, rgt), by simp [rebuild_global_status_update, hsd]⟩
    | true =>
      rcases servers_split iv.riv_rank rgt.rgt_servers with hno | ⟨pre, s0, post, hl, hpre, hs0⟩
      · exact absurd hr (hno s hs)
      · obtain ⟨s1, h1, _⟩ := update_cases rgt iv hsd pre s0 post hl hpre hs0
        exact ⟨_, h1⟩
  · intro rc rgt1 h
    exact status_update_frame rgt rgt1 iv rc h

/-- Witness for C28: rank 1 reports scan and pull done with an error while rank 0 has
not scanned; only the entry of rank 1 changes. -/
theorem c28_status_update_frame_witness :
    rebuild_global_status_update
        { rgt_servers := [⟨0, false, false⟩, ⟨1, false, false⟩, ⟨2, true, true⟩] }
        ⟨1, true, true, -1⟩ =
      some (0, { rgt_servers := [⟨0, false, false⟩, ⟨1, true, true⟩, ⟨2, true, true⟩] }) ∧
    List.Forall₂
      (fun s s1 : rebuild_server_status =>
        s1.rank = s.rank ∧ (s.scan_done = true → s1.scan_done = true) ∧
          (s.pull_done = true → s1.pull_done = true) ∧ (s.rank ≠ 1 → s1 = s))
      [⟨0, false, false⟩, ⟨1, false, false⟩, ⟨2, true, true⟩]
      [⟨0, false, false⟩, ⟨1, true, true⟩, ⟨2, true, true⟩] :=
  ⟨by decide,
   ((c28_status_update_frame
      { rgt_servers := [⟨0, false, false⟩, ⟨1, false, false⟩, ⟨2, true, true⟩] }
      ⟨1, true, true, -1⟩).2.2 0
      { rgt_servers := [⟨0, false, false⟩, ⟨1, true, true⟩, ⟨2, true, true⟩] }
      (by decide)).2⟩

end Rebuild

/-! # Membership engine: theorems -/

namespace Swim

open swim_member_status

/-- C15 (counterexample): with default ping timeout 900, suspect timeout 1500 (a third
is 500), current ping timeout 900 and one member with delay 2000, the doubled average
4000 is clamped to 500 and `crt_swim_accommodate` sets the ping timeout to 500, below
the default ping timeout. -/
theorem c15_timeout_below_default :
    accommodate_set_value
        { engine0 with
          csm_head := [mk_cst 0 77 0 SWIM_MEMBER_ALIVE, mk_cst 1 0 2000 SWIM_MEMBER_ALIVE]
          swim_suspect_timeout := 1500 } = some 500 ∧
    (crt_swim_accommodate
        { engine0 with
          csm_head := [mk_cst 0 77 0 SWIM_MEMBER_ALIVE, mk_cst 1 0 2000 SWIM_MEMBER_ALIVE]
          swim_suspect_timeout := 1500 }).swim_ping_timeout = 500 ∧
    ¬ (({ engine0 with swim_suspect_timeout := 1500 } : crt_grp_priv).sc_default_ping_timeout
        ≤ 500) := by
  decide

/-- C15 (amended): when the default ping timeout is at most a third of the suspect
timeout, every value `crt_swim_accommodate` sets as ping timeout lies within
`[default_ping_timeout, suspect_timeout / 3]`, for all member delays. -/
theorem c15_timeout_within_bounds (g : crt_grp_priv) (v : Nat)
    (hrange : g.sc_default_ping_timeout ≤ g.swim_suspect_timeout / 3)
    (hset : accommodate_set_value g = some v) :
    g.sc_default_ping_timeout ≤ v ∧ v ≤ g.swim_suspect_timeout / 3 ∧
      (crt_swim_accommodate g).swim_ping_timeout = v := by
  have hacc : (crt_swim_accommodate g).swim_ping_timeout = v := by
    simp [crt_swim_accommodate, hset]
  have hclamp : ∀ a : Nat,
      g.sc_default_ping_timeout ≤
          accommodate_clamp a g.sc_default_ping_timeout (g.swim_suspect_timeout / 3) ∧
        accommodate_clamp a g.sc_default_ping_timeout (g.swim_suspect_timeout / 3) ≤
          g.swim_suspect_timeout / 3 := by
    intro a
    unfold accommodate_clamp
    split
    · exact ⟨Nat.le_refl _, hrange⟩
    · split
      · exact ⟨hrange, Nat.le_refl _⟩
      · constructor <;> omega
  unfold accommodate_set_value at hset
  split at hset
  · exact absurd hset (by simp)
  · dsimp only at hset
    split at hset
    · split at hset
      · simp only [Option.some.injEq] at hset
        subst hset
        exact ⟨(hclamp _).1, (hclamp _).2, hacc⟩
      · exact absurd hset (by simp)
    · exact absurd hset (by simp)

/-- Witness for C15 (amended): default 900, suspect timeout 8000, one member with
delay 2000: the ping timeout is set to 2666. -/
theorem c15_timeout_within_bounds_witness :
    ({ engine0 with
        csm_head := [mk_cst 0 77 0 SWIM_MEMBER_ALIVE, mk_cst 1 0 2000 SWIM_MEMBER_ALIVE] } :
      crt_grp_priv).sc_default_ping_timeout ≤ 8000 / 3 ∧
    accommodate_set_value
        { engine0 with
          csm_head := [mk_cst 0 77 0 SWIM_MEMBER_ALIVE, mk_cst 1 0 2000 SWIM_MEMBER_ALIVE] } =
      some 2666 ∧
    (900 ≤ 2666 ∧ 2666 ≤ 8000 / 3 ∧
      (crt_swim_accommodate
        { engine0 with
          csm_head := [mk_cst 0 77 0 SWIM_MEMBER_ALIVE,
                       mk_cst 1 0 2000 SWIM_MEMBER_ALIVE] }).swim_ping_timeout = 2666) :=
  ⟨by decide, by decide,
   c15_timeout_within_bounds
     { engine0 with
       csm_head := [mk_cst 0 77 0 SWIM_MEMBER_ALIVE, mk_cst 1 0 2000 SWIM_MEMBER_ALIVE] }
     2666 (by decide) (by decide)⟩

/-- C18 (the code departs from the claim): on an initialised engine with self rank 0,
after `rank_add(0)`, `rank_add(1)`, `rank_del(0)` the list holds only rank 1;
`crt_swim_rank_add(0)` then returns 0 and the list still holds only rank 1: there is no
record for rank 0. -/
theorem c18_self_not_added_again :
    ((crt_swim_rank_add true true 0 engine0 0).bind (fun r1 =>
      (crt_swim_rank_add true true 0 r1.2 1).bind (fun r2 =>
        (crt_swim_rank_del r2.2 0).map (fun r3 => (r1.1, r2.1, r3.1, r3.2.csm_head))))) =
      some (0, 0, 0, [mk_cst 1 0 0 SWIM_MEMBER_INACTIVE]) ∧
    ((crt_swim_rank_add true true 0 engine0 0).bind (fun r1 =>
      (crt_swim_rank_add true true 0 r1.2 1).bind (fun r2 =>
        (crt_swim_rank_del r2.2 0).bind (fun r3 =>
          (crt_swim_rank_add true true 0 r3.2 0).map (fun r4 =>
            (r4.1, r4.2.csm_head, cst_index 0 r4.2.csm_head)))))) =
      some (0, [mk_cst 1 0 0 SWIM_MEMBER_INACTIVE], none) := by
  decide

/-- C20: on an initialised engine `crt_swim_suspend_all` changes nothing but the
status of the records whose id differs from the self id, which becomes INACTIVE;
records with the self id, all ids, incarnations and delays, the order and the cursor
stay as they are, and no event callback is invoked. -/
theorem c20_suspend_all (g : crt_grp_priv) (hinit : g.cg_swim_inited = true) :
    (crt_swim_suspend_all g).1 =
      { g with csm_head := (crt_swim_suspend_all g).1.csm_head } ∧
    (crt_swim_suspend_all g).1.csm_target = g.csm_target ∧
    (crt_swim_suspend_all g).1.csm_head.length = g.csm_head.length ∧
    (∀ (i : Nat) (cst : crt_swim_target), g.csm_head[i]? = some cst →
      ∃ cst' : crt_swim_target, (crt_swim_suspend_all g).1.csm_head[i]? = some cst' ∧
        cst'.cst_id = cst.cst_id ∧
        cst'.cst_state.sms_incarnation = cst.cst_state.sms_incarnation ∧
        cst'.cst_state.sms_delay = cst.cst_state.sms_delay ∧
        (cst.cst_id ≠ g.sc_self → cst'.cst_state.sms_status = SWIM_MEMBER_INACTIVE) ∧
        (cst.cst_id = g.sc_self → cst' = cst)) ∧
    (crt_swim_suspend_all g).2 = [] := by
  unfold crt_swim_suspend_all
  rw [if_neg (by simp [hinit])]
  refine ⟨rfl, rfl, by simp, ?_, rfl⟩
  intro i cst hcst
  simp only [List.getElem?_map, hcst, Option.map_some']
  by_cases hs : cst.cst_id = g.sc_self
  · exact ⟨cst, by simp [hs], rfl, rfl, rfl, fun h => absurd hs h, fun _ => rfl⟩
  · exact ⟨{ cst with
              cst_state := { cst.cst_state with sms_status := SWIM_MEMBER_INACTIVE } },
      by simp [hs], rfl, rfl, rfl, fun _ => rfl, fun h => absurd h hs⟩

/-- Witness for C20: self is rank 0 (ALIVE); ranks 1 (SUSPECT) and 2 (DEAD) become
INACTIVE. -/
theorem c20_suspend_all_witness :
    ({ engine0 with
        sc_self := 0, csm_target := some 1
        csm_head := [mk_cst 0 77 0 SWIM_MEMBER_ALIVE, mk_cst 1 5 30 SWIM_MEMBER_SUSPECT,
                     mk_cst 2 6 40 SWIM_MEMBER_DEAD] } : crt_grp_priv).cg_swim_inited = true ∧
    crt_swim_suspend_all
        { engine0 with
          sc_self := 0, csm_target := some 1
          csm_head := [mk_cst 0 77 0 SWIM_MEMBER_ALIVE, mk_cst 1 5 30 SWIM_MEMBER_SUSPECT,
                       mk_cst 2 6 40 SWIM_MEMBER_DEAD] } =
      ({ engine0 with
          sc_self := 0, csm_target := some 1
          csm_head := [mk_cst 0 77 0 SWIM_MEMBER_ALIVE, mk_cst 1 5 30 SWIM_MEMBER_INACTIVE,
                       mk_cst 2 6 40 SWIM_MEMBER_INACTIVE] }, []) ∧
    (crt_swim_suspend_all
        { engine0 with
          sc_self := 0, csm_target := some 1
          csm_head := [mk_cst 0 77 0 SWIM_MEMBER_ALIVE, mk_cst 1 5 30 SWIM_MEMBER_SUSPECT,
                       mk_cst 2 6 40 SWIM_MEMBER_DEAD] }).2 = [] :=
  ⟨rfl, by decide,
   (c20_suspend_all
      { engine0 with
        sc_self := 0, csm_target := some 1
        csm_head := [mk_cst 0 77 0 SWIM_MEMBER_ALIVE, mk_cst 1 5 30 SWIM_MEMBER_SUSPECT,
                     mk_cst 2 6 40 SWIM_MEMBER_DEAD] } rfl).2.2.2.2⟩

/-! ## Delay tracking -/

/-- The delay `crt_swim_update_delays` stores for a record with delay `l` when it
observes delay `d`, without 32-bit wrap-around. -/
theorem update_one_split (from_id rcv_delay : Nat) (u : swim_member_update)
    (pre : List crt_swim_target) (m : crt_swim_target) (post : List crt_swim_target)
    (hpre : ∀ x ∈ pre, x.cst_id ≠ u.smu_id) (hm : m.cst_id = u.smu_id) :
    (update_delays_one from_id rcv_delay u (pre ++ m :: post)).2 =
      pre ++ { m with cst_state := { m.cst_state with
                sms_delay :=
                  if m.cst_state.sms_delay ≠ 0 then
                    (m.cst_state.sms_delay +
                      (if u.smu_id = from_id then rcv_delay else u.smu_state.sms_delay))
                      % 2 ^ 32 / 2
                  else (if u.smu_id = from_id then rcv_delay else u.smu_state.sms_delay) } }
        :: post := by
  induction pre with
  | nil =>
    by_cases hf : u.smu_id = from_id <;> simp [update_delays_one, hm, hf]
  | cons a pre ih =>
    have ha : a.cst_id ≠ u.smu_id := hpre a (List.mem_cons_self _ _)
    have hq : ∀ x ∈ pre, x.cst_id ≠ u.smu_id :=
      fun x hx => hpre x (List.mem_cons_of_mem _ hx)
    simp [update_delays_one, ha, ih hq]

theorem update_one_keys (from_id rcv_delay : Nat) (u : swim_member_update)
    (l : List crt_swim_target) :
    (update_delays_one from_id rcv_delay u l).2.map
        (fun c => (c.cst_id, c.cst_state.sms_incarnation, c.cst_state.sms_status)) =
      l.map (fun c => (c.cst_id, c.cst_state.sms_incarnation, c.cst_state.sms_status)) := by
  induction l with
  | nil => rfl
  | cons a l ih =>
    unfold update_delays_one
    by_cases ha : a.cst_id = u.smu_id
    · by_cases hf : u.smu_id = from_id <;> simp [ha, hf]
    · simp [ha, ih]

theorem update_one_other (from_id rcv_delay : Nat) (u : swim_member_update)
    (l : List crt_swim_target) :
    ∀ (i : Nat) (m : crt_swim_target), l[i]? = some m → u.smu_id ≠ m.cst_id →
      (update_delays_one from_id rcv_delay u l).2[i]? = some m := by
  induction l with
  | nil => intro i m h; simp at h
  | cons a l ih =>
    intro i m h hne
    unfold update_delays_one
    by_cases ha : a.cst_id = u.smu_id
    · cases i with
      | zero =>
        simp only [List.getElem?_cons_zero, Option.some.injEq] at h
        subst h
        exact absurd ha.symm hne
      | succ j =>
        by_cases hf : u.smu_id = from_id <;> simpa [ha, hf] using h
    · cases i with
      | zero => simpa [ha] using h
      | succ j =>
        simp only [List.getElem?_cons_succ] at h
        simpa [ha] using ih j m h hne

theorem update_one_not_sender (from_id rcv_delay : Nat) (u : swim_member_update)
    (hne : u.smu_id ≠ from_id) (l : List crt_swim_target) :
    (update_delays_one from_id rcv_delay u l).1 = none ∧
      (update_delays_one from_id rcv_delay u l).2.find? (fun c => c.cst_id = from_id) =
        l.find? (fun c => c.cst_id = from_id) := by
  induction l with
  | nil => exact ⟨rfl, rfl⟩
  | cons a l ih =>
    unfold update_delays_one
    by_cases ha : a.cst_id = u.smu_id
    · have haf : ¬ a.cst_id = from_id := by rw [ha]; exact hne
      simp [ha, hne, List.find?_cons, haf]
    · simp only [ha, if_false, ih.1, List.find?_cons, true_and]
      by_cases haf : a.cst_id = from_id
      · simp [haf]
      · simp [haf, ih.2]

theorem update_one_sender (from_id rcv_delay : Nat) (u : swim_member_update)
    (heq : u.smu_id = from_id) (l : List crt_swim_target) :
    ∀ m, (update_delays_one from_id rcv_delay u l).2.find? (fun c => c.cst_id = from_id) =
        some m →
      (update_delays_one from_id rcv_delay u l).1 = some m.cst_state.sms_delay := by
  induction l with
  | nil => intro m h; simp [update_delays_one] at h
  | cons a l ih =>
    intro m h
    unfold update_delays_one at h ⊢
    by_cases ha : a.cst_id = u.smu_id
    · have haf : a.cst_id = from_id := ha.trans heq
      simp only [ha, heq, if_true, List.find?_cons, haf, decide_True, Option.some.injEq] at h ⊢
      rw [← h]
    · have haf : ¬ a.cst_id = from_id := by rw [← heq]; exact ha
      simp only [ha, if_false, List.find?_cons, haf, decide_False] at h ⊢
      exact ih m h

theorem update_delays_snoc (g : crt_grp_priv) (from_id rcv_delay : Nat)
    (us : List swim_member_update) (u : swim_member_update) :
    crt_swim_update_delays g from_id rcv_delay (us ++ [u]) =
      (((update_delays_one from_id rcv_delay u
            (crt_swim_update_delays g from_id rcv_delay us).2.csm_head).1).getD
          (crt_swim_update_delays g from_id rcv_delay us).1,
        { (crt_swim_update_delays g from_id rcv_delay us).2 with
          csm_head := (update_delays_one from_id rcv_delay u
            (crt_swim_update_delays g from_id rcv_delay us).2.csm_head).2 }) := by
  simp [crt_swim_update_delays, List.foldl_append]

theorem update_delays_frame (g : crt_grp_priv) (from_id rcv_delay : Nat)
    (upds : List swim_member_update) :
    (crt_swim_update_delays g from_id rcv_delay upds).2 =
        { g with csm_head := (crt_swim_update_delays g from_id rcv_delay upds).2.csm_head } ∧
    (crt_swim_update_delays g from_id rcv_delay upds).2.csm_head.map
        (fun c => (c.cst_id, c.cst_state.sms_incarnation, c.cst_state.sms_status)) =
      g.csm_head.map (fun c => (c.cst_id, c.cst_state.sms_incarnation, c.cst_state.sms_status)) ∧
    (∀ (i : Nat) (m : crt_swim_target), g.csm_head[i]? = some m →
      (∀ u ∈ upds, u.smu_id ≠ m.cst_id) →
      (crt_swim_update_delays g from_id rcv_delay upds).2.csm_head[i]? = some m) := by
  induction upds using List.reverseRecOn with
  | nil => exact ⟨rfl, rfl, fun i m h _ => h⟩
  | append_singleton us u ih =>
    obtain ⟨h1, h2, h3⟩ := ih
    rw [update_delays_snoc]
    refine ⟨?_, ?_, ?_⟩
    · dsimp only
      conv_lhs => rw [h1]
    · dsimp only
      rw [update_one_keys, h2]
    · intro i m hm hne
      dsimp only
      apply update_one_other
      · exact h3 i m hm (fun u' hu' => hne u' (by simp [hu']))
      · exact hne u (by simp)

theorem update_delays_sender (g : crt_grp_priv) (from_id rcv_delay : Nat)
    (upds : List swim_member_update) :
    ((∀ u ∈ upds, u.smu_id ≠ from_id) →
      (crt_swim_update_delays g from_id rcv_delay upds).1 = 0) ∧
    ((∃ u ∈ upds, u.smu_id = from_id) →
      ∀ m, (crt_swim_update_delays g from_id rcv_delay upds).2.csm_head.find?
          (fun c => c.cst_id = from_id) = some m →
        (crt_swim_update_delays g from_id rcv_delay upds).1 = m.cst_state.sms_delay) := by
  induction upds using List.reverseRecOn with
  | nil =>
    refine ⟨fun _ => rfl, ?_⟩
    rintro ⟨u, hu, -⟩
    simp at hu
  | append_singleton us u ih =>
    obtain ⟨h1, h2⟩ := ih
    rw [update_delays_snoc]
    dsimp only
    by_cases hu : u.smu_id = from_id
    · constructor
      · intro hall
        exact absurd hu (hall u (by simp))
      · intro _ m hm
        rw [update_one_sender from_id rcv_delay u hu _ m hm]
        rfl
    · obtain ⟨hn1, hn2⟩ := update_one_not_sender from_id rcv_delay u hu
        (crt_swim_update_delays g from_id rcv_delay us).2.csm_head
      rw [hn1, hn2]
      constructor
      · intro hall
        exact h1 (fun u' hu' => hall u' (by simp [hu']))
      · rintro ⟨u', hu', hu'f⟩ m hm
        simp only [List.mem_append, List.mem_singleton] at hu'
        rcases hu' with hu' | rfl
        · exact h2 ⟨u', hu', hu'f⟩ m hm
        · exact absurd hu'f hu

/-- C16: in `crt_swim_update_delays`, a record `u` whose id is that of a member with
local delay `L` (the first record `m` with the id), with `L` plus the observed delay
below 2^32, sets that member's delay to `L == 0 ? d : (L + d) / 2`, where `d` is the
receive delay when `u` names the sender and the delay carried by `u` otherwise; the
function returns 0 when no record names the sender and else the sender's resulting
delay; ids, incarnations and statuses, every member not named by a record, and all
other fields of the state stay as they are. -/
theorem c16_delay_tracking (g : crt_grp_priv) (from_id rcv_delay : Nat)
    (upds : List swim_member_update) :
    (∀ (us : List swim_member_update) (u : swim_member_update)
        (pre : List crt_swim_target) (m : crt_swim_target) (post : List crt_swim_target),
      (crt_swim_update_delays g from_id rcv_delay us).2.csm_head = pre ++ m :: post →
      (∀ x ∈ pre, x.cst_id ≠ u.smu_id) → m.cst_id = u.smu_id →
      m.cst_state.sms_delay +
          (if u.smu_id = from_id then rcv_delay else u.smu_state.sms_delay) < 2 ^ 32 →
      (crt_swim_update_delays g from_id rcv_delay (us ++ [u])).2.csm_head =
        pre ++ { m with cst_state := { m.cst_state with
                  sms_delay :=
                    if m.cst_state.sms_delay = 0 then
                      (if u.smu_id = from_id then rcv_delay else u.smu_state.sms_delay)
                    else
                      (m.cst_state.sms_delay +
                        (if u.smu_id = from_id then rcv_delay
                         else u.smu_state.sms_delay)) / 2 } } :: post) ∧
    ((∀ u ∈ upds, u.smu_id ≠ from_id) →
      (crt_swim_update_delays g from_id rcv_delay upds).1 = 0) ∧
    ((∃ u ∈ upds, u.smu_id = from_id) →
      ∀ m, (crt_swim_update_delays g from_id rcv_delay upds).2.csm_head.find?
          (fun c => c.cst_id = from_id) = some m →
        (crt_swim_update_delays g from_id rcv_delay upds).1 = m.cst_state.sms_delay) ∧
    (crt_swim_update_delays g from_id rcv_delay upds).2 =
        { g with csm_head := (crt_swim_update_delays g from_id rcv_delay upds).2.csm_head } ∧
    (crt_swim_update_delays g from_id rcv_delay upds).2.csm_head.map
        (fun c => (c.cst_id, c.cst_state.sms_incarnation, c.cst_state.sms_status)) =
      g.csm_head.map (fun c => (c.cst_id, c.cst_state.sms_incarnation, c.cst_state.sms_status)) ∧
    (∀ (i : Nat) (m : crt_swim_target), g.csm_head[i]? = some m →
      (∀ u ∈ upds, u.smu_id ≠ m.cst_id) →
      (crt_swim_update_delays g from_id rcv_delay upds).2.csm_head[i]? = some m) := by
  refine ⟨?_, (update_delays_sender g from_id rcv_delay upds).1,
    (update_delays_sender g from_id rcv_delay upds).2,
    (update_delays_frame g from_id rcv_delay upds).1,
    (update_delays_frame g from_id rcv_delay upds).2.1,
    (update_delays_frame g from_id rcv_delay upds).2.2⟩
  intro us u pre m post hsplit hpre hm hlt
  rw [update_delays_snoc]
  dsimp only
  rw [hsplit, update_one_split from_id rcv_delay u pre m post hpre hm,
    Nat.mod_eq_of_lt hlt]
  by_cases h0 : m.cst_state.sms_delay = 0 <;> simp [h0]

/-- Witness for C16: members 0 (delay 0), 1 (delay 20) and 2 (delay 0); sender 1 with
receive delay 10; records for 1 (carrying 99) and 2 (carrying 33): member 1 gets
(20 + 10) / 2 = 15, member 2 gets 33, member 0 is untouched, 15 is returned. -/
theorem c16_delay_tracking_witness :
    crt_swim_update_delays
        { engine0 with
          csm_head := [mk_cst 0 77 0 SWIM_MEMBER_ALIVE, mk_cst 1 5 20 SWIM_MEMBER_ALIVE,
                       mk_cst 2 6 0 SWIM_MEMBER_SUSPECT] }
        1 10 [⟨1, ⟨0, 99, SWIM_MEMBER_ALIVE⟩⟩, ⟨2, ⟨0, 33, SWIM_MEMBER_ALIVE⟩⟩] =
      (15, { engine0 with
             csm_head := [mk_cst 0 77 0 SWIM_MEMBER_ALIVE, mk_cst 1 5 15 SWIM_MEMBER_ALIVE,
                          mk_cst 2 6 33 SWIM_MEMBER_SUSPECT] }) ∧
    ((∃ u ∈ [(⟨1, ⟨0, 99, SWIM_MEMBER_ALIVE⟩⟩ : swim_member_update),
          ⟨2, ⟨0, 33, SWIM_MEMBER_ALIVE⟩⟩], u.smu_id = 1) →
      ∀ m, (crt_swim_update_delays
          { engine0 with
            csm_head := [mk_cst 0 77 0 SWIM_MEMBER_ALIVE, mk_cst 1 5 20 SWIM_MEMBER_ALIVE,
                         mk_cst 2 6 0 SWIM_MEMBER_SUSPECT] }
          1 10 [⟨1, ⟨0, 99, SWIM_MEMBER_ALIVE⟩⟩,
                ⟨2, ⟨0, 33, SWIM_MEMBER_ALIVE⟩⟩]).2.csm_head.find?
          (fun c => c.cst_id = 1) = some m →
        (crt_swim_update_delays
          { engine0 with
            csm_head := [mk_cst 0 77 0 SWIM_MEMBER_ALIVE, mk_cst 1 5 20 SWIM_MEMBER_ALIVE,
                         mk_cst 2 6 0 SWIM_MEMBER_SUSPECT] }
          1 10 [⟨1, ⟨0, 99, SWIM_MEMBER_ALIVE⟩⟩,
                ⟨2, ⟨0, 33, SWIM_MEMBER_ALIVE⟩⟩]).1 = m.cst_state.sms_delay) :=
  ⟨by decide,
   (c16_delay_tracking
      { engine0 with
        csm_head := [mk_cst 0 77 0 SWIM_MEMBER_ALIVE, mk_cst 1 5 20 SWIM_MEMBER_ALIVE,
                     mk_cst 2 6 0 SWIM_MEMBER_SUSPECT] }
      1 10 [⟨1, ⟨0, 99, SWIM_MEMBER_ALIVE⟩⟩, ⟨2, ⟨0, 33, SWIM_MEMBER_ALIVE⟩⟩]).2.2.1⟩

/-! ## Adding and deleting ranks -/

theorem cst_index_none_iff (id : Nat) (l : List crt_swim_target) :
    cst_index id l = none ↔ ∀ c ∈ l, c.cst_id ≠ id := by
  induction l with
  | nil => simp [cst_index]
  | cons a l ih =>
    unfold cst_index
    by_cases ha : a.cst_id = id
    · simp [ha]
    · simp [ha, ih]

theorem cst_index_append_none (id : Nat) (a b : List crt_swim_target)
    (h : ∀ c ∈ a, c.cst_id ≠ id) :
    cst_index id (a ++ b) = (cst_index id b).map (fun i => i + a.length) := by
  induction a with
  | nil => simp
  | cons x a ih =>
    have hx : x.cst_id ≠ id := h x (List.mem_cons_self _ _)
    have ha : ∀ c ∈ a, c.cst_id ≠ id := fun c hc => h c (List.mem_cons_of_mem _ hc)
    rw [List.cons_append, cst_index, if_neg hx, ih ha]
    cases cst_index id b with
    | none => rfl
    | some i => simp [Nat.add_assoc]

theorem cst_index_insert_after (id t : Nat) (l : List crt_swim_target) (x : crt_swim_target)
    (h : cst_index id l = none) (ht : t < l.length) (hx : x.cst_id = id) :
    cst_index id (circleq_insert_after l t x) = some (t + 1) := by
  have hall := (cst_index_none_iff id l).mp h
  have htake : ∀ c ∈ l.take (t + 1), c.cst_id ≠ id :=
    fun c hc => hall c (List.mem_of_mem_take hc)
  unfold circleq_insert_after
  rw [cst_index_append_none id _ _ htake]
  have hlen : (l.take (t + 1)).length = t + 1 := by
    rw [List.length_take]
    omega
  simp [cst_index, hx, hlen]

theorem eraseIdx_append_cons (a : List crt_swim_target) (x : crt_swim_target)
    (b : List crt_swim_target) : (a ++ x :: b).eraseIdx a.length = a ++ b := by
  induction a with
  | nil => simp
  | cons y a ih => simp [ih]

theorem eraseIdx_insert_after (t : Nat) (l : List crt_swim_target) (x : crt_swim_target)
    (ht : t < l.length) : (circleq_insert_after l t x).eraseIdx (t + 1) = l := by
  unfold circleq_insert_after
  have hlen : (l.take (t + 1)).length = t + 1 := by
    rw [List.length_take]
    omega
  have := eraseIdx_append_cons (l.take (t + 1)) x (l.drop (t + 1))
  rw [hlen] at this
  rw [this, List.take_append_drop]

theorem same_config_refl (g : crt_grp_priv) : same_config g g := rfl

theorem same_config_trans (g g1 g2 : crt_grp_priv) (h1 : same_config g g1)
    (h2 : same_config g1 g2) : same_config g g2 := by
  unfold same_config at *
  rw [h2, h1]

theorem check_self_config (g : crt_grp_priv) :
    same_config g (rank_add_check_self g) ∧
      (rank_add_check_self g).csm_head = g.csm_head ∧
      (rank_add_check_self g).csm_target = g.csm_target := by
  unfold rank_add_check_self same_config
  split <;> exact ⟨rfl, rfl, rfl⟩

theorem rank_del_not_member (g : crt_grp_priv) (r : Nat)
    (h : cst_index r g.csm_head = none) :
    ∃ rc g2, crt_swim_rank_del g r = some (rc, g2) ∧ g2.csm_head = g.csm_head ∧
      same_config g g2 := by
  unfold crt_swim_rank_del
  by_cases hi : g.cg_swim_inited = false
  · rw [if_pos hi]
    exact ⟨0, g, rfl, rfl, rfl⟩
  · rw [if_neg hi, h]
    dsimp only
    by_cases hs : r = g.gp_self
    · rw [if_pos hs]
      exact ⟨_, _, rfl, rfl, rfl⟩
    · rw [if_neg hs]
      exact ⟨_, _, rfl, rfl, rfl⟩

theorem rank_del_member (g : crt_grp_priv) (r i t : Nat) (hinit : g.cg_swim_inited = true)
    (hi : cst_index r g.csm_head = some i) (ht : g.csm_target = some t) :
    ∃ g2, crt_swim_rank_del g r = some (0, g2) ∧ g2.csm_head = g.csm_head.eraseIdx i ∧
      same_config g g2 := by
  unfold crt_swim_rank_del
  have hn : ¬ (g.cg_swim_inited = false) := by simp [hinit]
  rw [if_neg hn, hi, ht]
  dsimp only
  by_cases he : g.csm_head.eraseIdx i = []
  · rw [if_pos he]
    by_cases hs : r = g.gp_self
    · rw [if_pos hs]
      exact ⟨_, rfl, rfl, rfl⟩
    · rw [if_neg hs]
      exact ⟨_, rfl, rfl, rfl⟩
  · rw [if_neg he]
    by_cases hti : t = i
    · rw [if_pos hti]
      by_cases hs : r = g.gp_self
      · rw [if_pos hs]
        exact ⟨_, rfl, rfl, rfl⟩
      · rw [if_neg hs]
        exact ⟨_, rfl, rfl, rfl⟩
    · rw [if_neg hti]
      by_cases hs : r = g.gp_self
      · rw [if_pos hs]
        exact ⟨_, rfl, rfl, rfl⟩
      · rw [if_neg hs]
        exact ⟨_, rfl, rfl, rfl⟩

/-- C19 (counterexample): on an initialised engine of rank 0 with an empty list,
`rank_add(1)` followed by `rank_del(1)` leaves the record of rank 0 in the list: the
list is not empty as it was before. -/
theorem c19_self_record_remains :
    ((crt_swim_rank_add true true 0 engine0 1).bind (fun r1 =>
      (crt_swim_rank_del r1.2 1).map (fun r2 => (r1.1, r1.2.csm_head, r2.1, r2.2.csm_head)))) =
      some (0, [mk_cst 0 77 0 SWIM_MEMBER_ALIVE, mk_cst 1 0 0 SWIM_MEMBER_INACTIVE], 0,
        [mk_cst 0 77 0 SWIM_MEMBER_ALIVE]) ∧
    engine0.csm_head = [] ∧ cst_index 1 engine0.csm_head = none := by
  decide

/-- C19 (amended): for every membership state with a valid cursor and every rank `r`
that is not a member, unless the list is empty and `r` is not the self rank,
`crt_swim_rank_add(r)` followed by `crt_swim_rank_del(r)` leaves the membership list
with exactly the records it had, in the same order; only the cursor and the self id
of the SWIM context may differ.  This holds for every outcome of the allocations and
of `rand()`. -/
theorem c19_add_del_round_trip (alloc1 alloc2 : Bool) (rnd : Nat) (g : crt_grp_priv)
    (r : Nat) (hwf : csm_wf g) (hnot : cst_index r g.csm_head = none)
    (hcase : g.csm_head ≠ [] ∨ r = g.gp_self) :
    ∃ rc1 g1 rc2 g2, crt_swim_rank_add alloc1 alloc2 rnd g r = some (rc1, g1) ∧
      crt_swim_rank_del g1 r = some (rc2, g2) ∧ g2.csm_head = g.csm_head ∧
      g2 = { g with csm_target := g2.csm_target, sc_self := g2.sc_self } := by
  suffices hmain : ∃ rc1 g1 rc2 g2, crt_swim_rank_add alloc1 alloc2 rnd g r = some (rc1, g1) ∧
      crt_swim_rank_del g1 r = some (rc2, g2) ∧ g2.csm_head = g.csm_head ∧
      same_config g g2 by
    obtain ⟨rc1, g1, rc2, g2, h1, h2, h3, h4⟩ := hmain
    refine ⟨rc1, g1, rc2, g2, h1, h2, h3, ?_⟩
    unfold same_config at h4
    rw [h3] at h4
    exact h4
  -- the add left the state as it was: only the delete remains
  have hsame : ∀ rc1, crt_swim_rank_add alloc1 alloc2 rnd g r = some (rc1, g) →
      ∃ rc1 g1 rc2 g2, crt_swim_rank_add alloc1 alloc2 rnd g r = some (rc1, g1) ∧
        crt_swim_rank_del g1 r = some (rc2, g2) ∧ g2.csm_head = g.csm_head ∧
        same_config g g2 := by
    intro rc1 h1
    obtain ⟨rc2, g2, h2, h3, h4⟩ := rank_del_not_member g r hnot
    exact ⟨rc1, g, rc2, g2, h1, h2, h3, h4⟩
  by_cases hi : g.cg_swim_inited = false
  · exact hsame 0 (by unfold crt_swim_rank_add; rw [if_pos hi])
  by_cases hno : g.gp_self = CRT_NO_RANK
  · exact hsame (-DER_INVAL) (by unfold crt_swim_rank_add; rw [if_neg hi, if_pos hno])
  by_cases ha : alloc1 = false
  · exact hsame (-DER_NOMEM) (by
      unfold crt_swim_rank_add; rw [if_neg hi, if_neg hno, if_pos ha])
  have hinit : g.cg_swim_inited = true := by simpa using hi
  by_cases he : g.csm_head = []
  · -- empty list: `r` is the self rank; its record is added and deleted again
    have hr : r = g.gp_self := by
      rcases hcase with h | h
      · exact absurd he h
      · exact h
    have hadd : crt_swim_rank_add alloc1 alloc2 rnd g r =
        some (0, rank_add_check_self
          { g with
            csm_head := [{ cst_id := g.gp_self
                           cst_state := { sms_incarnation := g.csm_incarnation, sms_delay := 0,
                                          sms_status := SWIM_MEMBER_ALIVE } }]
            csm_target := some 0 }) := by
      unfold crt_swim_rank_add
      rw [if_neg hi, if_neg hno, if_neg ha, if_pos he]
      dsimp only
      rw [if_neg (by simp [hr])]
    obtain ⟨hc1, hh1, ht1⟩ := check_self_config
      { g with
        csm_head := [{ cst_id := g.gp_self
                       cst_state := { sms_incarnation := g.csm_incarnation, sms_delay := 0,
                                      sms_status := SWIM_MEMBER_ALIVE } }]
        csm_target := some 0 }
    obtain ⟨g2, hdel, hhead, hc2⟩ := rank_del_member _ r 0 0
      (by rw [hc1]; exact hinit) (by rw [hh1, hr]; simp [cst_index]) ht1
    refine ⟨0, _, 0, g2, hadd, hdel, ?_, ?_⟩
    · rw [hhead, hh1, he]
      rfl
    · exact same_config_trans _ _ _ (same_config_trans _ _ _ (by unfold same_config; rfl) hc1) hc2
  · have hsome : (cst_index r g.csm_head).isSome = false := by simp [hnot]
    by_cases hr : r = g.gp_self
    · -- self is not in the non-empty list: nothing is added
      have hadd : crt_swim_rank_add alloc1 alloc2 rnd g r =
          some (0, rank_add_check_self g) := by
        unfold crt_swim_rank_add
        rw [if_neg hi, if_neg hno, if_neg ha, if_neg he, if_neg (by simp [hsome]),
          if_neg (by simp [hr])]
      obtain ⟨hc1, hh1, -⟩ := check_self_config g
      obtain ⟨rc2, g2, hdel, hhead, hc2⟩ := rank_del_not_member (rank_add_check_self g) r
        (by rw [hh1]; exact hnot)
      exact ⟨0, _, rc2, g2, hadd, hdel, by rw [hhead, hh1],
        same_config_trans _ _ _ hc1 hc2⟩
    · -- a peer is inserted behind the cursor and removed again
      unfold csm_wf at hwf
      cases htg : g.csm_target with
      | none =>
        rw [htg] at hwf
        exact absurd hwf he
      | some t =>
        rw [htg] at hwf
        have hadd : crt_swim_rank_add alloc1 alloc2 rnd g r =
            some (0, rank_add_check_self
              { g with
                csm_head := circleq_insert_after g.csm_head t
                  { cst_id := r
                    cst_state := { sms_incarnation := 0, sms_delay := 0,
                                   sms_status := SWIM_MEMBER_INACTIVE } }
                csm_target := some (cursor_advance
                  (circleq_insert_after g.csm_head t
                    { cst_id := r
                      cst_state := { sms_incarnation := 0, sms_delay := 0,
                                     sms_status := SWIM_MEMBER_INACTIVE } }).length
                  (1 + rnd % (g.gp_size + 1)) t) }) := by
          unfold crt_swim_rank_add
          rw [if_neg hi, if_neg hno, if_neg ha, if_neg he, if_neg (by simp [hsome]),
            if_pos hr]
          unfold rank_add_member
          rw [htg]
          rfl
        obtain ⟨hc1, hh1, ht1⟩ := check_self_config
          { g with
            csm_head := circleq_insert_after g.csm_head t
              { cst_id := r
                cst_state := { sms_incarnation := 0, sms_delay := 0,
                               sms_status := SWIM_MEMBER_INACTIVE } }
            csm_target := some (cursor_advance
              (circleq_insert_after g.csm_head t
                { cst_id := r
                  cst_state := { sms_incarnation := 0, sms_delay := 0,
                                 sms_status := SWIM_MEMBER_INACTIVE } }).length
              (1 + rnd % (g.gp_size + 1)) t) }
        obtain ⟨g2, hdel, hhead, hc2⟩ := rank_del_member _ r (t + 1) _
          (by rw [hc1]; exact hinit)
          (by rw [hh1]; exact cst_index_insert_after r t g.csm_head _ hnot hwf rfl) ht1
        refine ⟨0, _, 0, g2, hadd, hdel, ?_, ?_⟩
        · rw [hhead, hh1]
          exact eraseIdx_insert_after t g.csm_head _ hwf
        · exact same_config_trans _ _ _ (same_config_trans _ _ _ (by unfold same_config; rfl) hc1) hc2

/-- Witness for C19 (amended): list [0, 1] with the cursor on rank 1, self rank 0;
rank 2 is added (with `rand()` = 5) and deleted again. -/
theorem c19_add_del_round_trip_witness :
    csm_wf { engine0 with
             sc_self := 0, csm_target := some 1
             csm_head := [mk_cst 0 77 0 SWIM_MEMBER_ALIVE, mk_cst 1 3 9 SWIM_MEMBER_ALIVE] } ∧
    ∃ rc1 g1 rc2 g2,
      crt_swim_rank_add true true 5
          { engine0 with
            sc_self := 0, csm_target := some 1
            csm_head := [mk_cst 0 77 0 SWIM_MEMBER_ALIVE, mk_cst 1 3 9 SWIM_MEMBER_ALIVE] } 2 =
        some (rc1, g1) ∧
      crt_swim_rank_del g1 2 = some (rc2, g2) ∧
      g2.csm_head =
        ({ engine0 with
           sc_self := 0, csm_target := some 1
           csm_head := [mk_cst 0 77 0 SWIM_MEMBER_ALIVE, mk_cst 1 3 9 SWIM_MEMBER_ALIVE] } :
          crt_grp_priv).csm_head ∧
      g2 = { ({ engine0 with
                sc_self := 0, csm_target := some 1
                csm_head := [mk_cst 0 77 0 SWIM_MEMBER_ALIVE,
                             mk_cst 1 3 9 SWIM_MEMBER_ALIVE] } : crt_grp_priv) with
             csm_target := g2.csm_target, sc_self := g2.sc_self } :=
  ⟨by simp [csm_wf],
   c19_add_del_round_trip true true 5
     { engine0 with
       sc_self := 0, csm_target := some 1
       csm_head := [mk_cst 0 77 0 SWIM_MEMBER_ALIVE, mk_cst 1 3 9 SWIM_MEMBER_ALIVE] } 2
     (by simp [csm_wf]) (by decide) (Or.inl (by decide))⟩

/-! ## Direct-ping target -/

theorem loop_next_mod (len t : Nat) (ht : t < len) :
    circleq_loop_next len t = (t + 1) % len := by
  unfold circleq_loop_next
  split
  · rename_i h
    exact (Nat.mod_eq_of_lt h).symm
  · have : t + 1 = len := by omega
    rw [this, Nat.mod_self]

theorem ring_index_succ (len cur j : Nat) :
    ((cur + 1) % len + 1 + j) % len = (cur + 1 + (j + 1)) % len := by
  have h : (cur + 1) % len + 1 + j = (cur + 1) % len + (1 + j) := by omega
  rw [h, Nat.add_mod, Nat.mod_mod, ← Nat.add_mod]
  congr 1
  omega

theorem dping_found (self_id gp_size : Nat) (l : List crt_swim_target) (k : Nat) :
    ∀ (fuel count cur : Nat) (m : crt_swim_target), cur < l.length → k < fuel →
      count + k ≤ gp_size → count + k < 2 ^ 32 →
      (∀ j < k, ∀ m', l[(cur + 1 + j) % l.length]? = some m' →
        m'.cst_id = self_id ∨ m'.cst_state.sms_status = SWIM_MEMBER_DEAD) →
      l[(cur + 1 + k) % l.length]? = some m →
      ¬ (m.cst_id = self_id ∨ m.cst_state.sms_status = SWIM_MEMBER_DEAD) →
      dping_loop self_id gp_size l fuel count cur =
        some (m.cst_id, (cur + 1 + k) % l.length) := by
  induction k with
  | zero =>
    intro fuel count cur m hcur hfuel hcount _ _ hm hel
    obtain ⟨f, rfl⟩ : ∃ f, fuel = f + 1 := ⟨fuel - 1, by omega⟩
    unfold dping_loop
    have hc : ¬ count > gp_size := by omega
    rw [if_neg hc]
    dsimp only
    rw [loop_next_mod _ _ hcur]
    rw [Nat.add_zero] at hm
    rw [hm]
    dsimp only
    rw [if_neg hel]
  | succ k ih =>
    intro fuel count cur m hcur hfuel hcount h32 hskip hm hel
    obtain ⟨f, rfl⟩ : ∃ f, fuel = f + 1 := ⟨fuel - 1, by omega⟩
    unfold dping_loop
    have hc : ¬ count > gp_size := by omega
    rw [if_neg hc]
    dsimp only
    rw [loop_next_mod _ _ hcur]
    have hlen : 0 < l.length := by omega
    have hlt : (cur + 1) % l.length < l.length := Nat.mod_lt _ hlen
    obtain ⟨m0, hm0⟩ : ∃ m0, l[(cur + 1) % l.length]? = some m0 :=
      ⟨l[(cur + 1) % l.length], List.getElem?_eq_getElem hlt⟩
    rw [hm0]
    dsimp only
    have hex := hskip 0 (by omega) m0 (by simpa using hm0)
    rw [if_pos hex]
    have hcnt : (count + 1) % 2 ^ 32 = count + 1 := Nat.mod_eq_of_lt (by omega)
    rw [hcnt]
    have := ih f (count + 1) ((cur + 1) % l.length) m hlt (by omega) (by omega) (by omega)
      (by
        intro j hj m' hm'
        rw [ring_index_succ] at hm'
        exact hskip (j + 1) (by omega) m' hm')
      (by rw [ring_index_succ]; exact hm) hel
    rw [this, ring_index_succ]

theorem dping_none (self_id gp_size : Nat) (l : List crt_swim_target)
    (hall : ∀ m ∈ l, m.cst_id = self_id ∨ m.cst_state.sms_status = SWIM_MEMBER_DEAD)
    (h32 : gp_size + 1 < 2 ^ 32) (n : Nat) :
    ∀ (fuel count cur : Nat), cur < l.length → gp_size + 1 - count = n →
      count ≤ gp_size + 1 → n < fuel →
      ∃ c, dping_loop self_id gp_size l fuel count cur = some (SWIM_ID_INVALID, c) := by
  induction n with
  | zero =>
    intro fuel count cur _ hn hcount hfuel
    obtain ⟨f, rfl⟩ : ∃ f, fuel = f + 1 := ⟨fuel - 1, by omega⟩
    unfold dping_loop
    have hc : count > gp_size := by omega
    rw [if_pos hc]
    exact ⟨cur, rfl⟩
  | succ n ih =>
    intro fuel count cur hcur hn hcount hfuel
    obtain ⟨f, rfl⟩ : ∃ f, fuel = f + 1 := ⟨fuel - 1, by omega⟩
    unfold dping_loop
    have hc : ¬ count > gp_size := by omega
    rw [if_neg hc]
    dsimp only
    rw [loop_next_mod _ _ hcur]
    have hlen : 0 < l.length := by omega
    have hlt : (cur + 1) % l.length < l.length := Nat.mod_lt _ hlen
    obtain ⟨m0, hm0⟩ : ∃ m0, l[(cur + 1) % l.length]? = some m0 :=
      ⟨l[(cur + 1) % l.length], List.getElem?_eq_getElem hlt⟩
    rw [hm0]
    dsimp only
    rw [if_pos (hall m0 (List.getElem?_mem hm0))]
    have hcnt : (count + 1) % 2 ^ 32 = count + 1 := Nat.mod_eq_of_lt (by omega)
    rw [hcnt]
    exact ih f (count + 1) _ hlt (by omega) (by omega) (by omega)

/-- On a ring with a member that is neither self nor DEAD, some number `k` of steps
behind the cursor reaches the first such member. -/
theorem first_candidate (self_id : Nat) (l : List crt_swim_target) (t : Nat)
    (ht : t < l.length)
    (hex : ∃ m ∈ l, ¬ (m.cst_id = self_id ∨ m.cst_state.sms_status = SWIM_MEMBER_DEAD)) :
    ∃ k m, k < l.length ∧ l[(t + 1 + k) % l.length]? = some m ∧
      ¬ (m.cst_id = self_id ∨ m.cst_state.sms_status = SWIM_MEMBER_DEAD) ∧
      ∀ j < k, ∀ m', l[(t + 1 + j) % l.length]? = some m' →
        m'.cst_id = self_id ∨ m'.cst_state.sms_status = SWIM_MEMBER_DEAD := by
  classical
  obtain ⟨m, hm, hel⟩ := hex
  obtain ⟨i, hi, hget⟩ := List.getElem_of_mem hm
  have hlen : 0 < l.length := by omega
  have hP : ∃ k, k < l.length ∧ ∃ m, l[(t + 1 + k) % l.length]? = some m ∧
      ¬ (m.cst_id = self_id ∨ m.cst_state.sms_status = SWIM_MEMBER_DEAD) := by
    refine ⟨(i + l.length - 1 - t) % l.length, Nat.mod_lt _ hlen, m, ?_, hel⟩
    have hidx : (t + 1 + (i + l.length - 1 - t) % l.length) % l.length = i := by
      rw [Nat.add_mod, Nat.mod_mod, ← Nat.add_mod]
      have : t + 1 + (i + l.length - 1 - t) = i + l.length := by omega
      rw [this, Nat.add_mod_right, Nat.mod_eq_of_lt hi]
    rw [hidx, List.getElem?_eq_getElem hi, hget]
  refine ⟨Nat.find hP, ?_⟩
  obtain ⟨hk, m1, hm1, hel1⟩ := Nat.find_spec hP
  refine ⟨m1, hk, hm1, hel1, ?_⟩
  intro j hj m' hm'
  by_contra hcon
  exact Nat.find_min hP hj ⟨by omega, m', hm', hcon⟩

/-- C17: on a non-empty ring with at most `gp_size` members (the cursor on one of its
records, member ids that are ranks, and a group size below 2^32 - 1), `crt_swim_get_dping_target`
returns; it changes only the cursor; it returns `SWIM_ID_INVALID` exactly when every
member is self or DEAD; otherwise it returns the id of the first member behind the
cursor in cyclic order that is neither self nor DEAD and leaves the cursor on it. -/
theorem c17_dping_target (g : crt_grp_priv) (t fuel : Nat)
    (hsize : g.csm_head.length ≤ g.gp_size) (h32 : g.gp_size + 1 < 2 ^ 32)
    (ht : g.csm_target = some t) (htl : t < g.csm_head.length)
    (hid : ∀ m ∈ g.csm_head, m.cst_id ≠ SWIM_ID_INVALID) (hfuel : g.gp_size + 2 ≤ fuel) :
    ∃ id g', crt_swim_get_dping_target fuel g = some (id, g') ∧
      g' = { g with csm_target := g'.csm_target } ∧
      (id = SWIM_ID_INVALID ↔
        ∀ m ∈ g.csm_head, m.cst_id = g.sc_self ∨ m.cst_state.sms_status = SWIM_MEMBER_DEAD) ∧
      (id ≠ SWIM_ID_INVALID →
        ∃ k m, k < g.csm_head.length ∧
          g.csm_head[(t + 1 + k) % g.csm_head.length]? = some m ∧ m.cst_id = id ∧
          g'.csm_target = some ((t + 1 + k) % g.csm_head.length) ∧
          m.cst_id ≠ g.sc_self ∧ m.cst_state.sms_status ≠ SWIM_MEMBER_DEAD ∧
          ∀ j < k, ∀ m', g.csm_head[(t + 1 + j) % g.csm_head.length]? = some m' →
            m'.cst_id = g.sc_self ∨ m'.cst_state.sms_status = SWIM_MEMBER_DEAD) := by
  by_cases hall : ∀ m ∈ g.csm_head,
      m.cst_id = g.sc_self ∨ m.cst_state.sms_status = SWIM_MEMBER_DEAD
  · obtain ⟨c, hc⟩ := dping_none g.sc_self g.gp_size g.csm_head hall h32 (g.gp_size + 1)
      fuel 0 t htl (by omega) (by omega) (by omega)
    refine ⟨SWIM_ID_INVALID, { g with csm_target := some c }, ?_, rfl, ?_, ?_⟩
    · unfold crt_swim_get_dping_target
      rw [ht]
      dsimp only
      rw [hc]
      rfl
    · exact ⟨fun _ => hall, fun _ => rfl⟩
    · intro h
      exact absurd rfl h
  · push_neg at hall
    obtain ⟨k, m, hk, hm, hel, hmin⟩ := first_candidate g.sc_self g.csm_head t htl (by
      obtain ⟨m, hm, h1, h2⟩ := hall
      exact ⟨m, hm, by push_neg; exact ⟨h1, h2⟩⟩)
    have hloop := dping_found g.sc_self g.gp_size g.csm_head k fuel 0 t m htl (by omega)
      (by omega) (by omega) hmin hm hel
    have hmem : m ∈ g.csm_head := List.getElem?_mem hm
    refine ⟨m.cst_id, { g with csm_target := some ((t + 1 + k) % g.csm_head.length) },
      ?_, rfl, ?_, ?_⟩
    · unfold crt_swim_get_dping_target
      rw [ht]
      dsimp only
      rw [hloop]
      rfl
    · constructor
      · intro h
        exact absurd h (hid m hmem)
      · intro h
        exact absurd (h m hmem) hel
    · intro _
      push_neg at hel
      exact ⟨k, m, hk, hm, rfl, rfl, hel.1, hel.2, hmin⟩

/-- Witness for C17: ring [0 (self), 1 DEAD, 2 ALIVE, 3 SUSPECT] with the cursor on
rank 0 in a group of size 4: rank 1 is skipped and rank 2 is returned. -/
theorem c17_dping_target_witness :
    crt_swim_get_dping_target 6
        { engine0 with
          gp_size := 4, sc_self := 0, csm_target := some 0
          csm_head := [mk_cst 0 77 0 SWIM_MEMBER_ALIVE, mk_cst 1 3 0 SWIM_MEMBER_DEAD,
                       mk_cst 2 4 0 SWIM_MEMBER_ALIVE, mk_cst 3 5 0 SWIM_MEMBER_SUSPECT] } =
      some (2, { engine0 with
                 gp_size := 4, sc_self := 0, csm_target := some 2
                 csm_head := [mk_cst 0 77 0 SWIM_MEMBER_ALIVE, mk_cst 1 3 0 SWIM_MEMBER_DEAD,
                              mk_cst 2 4 0 SWIM_MEMBER_ALIVE,
                              mk_cst 3 5 0 SWIM_MEMBER_SUSPECT] }) ∧
    ∃ id g', crt_swim_get_dping_target 6
        { engine0 with
          gp_size := 4, sc_self := 0, csm_target := some 0
          csm_head := [mk_cst 0 77 0 SWIM_MEMBER_ALIVE, mk_cst 1 3 0 SWIM_MEMBER_DEAD,
                       mk_cst 2 4 0 SWIM_MEMBER_ALIVE, mk_cst 3 5 0 SWIM_MEMBER_SUSPECT] } =
        some (id, g') ∧
      (id = SWIM_ID_INVALID ↔
        ∀ m ∈ [mk_cst 0 77 0 SWIM_MEMBER_ALIVE, mk_cst 1 3 0 SWIM_MEMBER_DEAD,
               mk_cst 2 4 0 SWIM_MEMBER_ALIVE, mk_cst 3 5 0 SWIM_MEMBER_SUSPECT],
          m.cst_id = 0 ∨ m.cst_state.sms_status = SWIM_MEMBER_DEAD) := by
  refine ⟨by decide, ?_⟩
  obtain ⟨id, g', h1, -, h3, -⟩ := c17_dping_target
    { engine0 with
      gp_size := 4, sc_self := 0, csm_target := some 0
      csm_head := [mk_cst 0 77 0 SWIM_MEMBER_ALIVE, mk_cst 1 3 0 SWIM_MEMBER_DEAD,
                   mk_cst 2 4 0 SWIM_MEMBER_ALIVE, mk_cst 3 5 0 SWIM_MEMBER_SUSPECT] }
    0 6 (by decide) (by decide) rfl (by decide) (by decide) (by decide)
  exact ⟨id, g', h1, h3⟩

/-! ## Event callbacks -/

theorem notify_loop_filter (rank inc : Nat) (ty : crt_event_type) (cbs : List Bool) :
    ∀ k i : Nat,
      (notify_loop rank inc ty k cbs).filter (fun c => c.subscriber = i) =
        if k ≤ i ∧ cbs[i - k]? = some true then
          [{ subscriber := i, rank := rank, incarnation := inc,
             src := crt_event_source.CRT_EVS_SWIM, type := ty }]
        else [] := by
  induction cbs with
  | nil =>
    intro k i
    simp [notify_loop]
  | cons f rest ih =>
    intro k i
    have h := ih (k + 1) i
    by_cases hki : k = i
    · subst hki
      have h0 : ¬ (k + 1 ≤ k) := by omega
      rw [if_neg (fun hc => h0 hc.1)] at h
      cases f with
      | true => simp [notify_loop, h]
      | false => simp [notify_loop, h]
    · by_cases hlt : k < i
      · have e : i - k = (i - (k + 1)) + 1 := by omega
        have hle : k ≤ i := Nat.le_of_lt hlt
        have hle1 : k + 1 ≤ i := hlt
        simp only [hle1, true_and] at h
        cases f with
        | true => simp [notify_loop, h, e, hle, hki]
        | false => simp [notify_loop, h, e, hle]
      · have h1 : ¬ (k + 1 ≤ i) := by omega
        have h2 : ¬ (k ≤ i) := by omega
        rw [if_neg (fun hc => h1 hc.1)] at h
        rw [if_neg (fun hc => h2 hc.1)]
        cases f with
        | true => simp [notify_loop, h, hki]
        | false => simp [notify_loop, h]

theorem set_state_list_none_iff (id : Nat) (st : swim_member_state)
    (l : List crt_swim_target) :
    set_state_list id st l = none ↔ ∀ x ∈ l, x.cst_id ≠ id := by
  induction l with
  | nil => simp [set_state_list]
  | cons a l ih =>
    by_cases ha : a.cst_id = id
    · simp [set_state_list, ha]
    · simp [set_state_list, ha, ih]

/-- C21: for an id that fits the 32-bit rank type, `crt_swim_set_member_state` returns
`-DER_NONEXIST`, leaves the state as it is and calls no subscriber when no record has the
id; when a record has the id it returns 0 and, for a new status ALIVE or DEAD, calls
each subscriber slot that is set exactly once with `(id, incarnation, SWIM, ALIVE)` or
`(id, incarnation, SWIM, DEAD)` and no other slot, and for SUSPECT or INACTIVE calls
none. -/
theorem c21_event_emission (cbs : List Bool) (g : crt_grp_priv) (id : Nat)
    (state : swim_member_state) (hid : id < 2 ^ 32) :
    ((∀ cst ∈ g.csm_head, cst.cst_id ≠ id) →
      crt_swim_set_member_state cbs g id state = (-DER_NONEXIST, g, [])) ∧
    ((∃ cst ∈ g.csm_head, cst.cst_id = id) →
      (crt_swim_set_member_state cbs g id state).1 = 0 ∧
      (state.sms_status = SWIM_MEMBER_ALIVE →
        ∀ i : Nat,
          (crt_swim_set_member_state cbs g id state).2.2.filter
              (fun c => c.subscriber = i) =
            if cbs[i]? = some true then
              [{ subscriber := i, rank := id, incarnation := state.sms_incarnation,
                 src := crt_event_source.CRT_EVS_SWIM, type := crt_event_type.CRT_EVT_ALIVE }]
            else []) ∧
      (state.sms_status = SWIM_MEMBER_DEAD →
        ∀ i : Nat,
          (crt_swim_set_member_state cbs g id state).2.2.filter
              (fun c => c.subscriber = i) =
            if cbs[i]? = some true then
              [{ subscriber := i, rank := id, incarnation := state.sms_incarnation,
                 src := crt_event_source.CRT_EVS_SWIM, type := crt_event_type.CRT_EVT_DEAD }]
            else []) ∧
      ((state.sms_status = SWIM_MEMBER_SUSPECT ∨ state.sms_status = SWIM_MEMBER_INACTIVE) →
        (crt_swim_set_member_state cbs g id state).2.2 = [])) := by
  have hmod : id % 2 ^ 32 = id := Nat.mod_eq_of_lt hid
  constructor
  · intro hno
    unfold crt_swim_set_member_state
    dsimp only
    rw [(set_state_list_none_iff id _ g.csm_head).mpr hno]
  · intro hmem
    unfold crt_swim_set_member_state
    dsimp only
    cases hs : set_state_list id
        (if state.sms_status = SWIM_MEMBER_SUSPECT then
          { state with sms_delay := (state.sms_delay + g.swim_ping_timeout) % 2 ^ 32 }
        else state) g.csm_head with
    | none =>
      obtain ⟨cst, hc, hcid⟩ := hmem
      exact absurd hcid ((set_state_list_none_iff id _ g.csm_head).mp hs cst hc)
    | some head =>
      dsimp only
      rw [hmod]
      refine ⟨rfl, ?_, ?_, ?_⟩
      · intro hst i
        have := notify_loop_filter id state.sms_incarnation crt_event_type.CRT_EVT_ALIVE cbs 0 i
        simpa [crt_swim_notify_rank_state, hst] using this
      · intro hst i
        have := notify_loop_filter id state.sms_incarnation crt_event_type.CRT_EVT_DEAD cbs 0 i
        simpa [crt_swim_notify_rank_state, hst] using this
      · rintro (hst | hst)
        · simp [crt_swim_notify_rank_state, hst]
        · simp [crt_swim_notify_rank_state, hst]

/-- Witness for C21: rank 1 becomes DEAD with incarnation 9 while slots 0 and 2 of three
are set; both are called once and slot 1 is not. -/
theorem c21_event_emission_witness :
    crt_swim_set_member_state [true, false, true]
        { engine0 with
          csm_head := [mk_cst 0 77 0 SWIM_MEMBER_ALIVE, mk_cst 1 5 30 SWIM_MEMBER_ALIVE]
          csm_target := some 0 } 1 ⟨9, 0, SWIM_MEMBER_DEAD⟩ =
      (0,
       { engine0 with
         csm_head := [mk_cst 0 77 0 SWIM_MEMBER_ALIVE, mk_cst 1 9 0 SWIM_MEMBER_DEAD]
         csm_target := some 0 },
       [⟨0, 1, 9, crt_event_source.CRT_EVS_SWIM, crt_event_type.CRT_EVT_DEAD⟩,
        ⟨2, 1, 9, crt_event_source.CRT_EVS_SWIM, crt_event_type.CRT_EVT_DEAD⟩]) ∧
    (crt_swim_set_member_state [true, false, true]
        { engine0 with
          csm_head := [mk_cst 0 77 0 SWIM_MEMBER_ALIVE, mk_cst 1 5 30 SWIM_MEMBER_ALIVE]
          csm_target := some 0 } 1 ⟨9, 0, SWIM_MEMBER_DEAD⟩).1 = 0 :=
  ⟨by decide,
   ((c21_event_emission [true, false, true]
      { engine0 with
        csm_head := [mk_cst 0 77 0 SWIM_MEMBER_ALIVE, mk_cst 1 5 30 SWIM_MEMBER_ALIVE]
        csm_target := some 0 } 1 ⟨9, 0, SWIM_MEMBER_DEAD⟩ (by decide)).2
      ⟨mk_cst 1 5 30 SWIM_MEMBER_ALIVE, by decide, rfl⟩).1⟩

/-! ## Outage detection and context index -/

theorem u64_delay (now last : Nat) (h1 : now < 2 ^ 64) (h2 : last ≤ now) :
    (now + 2 ^ 64 - last % 2 ^ 64) % 2 ^ 64 = now - last := by
  have hl : last % 2 ^ 64 = last := Nat.mod_eq_of_lt (Nat.lt_of_le_of_lt h2 h1)
  rw [hl]
  have : now + 2 ^ 64 - last = (now - last) + 2 ^ 64 := by omega
  rw [this, Nat.add_mod_right]
  exact Nat.mod_eq_of_lt (by omega)

theorem cli_cb_success (g : crt_grp_priv) (to_id now : Nat) (hnow : now < 2 ^ 64) :
    crt_swim_cli_cb g 0 to_id now = ({ g with sc_last_success_time := now }, false, []) := by
  unfold crt_swim_cli_cb
  have hd := u64_delay now now hnow (le_refl _)
  simp only [ne_eq, not_true_eq_false, false_and, if_false, if_true]
  by_cases h0 : now = 0
  · simp [h0]
  · rw [if_pos h0, hd]
    simp

theorem cli_cb_failure (g : crt_grp_priv) (cci_rc : Int) (to_id now : Nat)
    (hrc : cci_rc ≠ 0) (hnow : now < 2 ^ 64) (hlast : g.sc_last_success_time ≤ now)
    (hsus : g.swim_suspect_timeout < 2 ^ 63) :
    ((g.sc_last_success_time ≠ 0 ∧
        now - g.sc_last_success_time > 2 * g.swim_suspect_timeout / 3) →
      (crt_swim_cli_cb g cci_rc to_id now).2.1 = true ∧
      (crt_swim_cli_cb g cci_rc to_id now).1.sc_last_success_time = 0 ∧
      (crt_swim_cli_cb g cci_rc to_id now).1.csm_head = (crt_swim_suspend_all g).1.csm_head) ∧
    (¬ (g.sc_last_success_time ≠ 0 ∧
        now - g.sc_last_success_time > 2 * g.swim_suspect_timeout / 3) →
      (crt_swim_cli_cb g cci_rc to_id now).2.1 = false ∧
      (crt_swim_cli_cb g cci_rc to_id now).1.sc_last_success_time = g.sc_last_success_time ∧
      (crt_swim_cli_cb g cci_rc to_id now).1.csm_head = g.csm_head) := by
  have hd := u64_delay now g.sc_last_success_time hnow hlast
  have hm : g.swim_suspect_timeout * 2 % 2 ^ 64 = 2 * g.swim_suspect_timeout := by
    rw [Nat.mod_eq_of_lt (by omega)]
    omega
  unfold crt_swim_cli_cb
  simp only [hrc, ne_eq, not_false_eq_true, true_and, if_false]
  by_cases hto : to_id = g.sc_target
  · simp only [hto, if_true]
    rw [hd, hm]
    constructor
    · rintro ⟨h1, h2⟩
      rw [if_pos h1, if_pos h2]
      refine ⟨rfl, rfl, ?_⟩
      unfold crt_swim_suspend_all
      dsimp only
      split_ifs <;> rfl
    · intro hn
      by_cases h1 : g.sc_last_success_time = 0
      · rw [if_neg (by simpa using h1)]
        exact ⟨rfl, rfl, rfl⟩
      · rw [if_pos h1, if_neg (fun h2 => hn ⟨h1, h2⟩)]
        exact ⟨rfl, rfl, rfl⟩
  · simp only [hto, if_false]
    rw [hd, hm]
    constructor
    · rintro ⟨h1, h2⟩
      rw [if_pos h1, if_pos h2]
      exact ⟨rfl, rfl, rfl⟩
    · intro hn
      by_cases h1 : g.sc_last_success_time = 0
      · rw [if_neg (by simpa using h1)]
        exact ⟨rfl, rfl, rfl⟩
      · rw [if_pos h1, if_neg (fun h2 => hn ⟨h1, h2⟩)]
        exact ⟨rfl, rfl, rfl⟩

/-- C22: with a clock that has not gone back since the last success and a suspect
timeout below 2^63 ms, `crt_swim_cli_cb` calls `crt_swim_suspend_all` exactly when the
time of the last success (`now` itself after a completion with `cci_rc = 0`) is not
zero and `now` minus it is above `2 * suspect_timeout / 3`; a completion with
`cci_rc = 0` never does; after the call the list is the one `crt_swim_suspend_all`
leaves (on an initialised engine every record but the one of self is INACTIVE) and
`sc_last_success_time` is 0, and with `sc_last_success_time = 0` a failed completion
does not call it and leaves the time at 0. -/
theorem c22_outage_suppression (g : crt_grp_priv) (cci_rc : Int) (to_id now : Nat)
    (hnow : now < 2 ^ 64) (hlast : g.sc_last_success_time ≤ now)
    (hsus : g.swim_suspect_timeout < 2 ^ 63) :
    ((crt_swim_cli_cb g cci_rc to_id now).2.1 = true ↔
      (if cci_rc = 0 then now else g.sc_last_success_time) ≠ 0 ∧
        now - (if cci_rc = 0 then now else g.sc_last_success_time) >
          2 * g.swim_suspect_timeout / 3) ∧
    (cci_rc = 0 → (crt_swim_cli_cb g cci_rc to_id now).2.1 = false) ∧
    ((crt_swim_cli_cb g cci_rc to_id now).2.1 = true →
      (crt_swim_cli_cb g cci_rc to_id now).1.sc_last_success_time = 0 ∧
      (crt_swim_cli_cb g cci_rc to_id now).1.csm_head = (crt_swim_suspend_all g).1.csm_head) ∧
    ((crt_swim_cli_cb g cci_rc to_id now).2.1 = false →
      (crt_swim_cli_cb g cci_rc to_id now).1.csm_head = g.csm_head ∧
      (crt_swim_cli_cb g cci_rc to_id now).1.sc_last_success_time =
        (if cci_rc = 0 then now else g.sc_last_success_time)) ∧
    ((g.sc_last_success_time = 0 ∧ cci_rc ≠ 0) →
      (crt_swim_cli_cb g cci_rc to_id now).2.1 = false ∧
      (crt_swim_cli_cb g cci_rc to_id now).1.sc_last_success_time = 0) ∧
    (g.cg_swim_inited = true →
      (crt_swim_suspend_all g).1.csm_head =
        g.csm_head.map (fun cst =>
          if cst.cst_id ≠ g.sc_self then
            { cst with cst_state := { cst.cst_state with sms_status := SWIM_MEMBER_INACTIVE } }
          else cst)) := by
  have hsusp : g.cg_swim_inited = true →
      (crt_swim_suspend_all g).1.csm_head =
        g.csm_head.map (fun cst =>
          if cst.cst_id ≠ g.sc_self then
            { cst with cst_state := { cst.cst_state with sms_status := SWIM_MEMBER_INACTIVE } }
          else cst) := by
    intro hinit
    unfold crt_swim_suspend_all
    rw [if_neg (by simp [hinit])]
  by_cases hrc : cci_rc = 0
  · subst hrc
    rw [cli_cb_success g to_id now hnow]
    simpa using hsusp
  · obtain ⟨hyes, hno⟩ := cli_cb_failure g cci_rc to_id now hrc hnow hlast hsus
    simp only [hrc, if_false]
    by_cases hc : g.sc_last_success_time ≠ 0 ∧
        now - g.sc_last_success_time > 2 * g.swim_suspect_timeout / 3
    · obtain ⟨h1, h2, h3⟩ := hyes hc
      refine ⟨⟨fun _ => hc, fun _ => h1⟩, fun h => absurd h (by simp), fun _ => ⟨h2, h3⟩, ?_, ?_,
        hsusp⟩
      · intro hf
        rw [h1] at hf
        exact absurd hf (by simp)
      · rintro ⟨hz, _⟩
        exact absurd hz hc.1
    · obtain ⟨h1, h2, h3⟩ := hno hc
      refine ⟨⟨?_, fun h => absurd h hc⟩, fun h => absurd h (by simp), ?_, fun _ => ⟨h3, h2⟩, ?_,
        hsusp⟩
      · intro ht
        rw [h1] at ht
        exact absurd ht (by simp)
      · intro ht
        rw [h1] at ht
        exact absurd ht (by simp)
      · rintro ⟨hz, _⟩
        exact ⟨h1, by rw [h2, hz]⟩

/-- Witness for C22: the last success was at 1000 ms, the suspect timeout is 8000 ms and
a probe fails at 7000 ms: 6000 is above 5333, rank 1 becomes INACTIVE and the time of
the last success is reset. -/
theorem c22_outage_suppression_witness :
    crt_swim_cli_cb
        { engine0 with
          sc_self := 0, csm_target := some 0, sc_last_success_time := 1000
          csm_head := [mk_cst 0 77 0 SWIM_MEMBER_ALIVE, mk_cst 1 5 30 SWIM_MEMBER_ALIVE] }
        (-1) 1 7000 =
      ({ engine0 with
          sc_self := 0, csm_target := some 0, sc_last_success_time := 0
          csm_head := [mk_cst 0 77 0 SWIM_MEMBER_ALIVE, mk_cst 1 5 30 SWIM_MEMBER_INACTIVE] },
        true, []) ∧
    ((crt_swim_cli_cb
        { engine0 with
          sc_self := 0, csm_target := some 0, sc_last_success_time := 1000
          csm_head := [mk_cst 0 77 0 SWIM_MEMBER_ALIVE, mk_cst 1 5 30 SWIM_MEMBER_ALIVE] }
        (-1) 1 7000).2.1 = true ↔
      (if (-1 : Int) = 0 then 7000 else 1000) ≠ 0 ∧
        7000 - (if (-1 : Int) = 0 then 7000 else 1000) > 2 * 8000 / 3) :=
  ⟨by decide,
   (c22_outage_suppression
      { engine0 with
        sc_self := 0, csm_target := some 0, sc_last_success_time := 1000
        csm_head := [mk_cst 0 77 0 SWIM_MEMBER_ALIVE, mk_cst 1 5 30 SWIM_MEMBER_ALIVE] }
      (-1) 1 7000 (by norm_num) (by decide) (by norm_num [engine0])).1⟩

/-- C23 (counterexample): on the initialised engine of rank 0 whose self id is 0,
`crt_swim_disable` with context index -1 returns 0, not `-DER_INVAL`, and sets the self
id to `SWIM_ID_INVALID`. -/
theorem c23_disable_negative_index :
    crt_swim_disable 0 { engine0 with sc_self := 0 } (-1) =
        (0, { engine0 with sc_self := SWIM_ID_INVALID }, []) ∧
      (crt_swim_disable 0 { engine0 with sc_self := 0 } (-1)).1 ≠ -DER_INVAL ∧
      (crt_swim_disable 0 { engine0 with sc_self := 0 } (-1)).2.1.sc_self ≠
        ({ engine0 with sc_self := 0 } : crt_grp_priv).sc_self := by
  decide

/-- C23 (amended): on an initialised engine and for a negative context index,
`crt_swim_enable` returns `-DER_INVAL`, leaves the state (context index and self id
included) as it is and registers no callback; `crt_swim_disable` returns 0, sets the
self id to `SWIM_ID_INVALID`, leaves the context index as it is and unregisters no
callback. -/
theorem c23_negative_index (unreg_rc reg_rc : Int) (g : crt_grp_priv) (crt_ctx_idx : Int)
    (hinit : g.cg_swim_inited = true) (hneg : crt_ctx_idx < 0) :
    crt_swim_enable unreg_rc reg_rc g crt_ctx_idx = (-DER_INVAL, g, []) ∧
      crt_swim_disable unreg_rc g crt_ctx_idx =
        (0, { g with sc_self := SWIM_ID_INVALID }, []) := by
  constructor
  · unfold crt_swim_enable
    rw [if_neg (by simp [hinit])]
    by_cases hs : g.gp_self = CRT_NO_RANK
    · rw [if_pos hs]
    · rw [if_neg hs, if_pos hneg]
  · unfold crt_swim_disable
    rw [if_neg (by simp [hinit]), if_pos hneg]

/-- Witness for C23 (amended): context index -1 on the engine of rank 0 with self id 0. -/
theorem c23_negative_index_witness :
    crt_swim_enable 0 0 { engine0 with sc_self := 0 } (-1) =
        (-DER_INVAL, { engine0 with sc_self := 0 }, []) ∧
      crt_swim_disable 0 { engine0 with sc_self := 0 } (-1) =
        (0, { { engine0 with sc_self := 0 } with sc_self := SWIM_ID_INVALID }, []) :=
  c23_negative_index 0 0 { engine0 with sc_self := 0 } (-1) rfl (by decide)

/-! ## Cursor validity and distinct ids -/

theorem memb_inv_congr (g g2 : crt_grp_priv) (h1 : g2.csm_head = g.csm_head)
    (h2 : g2.csm_target = g.csm_target) (h : memb_inv g) : memb_inv g2 := by
  unfold memb_inv csm_wf member_ids at *
  rw [h1, h2]
  exact h

theorem memb_inv_mk (g : crt_grp_priv) (head : List crt_swim_target) (t : Nat)
    (h1 : g.csm_head = head) (h2 : g.csm_target = some t) (ht : t < head.length)
    (hn : (head.map (fun cst => cst.cst_id)).Nodup) : memb_inv g := by
  unfold memb_inv csm_wf member_ids
  rw [h1, h2]
  exact ⟨ht, hn⟩

theorem memb_inv_empty (g : crt_grp_priv) (h1 : g.csm_head = []) (h2 : g.csm_target = none) :
    memb_inv g := by
  unfold memb_inv csm_wf member_ids
  rw [h1, h2]
  exact ⟨rfl, List.nodup_nil⟩

theorem cst_index_lt (id : Nat) (l : List crt_swim_target) :
    ∀ i, cst_index id l = some i → i < l.length := by
  induction l with
  | nil =>
    intro i h
    simp [cst_index] at h
  | cons a l ih =>
    intro i h
    unfold cst_index at h
    by_cases ha : a.cst_id = id
    · rw [if_pos ha] at h
      have : i = 0 := (Option.some.inj h).symm
      subst this
      simp
    · rw [if_neg ha] at h
      cases hc : cst_index id l with
      | none => simp [hc] at h
      | some j =>
        simp only [hc, Option.map_some', Option.some.injEq] at h
        have := ih j hc
        rw [← h]
        simp
        omega

theorem loop_next_lt (len t : Nat) (h : 0 < len) : circleq_loop_next len t < len := by
  unfold circleq_loop_next
  split_ifs with h1
  · exact h1
  · exact h

theorem cursor_advance_lt (len : Nat) (h : 0 < len) :
    ∀ n t, t < len → cursor_advance len n t < len := by
  intro n
  induction n with
  | zero =>
    intro t ht
    exact ht
  | succ n ih =>
    intro t _
    unfold cursor_advance
    exact ih _ (loop_next_lt len t h)

theorem insert_after_length (l : List crt_swim_target) (t : Nat) (x : crt_swim_target) :
    (circleq_insert_after l t x).length = l.length + 1 := by
  unfold circleq_insert_after
  have := List.take_append_drop (t + 1) l
  have hl : l.length = (l.take (t + 1)).length + (l.drop (t + 1)).length := by
    rw [← List.length_append, this]
  rw [List.length_append, List.length_cons]
  omega

theorem insert_after_ids (l : List crt_swim_target) (t : Nat) (x : crt_swim_target) :
    ((circleq_insert_after l t x).map (fun cst => cst.cst_id)).Perm
      (x.cst_id :: l.map (fun cst => cst.cst_id)) := by
  unfold circleq_insert_after
  have h : (l.take (t + 1) ++ x :: l.drop (t + 1)).Perm
      (x :: (l.take (t + 1) ++ l.drop (t + 1))) := List.perm_middle
  rw [List.take_append_drop] at h
  exact h.map _

theorem rank_del_cursor (g : crt_grp_priv) (r i t : Nat) (hinit : g.cg_swim_inited = true)
    (hi : cst_index r g.csm_head = some i) (ht : g.csm_target = some t) :
    ∃ g2, crt_swim_rank_del g r = some (0, g2) ∧ g2.csm_head = g.csm_head.eraseIdx i ∧
      g2.csm_target =
        (if g.csm_head.eraseIdx i = [] then none
         else if t = i then
           some (if circleq_loop_next g.csm_head.length t > i then
             circleq_loop_next g.csm_head.length t - 1
           else circleq_loop_next g.csm_head.length t)
         else some (if t > i then t - 1 else t)) := by
  unfold crt_swim_rank_del
  have hn : ¬ (g.cg_swim_inited = false) := by simp [hinit]
  rw [if_neg hn, hi, ht]
  dsimp only
  by_cases he : g.csm_head.eraseIdx i = []
  · rw [if_pos he, if_pos he]
    by_cases hs : r = g.gp_self
    · rw [if_pos hs]
      exact ⟨_, rfl, rfl, rfl⟩
    · rw [if_neg hs]
      exact ⟨_, rfl, rfl, rfl⟩
  · rw [if_neg he, if_neg he]
    by_cases hti : t = i
    · rw [if_pos hti, if_pos hti]
      by_cases hs : r = g.gp_self
      · rw [if_pos hs]
        exact ⟨_, rfl, rfl, rfl⟩
      · rw [if_neg hs]
        exact ⟨_, rfl, rfl, rfl⟩
    · rw [if_neg hti, if_neg hti]
      by_cases hs : r = g.gp_self
      · rw [if_pos hs]
        exact ⟨_, rfl, rfl, rfl⟩
      · rw [if_neg hs]
        exact ⟨_, rfl, rfl, rfl⟩

theorem rank_del_absent_cursor (g : crt_grp_priv) (r : Nat)
    (h : cst_index r g.csm_head = none) :
    ∃ rc g2, crt_swim_rank_del g r = some (rc, g2) ∧ g2.csm_head = g.csm_head ∧
      g2.csm_target = g.csm_target := by
  unfold crt_swim_rank_del
  by_cases hi : g.cg_swim_inited = false
  · rw [if_pos hi]
    exact ⟨0, g, rfl, rfl, rfl⟩
  · rw [if_neg hi, h]
    dsimp only
    by_cases hs : r = g.gp_self
    · rw [if_pos hs]
      exact ⟨_, _, rfl, rfl, rfl⟩
    · rw [if_neg hs]
      exact ⟨_, _, rfl, rfl, rfl⟩

theorem rank_del_inv (g : crt_grp_priv) (r : Nat) (h : memb_inv g) :
    ∃ rc g2, crt_swim_rank_del g r = some (rc, g2) ∧ memb_inv g2 := by
  by_cases hinit : g.cg_swim_inited = true
  · cases hi : cst_index r g.csm_head with
    | none =>
      obtain ⟨rc, g2, h1, h2, h3⟩ := rank_del_absent_cursor g r hi
      exact ⟨rc, g2, h1, memb_inv_congr g g2 h2 h3 h⟩
    | some i =>
      have hil := cst_index_lt r g.csm_head i hi
      obtain ⟨hwf, hnd⟩ := h
      unfold csm_wf at hwf
      cases ht : g.csm_target with
      | none =>
        rw [ht] at hwf
        rw [hwf] at hil
        simp at hil
      | some t =>
        rw [ht] at hwf
        dsimp only at hwf
        obtain ⟨g2, h1, h2, h3⟩ := rank_del_cursor g r i t hinit hi ht
        refine ⟨0, g2, h1, ?_⟩
        have hlen : (g.csm_head.eraseIdx i).length = g.csm_head.length - 1 := by
          rw [List.length_eraseIdx, if_pos hil]
        have hnd2 : ((g.csm_head.eraseIdx i).map (fun cst => cst.cst_id)).Nodup :=
          List.Nodup.sublist ((List.eraseIdx_sublist g.csm_head i).map _) hnd
        by_cases he : g.csm_head.eraseIdx i = []
        · rw [if_pos he] at h3
          exact memb_inv_empty g2 (h2.trans he) h3
        · rw [if_neg he] at h3
          have hpos : 0 < (g.csm_head.eraseIdx i).length := List.length_pos.mpr he
          by_cases hti : t = i
          · rw [if_pos hti] at h3
            refine memb_inv_mk g2 _ _ h2 h3 ?_ hnd2
            rw [hlen]
            unfold circleq_loop_next
            split_ifs <;> omega
          · rw [if_neg hti] at h3
            refine memb_inv_mk g2 _ _ h2 h3 ?_ hnd2
            rw [hlen]
            split_ifs <;> omega
  · refine ⟨0, g, ?_, h⟩
    unfold crt_swim_rank_del
    rw [if_pos (by simpa using hinit)]

theorem check_self_inv (g : crt_grp_priv) (h : memb_inv g) : memb_inv (rank_add_check_self g) :=
  memb_inv_congr g _ (check_self_config g).2.1 (check_self_config g).2.2 h

theorem rank_add_member_inv (rnd : Nat) (g : crt_grp_priv) (rank : Nat) (h : memb_inv g)
    (hne : g.csm_head ≠ []) (hnot : ∀ c ∈ g.csm_head, c.cst_id ≠ rank) :
    ∃ g2, rank_add_member rnd g rank = some g2 ∧ memb_inv g2 := by
  obtain ⟨hwf, hnd⟩ := h
  unfold csm_wf at hwf
  cases ht : g.csm_target with
  | none =>
    rw [ht] at hwf
    exact absurd hwf hne
  | some t =>
    rw [ht] at hwf
    dsimp only at hwf
    unfold rank_add_member
    rw [ht]
    dsimp only
    refine ⟨_, rfl, ?_⟩
    refine memb_inv_mk _ _ _ rfl rfl ?_ ?_
    · apply cursor_advance_lt
      · rw [insert_after_length]
        omega
      · rw [insert_after_length]
        omega
    · refine (List.Perm.nodup_iff (insert_after_ids g.csm_head t _)).mpr ?_
      refine List.nodup_cons.mpr ⟨?_, hnd⟩
      intro hmem
      obtain ⟨c, hc, hcid⟩ := List.mem_map.mp hmem
      exact hnot c hc hcid

theorem rank_add_inv (alloc1 alloc2 : Bool) (rnd : Nat) (g : crt_grp_priv) (rank : Nat)
    (h : memb_inv g) :
    ∃ rc g2, crt_swim_rank_add alloc1 alloc2 rnd g rank = some (rc, g2) ∧ memb_inv g2 := by
  unfold crt_swim_rank_add
  by_cases hi : g.cg_swim_inited = false
  · rw [if_pos hi]
    exact ⟨_, _, rfl, h⟩
  rw [if_neg hi]
  by_cases hs : g.gp_self = CRT_NO_RANK
  · rw [if_pos hs]
    exact ⟨_, _, rfl, h⟩
  rw [if_neg hs]
  by_cases ha : alloc1 = false
  · rw [if_pos ha]
    exact ⟨_, _, rfl, h⟩
  rw [if_neg ha]
  by_cases he : g.csm_head = []
  · rw [if_pos he]
    dsimp only
    have h1 : memb_inv
        { g with
          csm_head := [{ cst_id := g.gp_self
                         cst_state := { sms_incarnation := g.csm_incarnation, sms_delay := 0,
                                        sms_status := SWIM_MEMBER_ALIVE } }]
          csm_target := some 0 } :=
      memb_inv_mk _ _ 0 rfl rfl (by simp) (by simp)
    by_cases hr : rank = g.gp_self
    · rw [if_neg (by simpa using hr)]
      exact ⟨_, _, rfl, check_self_inv _ h1⟩
    · rw [if_pos hr]
      by_cases ha2 : alloc2 = false
      · rw [if_pos ha2]
        obtain ⟨rc, g2, hd, hinv⟩ := rank_del_inv _ g.gp_self h1
        rw [hd]
        exact ⟨_, _, rfl, hinv⟩
      · rw [if_neg ha2]
        obtain ⟨g2, hm, hinv⟩ := rank_add_member_inv rnd _ rank h1 (by simp)
          (by
            intro c hc
            have : c.cst_id = g.gp_self := by
              have hc2 := List.mem_singleton.mp hc
              rw [hc2]
            rw [this]
            exact fun hh => hr hh.symm)
        rw [hm]
        exact ⟨_, _, rfl, check_self_inv _ hinv⟩
  · rw [if_neg he]
    cases hidx : cst_index rank g.csm_head with
    | some i =>
      rw [if_pos (by simp)]
      exact ⟨_, _, rfl, check_self_inv _ h⟩
    | none =>
      rw [if_neg (by simp)]
      by_cases hr : rank = g.gp_self
      · rw [if_neg (by simpa using hr)]
        exact ⟨_, _, rfl, check_self_inv _ h⟩
      · rw [if_pos hr]
        obtain ⟨g2, hm, hinv⟩ := rank_add_member_inv rnd g rank h he
          ((cst_index_none_iff rank g.csm_head).mp hidx)
        rw [hm]
        exact ⟨_, _, rfl, check_self_inv _ hinv⟩

theorem rank_del_all_inv (g : crt_grp_priv) (h : memb_inv g) :
    memb_inv (crt_swim_rank_del_all g) := by
  unfold crt_swim_rank_del_all
  split_ifs
  · exact h
  · exact memb_inv_empty _ rfl rfl

theorem memb_step_inv (g : crt_grp_priv) (op : memb_op) (h : memb_inv g) :
    ∃ g2, memb_step g op = some g2 ∧ memb_inv g2 := by
  cases op with
  | add alloc1 alloc2 rnd rank =>
    obtain ⟨rc, g2, h1, h2⟩ := rank_add_inv alloc1 alloc2 rnd g rank h
    exact ⟨g2, by simp [memb_step, h1], h2⟩
  | del rank =>
    obtain ⟨rc, g2, h1, h2⟩ := rank_del_inv g rank h
    exact ⟨g2, by simp [memb_step, h1], h2⟩
  | del_all => exact ⟨_, rfl, rank_del_all_inv g h⟩

theorem memb_run_inv (ops : List memb_op) :
    ∀ g : crt_grp_priv, memb_inv g → ∃ g2, memb_run g ops = some g2 ∧ memb_inv g2 := by
  induction ops with
  | nil =>
    intro g h
    exact ⟨g, rfl, h⟩
  | cons op ops ih =>
    intro g h
    obtain ⟨g1, h1, hinv1⟩ := memb_step_inv g op h
    obtain ⟨g2, h2, hinv2⟩ := ih g1 hinv1
    refine ⟨g2, ?_, hinv2⟩
    unfold memb_run
    rw [h1]
    exact h2

theorem dping_loop_returns (self_id gp_size : Nat) (l : List crt_swim_target)
    (hl : 0 < l.length) (hg : gp_size + 1 < 2 ^ 32) :
    ∀ fuel count cur : Nat, count ≤ gp_size + 1 → gp_size + 2 ≤ fuel + count →
      (dping_loop self_id gp_size l fuel count cur).isSome = true := by
  intro fuel
  induction fuel with
  | zero =>
    intro count cur h1 h2
    omega
  | succ fuel ih =>
    intro count cur h1 h2
    unfold dping_loop
    by_cases hc : count > gp_size
    · rw [if_pos hc]
      rfl
    · rw [if_neg hc]
      dsimp only
      have hlt := loop_next_lt l.length cur hl
      rw [List.getElem?_eq_getElem hlt]
      dsimp only
      split_ifs
      · have hmod : (count + 1) % 2 ^ 32 = count + 1 := Nat.mod_eq_of_lt (by omega)
        rw [hmod]
        exact ih _ _ (by omega) (by omega)
      · rfl

/-- C27: from a state with an empty list and a `NULL` cursor, every sequence of
`crt_swim_rank_add`, `crt_swim_rank_del` and `crt_swim_rank_del_all` calls (with any
outcome of the allocations and of `rand()`) runs through without reading a `NULL`
cursor and ends in a state whose cursor is `NULL` exactly when the list is empty and
else is the index of a record of the list; so on a non-empty list the assertion of
`crt_swim_get_dping_target` holds and the function returns. -/
theorem c27_cursor_validity (g0 : crt_grp_priv) (ops : List memb_op)
    (hhead : g0.csm_head = []) (htgt : g0.csm_target = none) :
    ∃ g, memb_run g0 ops = some g ∧
      (g.csm_target = none ↔ g.csm_head = []) ∧
      (∀ t, g.csm_target = some t → ∃ cst, g.csm_head[t]? = some cst) ∧
      (g.csm_head ≠ [] → g.csm_target ≠ none) ∧
      (g.csm_head ≠ [] → g.gp_size + 1 < 2 ^ 32 →
        (crt_swim_get_dping_target (g.gp_size + 2) g).isSome = true) := by
  obtain ⟨g, hrun, hwf, _⟩ := memb_run_inv ops g0 (memb_inv_empty g0 hhead htgt)
  refine ⟨g, hrun, ?_⟩
  unfold csm_wf at hwf
  cases ht : g.csm_target with
  | none =>
    rw [ht] at hwf
    dsimp only at hwf
    refine ⟨⟨fun _ => hwf, fun _ => rfl⟩, ?_, fun hne => absurd hwf hne,
      fun hne => absurd hwf hne⟩
    intro t h
    exact absurd h (by simp)
  | some t =>
    rw [ht] at hwf
    dsimp only at hwf
    have hne : g.csm_head ≠ [] := by
      intro he
      rw [he] at hwf
      simp at hwf
    refine ⟨⟨fun h => absurd h (by simp), fun h => absurd h hne⟩, ?_, fun _ => by simp, ?_⟩
    · intro t2 h2
      have : t2 = t := (Option.some.inj h2).symm
      subst this
      exact ⟨g.csm_head[t2], List.getElem?_eq_getElem hwf⟩
    · intro _ hg
      unfold crt_swim_get_dping_target
      rw [ht]
      dsimp only
      have h := dping_loop_returns g.sc_self g.gp_size g.csm_head (List.length_pos.mpr hne) hg
        (g.gp_size + 2) 0 t (by omega) (by omega)
      cases hd : dping_loop g.sc_self g.gp_size g.csm_head (g.gp_size + 2) 0 t with
      | none => rw [hd] at h; exact absurd h (by simp)
      | some r => rfl

/-- Witness for C27: ranks 0 and 1 are added, rank 0 is deleted, all are deleted and
rank 2 is added. -/
theorem c27_cursor_validity_witness :
    ∃ g, memb_run engine0
        [memb_op.add true true 5 0, memb_op.add true true 7 1, memb_op.del 0,
         memb_op.del_all, memb_op.add true true 3 2] = some g ∧
      (g.csm_target = none ↔ g.csm_head = []) ∧
      (∀ t, g.csm_target = some t → ∃ cst, g.csm_head[t]? = some cst) ∧
      (g.csm_head ≠ [] → g.csm_target ≠ none) ∧
      (g.csm_head ≠ [] → g.gp_size + 1 < 2 ^ 32 →
        (crt_swim_get_dping_target (g.gp_size + 2) g).isSome = true) :=
  c27_cursor_validity engine0
    [memb_op.add true true 5 0, memb_op.add true true 7 1, memb_op.del 0,
     memb_op.del_all, memb_op.add true true 3 2] rfl rfl

end Swim

/-! # Object ids: theorems -/

namespace Object

theorem sr_get_rank_le (fmt : oid_fmt) (oid : daos_obj_id_t) (r : Nat)
    (h : daos_oclass_sr_get_rank fmt oid = some r) : r ≤ 255 := by
  unfold daos_oclass_sr_get_rank at h
  split at h
  · have hr := Option.some.inj h
    rw [← hr]
    have h1 : oid.hi &&& DAOS_OC_SR_MASK ≤ DAOS_OC_SR_MASK := Nat.and_le_right
    have h2 : (oid.hi &&& DAOS_OC_SR_MASK) >>> DAOS_OC_SR_SHIFT ≤
        DAOS_OC_SR_MASK >>> DAOS_OC_SR_SHIFT := by
      rw [Nat.shiftRight_eq_div_pow, Nat.shiftRight_eq_div_pow]
      exact Nat.div_le_div_right h1
    have h3 : DAOS_OC_SR_MASK >>> DAOS_OC_SR_SHIFT = 255 := by decide
    rw [h3] at h2
    exact Nat.le_trans (Nat.mod_le _ _) h2
  · exact absurd h (by simp)

/-- C30 (failing input): the id of class `DAOS_OC_R1S_SPEC_RANK` with clear rank bits
and rank 256, which the assertion `rank < (1 << DAOS_OC_SR_SHIFT)` lets through:
`daos_oclass_sr_set_rank` sets bit 32 of `hi`, outside the rank field, and
`daos_oclass_sr_get_rank` of the result is 0; and whatever the position of the class
field, no rank from 256 on is read back from an id that `daos_oclass_sr_set_rank`
returned for it. -/
theorem c30_rank_256_not_read_back :
    daos_oclass_sr_set_rank oid_fmt_default { lo := 7, hi := 18 <<< 32 } 256 =
        some { lo := 7, hi := 19 <<< 32 } ∧
      daos_oclass_sr_get_rank oid_fmt_default { lo := 7, hi := 19 <<< 32 } = some 0 ∧
      (∀ (fmt : oid_fmt) (oid oid1 : daos_obj_id_t) (rank : Nat), 256 ≤ rank →
        daos_oclass_sr_set_rank fmt oid rank = some oid1 →
        daos_oclass_sr_get_rank fmt oid1 ≠ some rank) := by
  refine ⟨by decide, by decide, ?_⟩
  intro fmt oid oid1 rank hr _ hget
  have := sr_get_rank_le fmt oid1 rank hget
  omega

end Object
